import Mathlib

/-! AWS IoT Device Shadow: topic matching and topic assembly.

A shallow embedding of `source/shadow.c` (with the constants of
`source/include/shadow.h`) and theorems about it.

Conventions of the embedding

* A C `char` is a natural number (`Byte`); a string literal is the list of its
  bytes, the terminating NUL being what a read past the end of the list gives.
* A pointer to readable memory is an `Option (List Byte)`: `none` is `NULL`,
  `some m` points at the bytes `m`. `&p[k]` is `m.drop k`.
* An output pointer is an `Option` holding the current value of the pointee:
  `none` is `NULL`, `some v` points at memory that holds `v`. Functions return
  the pointees after the call.
* `uint16_t` arithmetic is written with an explicit `% 65536`.
-/

namespace Shadow

/-- A C `char` value. -/
abbrev Byte := Nat

/-- The bytes of a C string literal, without the terminating NUL. -/
def cstr (s : String) : List Byte := s.toList.map Char.toNat

/-- The `uint16_t` sum of two `uint16_t` values. -/
def u16add (a b : Nat) : Nat := (a + b) % 65536

/-- The `uint16_t` difference of two `uint16_t` values (wraps when `a < b`). -/
def u16sub (a b : Nat) : Nat := (a + 65536 - b) % 65536

/-! ## Types of `shadow.h` -/

/-- The enum `ShadowMessageType_t`. -/
inductive ShadowMessageType_t where
  | ShadowMessageTypeGetAccepted
  | ShadowMessageTypeGetRejected
  | ShadowMessageTypeDeleteAccepted
  | ShadowMessageTypeDeleteRejected
  | ShadowMessageTypeUpdateAccepted
  | ShadowMessageTypeUpdateRejected
  | ShadowMessageTypeUpdateDocuments
  | ShadowMessageTypeUpdateDelta
  | ShadowMessageTypeMaxNum
  deriving DecidableEq

/-- The enum `ShadowStatus_t`. -/
inductive ShadowStatus_t where
  | SHADOW_SUCCESS
  | SHADOW_FAIL
  | SHADOW_BAD_PARAMETER
  | SHADOW_BUFFER_TOO_SMALL
  | SHADOW_THINGNAME_PARSE_FAILED
  | SHADOW_MESSAGE_TYPE_PARSE_FAILED
  | SHADOW_ROOT_PARSE_FAILED
  | SHADOW_SHADOWNAME_PARSE_FAILED
  deriving DecidableEq

open ShadowMessageType_t ShadowStatus_t

/-- The enum `ShadowTopicStringType_t`, as the integer a caller passes: the
assembler itself tests `topicType >= ShadowTopicStringTypeMaxNum`. -/
abbrev ShadowTopicStringType_t := Nat

abbrev ShadowTopicStringTypeGet : ShadowTopicStringType_t := 0
abbrev ShadowTopicStringTypeGetAccepted : ShadowTopicStringType_t := 1
abbrev ShadowTopicStringTypeGetRejected : ShadowTopicStringType_t := 2
abbrev ShadowTopicStringTypeDelete : ShadowTopicStringType_t := 3
abbrev ShadowTopicStringTypeDeleteAccepted : ShadowTopicStringType_t := 4
abbrev ShadowTopicStringTypeDeleteRejected : ShadowTopicStringType_t := 5
abbrev ShadowTopicStringTypeUpdate : ShadowTopicStringType_t := 6
abbrev ShadowTopicStringTypeUpdateAccepted : ShadowTopicStringType_t := 7
abbrev ShadowTopicStringTypeUpdateRejected : ShadowTopicStringType_t := 8
abbrev ShadowTopicStringTypeUpdateDocuments : ShadowTopicStringType_t := 9
abbrev ShadowTopicStringTypeUpdateDelta : ShadowTopicStringType_t := 10
abbrev ShadowTopicStringTypeMaxNum : ShadowTopicStringType_t := 11

/-- A `const char *` value stored through `pThingName` or `pShadowName`:
`NULL`, or the address `&pTopic[k]` inside the topic string. -/
inductive CharPtr where
  | null
  | topicAt (k : Nat)
  deriving DecidableEq

/-! ## Constants of `shadow.h` and `shadow.c` -/

/-- The value of `( uint16_t ) ( sizeof( lit ) - 1U )` for a string literal. -/
def literalLength (lit : List Byte) : Nat := (lit.length + 1 - 1) % 65536

def SHADOW_PREFIX : List Byte := cstr "$aws/things/"
def SHADOW_PREFIX_LENGTH : Nat := literalLength SHADOW_PREFIX
def SHADOW_CLASSIC_ROOT : List Byte := cstr "/shadow"
def SHADOW_CLASSIC_ROOT_LENGTH : Nat := literalLength SHADOW_CLASSIC_ROOT
def SHADOW_NAMED_ROOT : List Byte := cstr "/shadow/name/"
def SHADOW_NAMED_ROOT_LENGTH : Nat := literalLength SHADOW_NAMED_ROOT
def SHADOW_OP_DELETE : List Byte := cstr "/delete"
def SHADOW_OP_DELETE_LENGTH : Nat := literalLength SHADOW_OP_DELETE
def SHADOW_OP_GET : List Byte := cstr "/get"
def SHADOW_OP_GET_LENGTH : Nat := literalLength SHADOW_OP_GET
def SHADOW_OP_UPDATE : List Byte := cstr "/update"
def SHADOW_OP_UPDATE_LENGTH : Nat := literalLength SHADOW_OP_UPDATE
def SHADOW_SUFFIX_ACCEPTED : List Byte := cstr "/accepted"
def SHADOW_SUFFIX_ACCEPTED_LENGTH : Nat := literalLength SHADOW_SUFFIX_ACCEPTED
def SHADOW_SUFFIX_REJECTED : List Byte := cstr "/rejected"
def SHADOW_SUFFIX_REJECTED_LENGTH : Nat := literalLength SHADOW_SUFFIX_REJECTED
def SHADOW_SUFFIX_DELTA : List Byte := cstr "/delta"
def SHADOW_SUFFIX_DELTA_LENGTH : Nat := literalLength SHADOW_SUFFIX_DELTA
def SHADOW_SUFFIX_DOCUMENTS : List Byte := cstr "/documents"
def SHADOW_SUFFIX_DOCUMENTS_LENGTH : Nat := literalLength SHADOW_SUFFIX_DOCUMENTS

/-- The constant `SHADOW_THINGNAME_LENGTH_MAX` of `shadow.h`. -/
def SHADOW_THINGNAME_LENGTH_MAX : Nat := 128

/-- The constant `SHADOW_NAME_LENGTH_MAX` of `shadow.h`. -/
def SHADOW_NAME_LENGTH_MAX : Nat := 64

def SHADOW_OP_UPDATE_ACCEPTED : List Byte := SHADOW_OP_UPDATE ++ SHADOW_SUFFIX_ACCEPTED
def SHADOW_OP_UPDATE_REJECTED : List Byte := SHADOW_OP_UPDATE ++ SHADOW_SUFFIX_REJECTED
def SHADOW_OP_UPDATE_DELTA : List Byte := SHADOW_OP_UPDATE ++ SHADOW_SUFFIX_DELTA
def SHADOW_OP_UPDATE_DOCUMENTS : List Byte := SHADOW_OP_UPDATE ++ SHADOW_SUFFIX_DOCUMENTS
def SHADOW_OP_DELETE_ACCEPTED : List Byte := SHADOW_OP_DELETE ++ SHADOW_SUFFIX_ACCEPTED
def SHADOW_OP_DELETE_REJECTED : List Byte := SHADOW_OP_DELETE ++ SHADOW_SUFFIX_REJECTED
def SHADOW_OP_GET_ACCEPTED : List Byte := SHADOW_OP_GET ++ SHADOW_SUFFIX_ACCEPTED
def SHADOW_OP_GET_REJECTED : List Byte := SHADOW_OP_GET ++ SHADOW_SUFFIX_REJECTED

def SHADOW_OP_UPDATE_ACCEPTED_LENGTH : Nat := SHADOW_OP_UPDATE_LENGTH + SHADOW_SUFFIX_ACCEPTED_LENGTH
def SHADOW_OP_UPDATE_REJECTED_LENGTH : Nat := SHADOW_OP_UPDATE_LENGTH + SHADOW_SUFFIX_REJECTED_LENGTH
def SHADOW_OP_UPDATE_DOCUMENTS_LENGTH : Nat := SHADOW_OP_UPDATE_LENGTH + SHADOW_SUFFIX_DOCUMENTS_LENGTH
def SHADOW_OP_UPDATE_DELTA_LENGTH : Nat := SHADOW_OP_UPDATE_LENGTH + SHADOW_SUFFIX_DELTA_LENGTH
def SHADOW_OP_GET_ACCEPTED_LENGTH : Nat := SHADOW_OP_GET_LENGTH + SHADOW_SUFFIX_ACCEPTED_LENGTH
def SHADOW_OP_GET_REJECTED_LENGTH : Nat := SHADOW_OP_GET_LENGTH + SHADOW_SUFFIX_REJECTED_LENGTH
def SHADOW_OP_DELETE_ACCEPTED_LENGTH : Nat := SHADOW_OP_DELETE_LENGTH + SHADOW_SUFFIX_ACCEPTED_LENGTH
def SHADOW_OP_DELETE_REJECTED_LENGTH : Nat := SHADOW_OP_DELETE_LENGTH + SHADOW_SUFFIX_REJECTED_LENGTH

/-! ## Library functions used by `shadow.c` -/

/-- The C library `strncmp`: compares at most `n` characters and stops after a
NUL. A read past the end of a list gives NUL (the terminator of a literal). -/
def strncmp : List Byte → List Byte → Nat → Int
  | _, _, 0 => 0
  | s1, s2, n + 1 =>
    if s1.headD 0 ≠ s2.headD 0 then (s1.headD 0 : Int) - (s2.headD 0 : Int)
    else if s1.headD 0 = 0 then 0
    else strncmp s1.tail s2.tail n

/-- The C library `memcpy( &dest[ offset ], src, n )`: writes `src[0..n)` to
`dest[offset..offset+n)`. -/
def memcpy (dest : List Byte) (offset : Nat) (src : List Byte) : Nat → List Byte
  | 0 => dest
  | n + 1 => (memcpy dest offset src n).set (offset + n) (src.getD n 0)

/-! ## The static functions of `shadow.c` -/

/-- The function `validateMatchTopicParameters`. -/
def validateMatchTopicParameters (pTopic : Option (List Byte)) (topicLength : Nat)
    (pMessageType : Option ShadowMessageType_t) : ShadowStatus_t :=
  if pTopic = none ∨ topicLength = 0 ∨ pMessageType = none then SHADOW_BAD_PARAMETER
  else SHADOW_SUCCESS

/-- The function `containsSubString`. -/
def containsSubString (pString : List Byte) (stringLength : Nat)
    (pSubString : List Byte) (subStringLength : Nat) : ShadowStatus_t :=
  if stringLength ≥ subStringLength then
    if strncmp pString pSubString subStringLength = 0 then SHADOW_SUCCESS else SHADOW_FAIL
  else SHADOW_FAIL

/-- The loop of `validateName`, at `index` with `stringLength - index = remaining`
iterations left; returns the status and `*pNameLength`. -/
def validateNameLoop (pString : List Byte) (pNameLength : Nat) : Nat → Nat → ShadowStatus_t × Nat
  | _, 0 => (SHADOW_FAIL, pNameLength)
  | index, remaining + 1 =>
    if pString.getD index 0 = '/'.toNat then
      if index > 0 then (SHADOW_SUCCESS, index) else (SHADOW_FAIL, pNameLength)
    else validateNameLoop pString pNameLength (index + 1) remaining

/-- The function `validateName`; `pNameLength` is the value `*pNameLength` holds
at the call, the second component of the result the value it holds after. -/
def validateName (pString : List Byte) (stringLength : Nat) (pNameLength : Nat) :
    ShadowStatus_t × Nat :=
  validateNameLoop pString pNameLength 0 stringLength

/-- The function `extractShadowRootAndName`; returns the status,
`*pConsumedTopicLength` and `*pShadowNameLength`. -/
def extractShadowRootAndName (pTopic : List Byte) (topicLength : Nat)
    (pConsumedTopicLength : Nat) (pShadowNameLength : Nat) : ShadowStatus_t × Nat × Nat :=
  if containsSubString (pTopic.drop pConsumedTopicLength)
      (u16sub topicLength pConsumedTopicLength) SHADOW_NAMED_ROOT SHADOW_NAMED_ROOT_LENGTH
      = SHADOW_SUCCESS then
    let consumed := u16add pConsumedTopicLength SHADOW_NAMED_ROOT_LENGTH
    let r := validateName (pTopic.drop consumed) (u16sub topicLength consumed) pShadowNameLength
    if r.1 = SHADOW_SUCCESS then (SHADOW_SUCCESS, u16add consumed r.2, r.2)
    else (SHADOW_SHADOWNAME_PARSE_FAILED, consumed, r.2)
  else
    if containsSubString (pTopic.drop pConsumedTopicLength)
        (u16sub topicLength pConsumedTopicLength) SHADOW_CLASSIC_ROOT SHADOW_CLASSIC_ROOT_LENGTH
        = SHADOW_SUCCESS then
      (SHADOW_SUCCESS, u16add pConsumedTopicLength SHADOW_CLASSIC_ROOT_LENGTH, pShadowNameLength)
    else (SHADOW_ROOT_PARSE_FAILED, pConsumedTopicLength, pShadowNameLength)

/-- The lookup table `pMessageStrings` of `extractShadowMessageType`. -/
def pMessageStrings : List (List Byte) :=
  [SHADOW_OP_GET_ACCEPTED, SHADOW_OP_GET_REJECTED, SHADOW_OP_DELETE_ACCEPTED,
   SHADOW_OP_DELETE_REJECTED, SHADOW_OP_UPDATE_ACCEPTED, SHADOW_OP_UPDATE_REJECTED,
   SHADOW_OP_UPDATE_DOCUMENTS, SHADOW_OP_UPDATE_DELTA]

/-- The lookup table `pMessageStringsLength` of `extractShadowMessageType`. -/
def pMessageStringsLength : List Nat :=
  [SHADOW_OP_GET_ACCEPTED_LENGTH, SHADOW_OP_GET_REJECTED_LENGTH, SHADOW_OP_DELETE_ACCEPTED_LENGTH,
   SHADOW_OP_DELETE_REJECTED_LENGTH, SHADOW_OP_UPDATE_ACCEPTED_LENGTH,
   SHADOW_OP_UPDATE_REJECTED_LENGTH, SHADOW_OP_UPDATE_DOCUMENTS_LENGTH,
   SHADOW_OP_UPDATE_DELTA_LENGTH]

/-- The lookup table `pMessageTypes` of `extractShadowMessageType`. -/
def pMessageTypes : List ShadowMessageType_t :=
  [ShadowMessageTypeGetAccepted, ShadowMessageTypeGetRejected, ShadowMessageTypeDeleteAccepted,
   ShadowMessageTypeDeleteRejected, ShadowMessageTypeUpdateAccepted,
   ShadowMessageTypeUpdateRejected, ShadowMessageTypeUpdateDocuments,
   ShadowMessageTypeUpdateDelta]

/-- The loop of `extractShadowMessageType`, at `index` with `remaining` table
entries left; `returnStatus` and `pMessageType` are the values of the variable
and of `*pMessageType` on entry to the iteration. -/
def extractShadowMessageTypeLoop (pString : List Byte) (stringLength : Nat) :
    Nat → Nat → ShadowStatus_t → ShadowMessageType_t → ShadowStatus_t × ShadowMessageType_t
  | _, 0, returnStatus, pMessageType => (returnStatus, pMessageType)
  | index, remaining + 1, _, pMessageType =>
    if containsSubString pString stringLength (pMessageStrings.getD index [])
        (pMessageStringsLength.getD index 0) = SHADOW_SUCCESS then
      if stringLength ≠ pMessageStringsLength.getD index 0 then
        extractShadowMessageTypeLoop pString stringLength (index + 1) remaining
          SHADOW_FAIL pMessageType
      else (SHADOW_SUCCESS, pMessageTypes.getD index ShadowMessageTypeMaxNum)
    else
      extractShadowMessageTypeLoop pString stringLength (index + 1) remaining
        (containsSubString pString stringLength (pMessageStrings.getD index [])
          (pMessageStringsLength.getD index 0)) pMessageType

/-- The function `extractShadowMessageType`; returns the status and
`*pMessageType`. -/
def extractShadowMessageType (pString : List Byte) (stringLength : Nat)
    (pMessageType : ShadowMessageType_t) : ShadowStatus_t × ShadowMessageType_t :=
  extractShadowMessageTypeLoop pString stringLength 0 pMessageStrings.length
    SHADOW_FAIL pMessageType

/-- The function `getShadowOperationString`. -/
def getShadowOperationString (topicType : ShadowTopicStringType_t) : List Byte :=
  if topicType = ShadowTopicStringTypeGet then SHADOW_OP_GET
  else if topicType = ShadowTopicStringTypeGetAccepted then SHADOW_OP_GET_ACCEPTED
  else if topicType = ShadowTopicStringTypeGetRejected then SHADOW_OP_GET_REJECTED
  else if topicType = ShadowTopicStringTypeDelete then SHADOW_OP_DELETE
  else if topicType = ShadowTopicStringTypeDeleteAccepted then SHADOW_OP_DELETE_ACCEPTED
  else if topicType = ShadowTopicStringTypeDeleteRejected then SHADOW_OP_DELETE_REJECTED
  else if topicType = ShadowTopicStringTypeUpdate then SHADOW_OP_UPDATE
  else if topicType = ShadowTopicStringTypeUpdateAccepted then SHADOW_OP_UPDATE_ACCEPTED
  else if topicType = ShadowTopicStringTypeUpdateRejected then SHADOW_OP_UPDATE_REJECTED
  else if topicType = ShadowTopicStringTypeUpdateDocuments then SHADOW_OP_UPDATE_DOCUMENTS
  else SHADOW_OP_UPDATE_DELTA

/-- The function `getShadowOperationLength`. -/
def getShadowOperationLength (topicType : ShadowTopicStringType_t) : Nat :=
  if topicType = ShadowTopicStringTypeGet then SHADOW_OP_GET_LENGTH
  else if topicType = ShadowTopicStringTypeGetAccepted then SHADOW_OP_GET_ACCEPTED_LENGTH
  else if topicType = ShadowTopicStringTypeGetRejected then SHADOW_OP_GET_REJECTED_LENGTH
  else if topicType = ShadowTopicStringTypeDelete then SHADOW_OP_DELETE_LENGTH
  else if topicType = ShadowTopicStringTypeDeleteAccepted then SHADOW_OP_DELETE_ACCEPTED_LENGTH
  else if topicType = ShadowTopicStringTypeDeleteRejected then SHADOW_OP_DELETE_REJECTED_LENGTH
  else if topicType = ShadowTopicStringTypeUpdate then SHADOW_OP_UPDATE_LENGTH
  else if topicType = ShadowTopicStringTypeUpdateAccepted then SHADOW_OP_UPDATE_ACCEPTED_LENGTH
  else if topicType = ShadowTopicStringTypeUpdateRejected then SHADOW_OP_UPDATE_REJECTED_LENGTH
  else if topicType = ShadowTopicStringTypeUpdateDocuments then SHADOW_OP_UPDATE_DOCUMENTS_LENGTH
  else SHADOW_OP_UPDATE_DELTA_LENGTH

/-- The function `createShadowTopicString`; returns the topic buffer. -/
def createShadowTopicString (topicType : ShadowTopicStringType_t)
    (pThingName : List Byte) (thingNameLength : Nat)
    (pShadowName : List Byte) (shadowNameLength : Nat)
    (pTopicBuffer : List Byte) : List Byte :=
  let offset0 : Nat := 0
  let buf1 := memcpy pTopicBuffer 0 SHADOW_PREFIX SHADOW_PREFIX_LENGTH
  let offset1 := u16add offset0 SHADOW_PREFIX_LENGTH
  let buf2 := memcpy buf1 offset1 pThingName thingNameLength
  let offset2 := u16add offset1 thingNameLength
  let buf3 :=
    if shadowNameLength > 0 then
      memcpy (memcpy buf2 offset2 SHADOW_NAMED_ROOT SHADOW_NAMED_ROOT_LENGTH)
        (u16add offset2 SHADOW_NAMED_ROOT_LENGTH) pShadowName shadowNameLength
    else memcpy buf2 offset2 SHADOW_CLASSIC_ROOT SHADOW_CLASSIC_ROOT_LENGTH
  let offset3 :=
    if shadowNameLength > 0 then
      u16add (u16add offset2 SHADOW_NAMED_ROOT_LENGTH) shadowNameLength
    else u16add offset2 SHADOW_CLASSIC_ROOT_LENGTH
  memcpy buf3 offset3 (getShadowOperationString topicType) (getShadowOperationLength topicType)

/-! ## The API functions of `shadow.c` -/

/-- The status returned by `Shadow_MatchTopicString` and the pointees of its
five output pointers after the call (`none` for a `NULL` pointer). -/
structure MatchResult where
  status : ShadowStatus_t
  messageType : Option ShadowMessageType_t
  thingName : Option CharPtr
  thingNameLength : Option Nat
  shadowName : Option CharPtr
  shadowNameLength : Option Nat
  deriving DecidableEq

/-- The function `Shadow_MatchTopicString`. -/
def Shadow_MatchTopicString (pTopic : Option (List Byte)) (topicLength : Nat)
    (pMessageType : Option ShadowMessageType_t)
    (pThingName : Option CharPtr) (pThingNameLength : Option Nat)
    (pShadowName : Option CharPtr) (pShadowNameLength : Option Nat) : MatchResult :=
  let consumedTopicLength0 : Nat := 0
  let thingNameLength0 : Nat := 0
  let shadowNameLength0 : Nat := 0
  let topic : List Byte := pTopic.getD []
  let messageType0 : ShadowMessageType_t := pMessageType.getD ShadowMessageTypeMaxNum
  let shadowStatus0 := validateMatchTopicParameters pTopic topicLength pMessageType
  -- First match the prefix.
  let shadowStatus1 :=
    if shadowStatus0 = SHADOW_SUCCESS then
      containsSubString (topic.drop consumedTopicLength0)
        (u16sub topicLength consumedTopicLength0) SHADOW_PREFIX SHADOW_PREFIX_LENGTH
    else shadowStatus0
  let consumedTopicLength1 :=
    if shadowStatus0 = SHADOW_SUCCESS ∧ shadowStatus1 = SHADOW_SUCCESS then
      u16add consumedTopicLength0 SHADOW_PREFIX_LENGTH
    else consumedTopicLength0
  -- Extract thing name.
  let name :=
    if shadowStatus1 = SHADOW_SUCCESS then
      validateName (topic.drop consumedTopicLength1)
        (u16sub topicLength consumedTopicLength1) thingNameLength0
    else (shadowStatus1, thingNameLength0)
  let thingNameLength := name.2
  let shadowStatus2 :=
    if shadowStatus1 = SHADOW_SUCCESS then
      if name.1 = SHADOW_SUCCESS then SHADOW_SUCCESS else SHADOW_THINGNAME_PARSE_FAILED
    else shadowStatus1
  let consumedTopicLength2 :=
    if shadowStatus1 = SHADOW_SUCCESS ∧ name.1 = SHADOW_SUCCESS then
      u16add consumedTopicLength1 thingNameLength
    else consumedTopicLength1
  -- Extract the shadow root and the shadow name.
  let root :=
    if shadowStatus2 = SHADOW_SUCCESS then
      extractShadowRootAndName topic topicLength consumedTopicLength2 shadowNameLength0
    else (shadowStatus2, consumedTopicLength2, shadowNameLength0)
  let shadowStatus3 := root.1
  let consumedTopicLength3 := root.2.1
  let shadowNameLength := root.2.2
  -- Extract shadow message type.
  let message :=
    if shadowStatus3 = SHADOW_SUCCESS then
      extractShadowMessageType (topic.drop consumedTopicLength3)
        (u16sub topicLength consumedTopicLength3) messageType0
    else (shadowStatus3, messageType0)
  let shadowStatus4 :=
    if shadowStatus3 = SHADOW_SUCCESS then
      if message.1 ≠ SHADOW_SUCCESS then SHADOW_MESSAGE_TYPE_PARSE_FAILED else message.1
    else shadowStatus3
  -- Update the out parameters if we successfully matched the topic.
  if shadowStatus4 = SHADOW_SUCCESS then
    { status := shadowStatus4
      messageType := pMessageType.map (fun _ => message.2)
      thingName := pThingName.map (fun _ => CharPtr.topicAt SHADOW_PREFIX_LENGTH)
      thingNameLength := pThingNameLength.map (fun _ => thingNameLength)
      shadowName := pShadowName.map (fun _ =>
        CharPtr.topicAt (SHADOW_PREFIX_LENGTH + thingNameLength + SHADOW_NAMED_ROOT_LENGTH))
      shadowNameLength := pShadowNameLength.map (fun _ => shadowNameLength) }
  else
    { status := shadowStatus4
      messageType := pMessageType.map (fun _ => message.2)
      thingName := pThingName
      thingNameLength := pThingNameLength
      shadowName := pShadowName
      shadowNameLength := pShadowNameLength }

/-- The status returned by `Shadow_AssembleTopicString`, the topic buffer and
`*pOutLength` after the call (`none` for a `NULL` pointer). -/
structure AssembleResult where
  status : ShadowStatus_t
  topicBuffer : Option (List Byte)
  outLength : Option Nat
  deriving DecidableEq

/-- The function `Shadow_AssembleTopicString`. -/
def Shadow_AssembleTopicString (topicType : ShadowTopicStringType_t)
    (pThingName : Option (List Byte)) (thingNameLength : Nat)
    (pShadowName : Option (List Byte)) (shadowNameLength : Nat)
    (pTopicBuffer : Option (List Byte)) (bufferSize : Nat)
    (pOutLength : Option Nat) : AssembleResult :=
  if pTopicBuffer = none ∨ pThingName = none ∨ thingNameLength = 0 ∨
      (pShadowName = none ∧ shadowNameLength > 0) ∨
      topicType ≥ ShadowTopicStringTypeMaxNum ∨ pOutLength = none then
    { status := SHADOW_BAD_PARAMETER, topicBuffer := pTopicBuffer, outLength := pOutLength }
  else
    let generatedTopicStringLength : Nat :=
      (SHADOW_PREFIX_LENGTH + thingNameLength +
        (if shadowNameLength > 0 then SHADOW_NAMED_ROOT_LENGTH + shadowNameLength
         else SHADOW_CLASSIC_ROOT_LENGTH) +
        getShadowOperationLength topicType) % 65536
    if bufferSize < generatedTopicStringLength then
      { status := SHADOW_BUFFER_TOO_SMALL, topicBuffer := pTopicBuffer, outLength := pOutLength }
    else
      { status := SHADOW_SUCCESS
        topicBuffer := pTopicBuffer.map (fun buffer =>
          createShadowTopicString topicType (pThingName.getD []) thingNameLength
            (pShadowName.getD []) shadowNameLength buffer)
        outLength := pOutLength.map (fun _ => generatedTopicStringLength) }


/-! ## Reference grammar

The grammar of section 4.1 of the specification, on the exact bytes of a topic:
prefix, device identifier up to the next slash, named root and shadow
identifier or classic root, then one of the eight operation+suffix literals
with nothing left over. The theorems below relate the C functions to it. -/

/-- The bytes of `A` before its first `/`. -/
def nameOf (A : List Byte) : List Byte := A.takeWhile (fun b => b != '/'.toNat)

/-- The bytes of `A` from its first `/` on (empty when it has none). -/
def afterName (A : List Byte) : List Byte := A.dropWhile (fun b => b != '/'.toNat)

/-- The operation+suffix literal of a message type, as the specification
lists them. -/
def messageLiteral : ShadowMessageType_t → List Byte
  | ShadowMessageTypeGetAccepted => cstr "/get/accepted"
  | ShadowMessageTypeGetRejected => cstr "/get/rejected"
  | ShadowMessageTypeDeleteAccepted => cstr "/delete/accepted"
  | ShadowMessageTypeDeleteRejected => cstr "/delete/rejected"
  | ShadowMessageTypeUpdateAccepted => cstr "/update/accepted"
  | ShadowMessageTypeUpdateRejected => cstr "/update/rejected"
  | ShadowMessageTypeUpdateDocuments => cstr "/update/documents"
  | ShadowMessageTypeUpdateDelta => cstr "/update/delta"
  | ShadowMessageTypeMaxNum => []

/-- The message type whose literal is exactly `D`, if any. -/
def messageTypeOf (D : List Byte) : Option ShadowMessageType_t :=
  if D = cstr "/get/accepted" then some ShadowMessageTypeGetAccepted
  else if D = cstr "/get/rejected" then some ShadowMessageTypeGetRejected
  else if D = cstr "/delete/accepted" then some ShadowMessageTypeDeleteAccepted
  else if D = cstr "/delete/rejected" then some ShadowMessageTypeDeleteRejected
  else if D = cstr "/update/accepted" then some ShadowMessageTypeUpdateAccepted
  else if D = cstr "/update/rejected" then some ShadowMessageTypeUpdateRejected
  else if D = cstr "/update/documents" then some ShadowMessageTypeUpdateDocuments
  else if D = cstr "/update/delta" then some ShadowMessageTypeUpdateDelta
  else none

/-- The outcome of the four matching stages on the exact bytes `T` of a topic:
status, device identifier length, shadow identifier length, message type. -/
def parseTopic (T : List Byte) : ShadowStatus_t × Nat × Nat × Option ShadowMessageType_t :=
  if T.take 12 = cstr "$aws/things/" then
    if nameOf (T.drop 12) ≠ [] ∧ afterName (T.drop 12) ≠ [] then
      if (afterName (T.drop 12)).take 13 = cstr "/shadow/name/" then
        if nameOf ((afterName (T.drop 12)).drop 13) ≠ [] ∧
            afterName ((afterName (T.drop 12)).drop 13) ≠ [] then
          match messageTypeOf (afterName ((afterName (T.drop 12)).drop 13)) with
          | some t => (SHADOW_SUCCESS, (nameOf (T.drop 12)).length,
              (nameOf ((afterName (T.drop 12)).drop 13)).length, some t)
          | none => (SHADOW_MESSAGE_TYPE_PARSE_FAILED, (nameOf (T.drop 12)).length,
              (nameOf ((afterName (T.drop 12)).drop 13)).length, none)
        else (SHADOW_SHADOWNAME_PARSE_FAILED, (nameOf (T.drop 12)).length, 0, none)
      else if (afterName (T.drop 12)).take 7 = cstr "/shadow" then
        match messageTypeOf ((afterName (T.drop 12)).drop 7) with
        | some t => (SHADOW_SUCCESS, (nameOf (T.drop 12)).length, 0, some t)
        | none => (SHADOW_MESSAGE_TYPE_PARSE_FAILED, (nameOf (T.drop 12)).length, 0, none)
      else (SHADOW_ROOT_PARSE_FAILED, (nameOf (T.drop 12)).length, 0, none)
    else (SHADOW_THINGNAME_PARSE_FAILED, 0, 0, none)
  else (SHADOW_FAIL, 0, 0, none)

/-- The result of `Shadow_MatchTopicString` that corresponds to an outcome of
`parseTopic`: outputs are written on success only. -/
def matchResultOf (r : ShadowStatus_t × Nat × Nat × Option ShadowMessageType_t)
    (messageType : ShadowMessageType_t)
    (pThingName : Option CharPtr) (pThingNameLength : Option Nat)
    (pShadowName : Option CharPtr) (pShadowNameLength : Option Nat) : MatchResult :=
  if r.1 = SHADOW_SUCCESS then
    { status := SHADOW_SUCCESS
      messageType := some (r.2.2.2.getD messageType)
      thingName := pThingName.map (fun _ => CharPtr.topicAt 12)
      thingNameLength := pThingNameLength.map (fun _ => r.2.1)
      shadowName := pShadowName.map (fun _ => CharPtr.topicAt (12 + r.2.1 + 13))
      shadowNameLength := pShadowNameLength.map (fun _ => r.2.2.1) }
  else
    { status := r.1
      messageType := some messageType
      thingName := pThingName
      thingNameLength := pThingNameLength
      shadowName := pShadowName
      shadowNameLength := pShadowNameLength }

/-! ## Reference strings of the assembler -/

/-- The operation literal of each of the eleven topic types, as the
specification lists them; empty for a value outside the enumeration. -/
def opLiteral (topicType : ShadowTopicStringType_t) : List Byte :=
  match topicType with
  | 0 => cstr "/get"
  | 1 => cstr "/get/accepted"
  | 2 => cstr "/get/rejected"
  | 3 => cstr "/delete"
  | 4 => cstr "/delete/accepted"
  | 5 => cstr "/delete/rejected"
  | 6 => cstr "/update"
  | 7 => cstr "/update/accepted"
  | 8 => cstr "/update/rejected"
  | 9 => cstr "/update/documents"
  | 10 => cstr "/update/delta"
  | _ => []

/-- The root of a topic: named when the shadow name is non-empty, classic
otherwise. -/
def rootLiteral (shadow : List Byte) : List Byte :=
  if shadow.length > 0 then cstr "/shadow/name/" ++ shadow else cstr "/shadow"

/-- The topic string of section 6 of the specification. -/
def topicString (topicType : ShadowTopicStringType_t) (thing shadow : List Byte) : List Byte :=
  cstr "$aws/things/" ++ thing ++ rootLiteral shadow ++ opLiteral topicType

/-- The required length of section 4.2 of the specification. -/
def requiredLength (topicType : ShadowTopicStringType_t) (thingNameLength shadowNameLength : Nat) :
    Nat :=
  12 + thingNameLength + (if shadowNameLength > 0 then 13 + shadowNameLength else 7) +
    (opLiteral topicType).length

/-- The message type named like a result topic type; none for the three
request topic types. -/
def resultMessageType (topicType : ShadowTopicStringType_t) : Option ShadowMessageType_t :=
  match topicType with
  | 1 => some ShadowMessageTypeGetAccepted
  | 2 => some ShadowMessageTypeGetRejected
  | 4 => some ShadowMessageTypeDeleteAccepted
  | 5 => some ShadowMessageTypeDeleteRejected
  | 7 => some ShadowMessageTypeUpdateAccepted
  | 8 => some ShadowMessageTypeUpdateRejected
  | 9 => some ShadowMessageTypeUpdateDocuments
  | 10 => some ShadowMessageTypeUpdateDelta
  | _ => none

/-- The bytes of the topic that a returned name pointer and length designate. -/
def spanBytes (topic : List Byte) (p : CharPtr) (length : Nat) : List Byte :=
  match p with
  | CharPtr.null => []
  | CharPtr.topicAt k => (topic.drop k).take length

/-! ## Macros of `shadow.h` -/

/-- The macro `SHADOW_SUFFIX_NULL`: no suffix. -/
def SHADOW_SUFFIX_NULL : List Byte := []

/-- The macro `SHADOW_SUFFIX_NULL_LENGTH`. -/
def SHADOW_SUFFIX_NULL_LENGTH : Nat := 0

/-- The macro `SHADOW_TOPIC_LENGTH`. -/
def SHADOW_TOPIC_LENGTH (operationLength suffixLength thingNameLength shadowNameLength : Nat) :
    Nat :=
  operationLength + suffixLength + thingNameLength + shadowNameLength + SHADOW_PREFIX_LENGTH +
    (if shadowNameLength > 0 then SHADOW_NAMED_ROOT_LENGTH else SHADOW_CLASSIC_ROOT_LENGTH)

def SHADOW_TOPIC_LENGTH_UPDATE (thingNameLength shadowNameLength : Nat) : Nat :=
  SHADOW_TOPIC_LENGTH SHADOW_OP_UPDATE_LENGTH SHADOW_SUFFIX_NULL_LENGTH thingNameLength
    shadowNameLength

def SHADOW_TOPIC_LENGTH_UPDATE_ACCEPTED (thingNameLength shadowNameLength : Nat) : Nat :=
  SHADOW_TOPIC_LENGTH SHADOW_OP_UPDATE_LENGTH SHADOW_SUFFIX_ACCEPTED_LENGTH thingNameLength
    shadowNameLength

def SHADOW_TOPIC_LENGTH_UPDATE_REJECTED (thingNameLength shadowNameLength : Nat) : Nat :=
  SHADOW_TOPIC_LENGTH SHADOW_OP_UPDATE_LENGTH SHADOW_SUFFIX_REJECTED_LENGTH thingNameLength
    shadowNameLength

def SHADOW_TOPIC_LENGTH_UPDATE_DOCUMENTS (thingNameLength shadowNameLength : Nat) : Nat :=
  SHADOW_TOPIC_LENGTH SHADOW_OP_UPDATE_LENGTH SHADOW_SUFFIX_DOCUMENTS_LENGTH thingNameLength
    shadowNameLength

def SHADOW_TOPIC_LENGTH_UPDATE_DELTA (thingNameLength shadowNameLength : Nat) : Nat :=
  SHADOW_TOPIC_LENGTH SHADOW_OP_UPDATE_LENGTH SHADOW_SUFFIX_DELTA_LENGTH thingNameLength
    shadowNameLength

def SHADOW_TOPIC_LENGTH_GET (thingNameLength shadowNameLength : Nat) : Nat :=
  SHADOW_TOPIC_LENGTH SHADOW_OP_GET_LENGTH SHADOW_SUFFIX_NULL_LENGTH thingNameLength
    shadowNameLength

def SHADOW_TOPIC_LENGTH_GET_ACCEPTED (thingNameLength shadowNameLength : Nat) : Nat :=
  SHADOW_TOPIC_LENGTH SHADOW_OP_GET_LENGTH SHADOW_SUFFIX_ACCEPTED_LENGTH thingNameLength
    shadowNameLength

def SHADOW_TOPIC_LENGTH_GET_REJECTED (thingNameLength shadowNameLength : Nat) : Nat :=
  SHADOW_TOPIC_LENGTH SHADOW_OP_GET_LENGTH SHADOW_SUFFIX_REJECTED_LENGTH thingNameLength
    shadowNameLength

def SHADOW_TOPIC_LENGTH_DELETE (thingNameLength shadowNameLength : Nat) : Nat :=
  SHADOW_TOPIC_LENGTH SHADOW_OP_DELETE_LENGTH SHADOW_SUFFIX_NULL_LENGTH thingNameLength
    shadowNameLength

def SHADOW_TOPIC_LENGTH_DELETE_ACCEPTED (thingNameLength shadowNameLength : Nat) : Nat :=
  SHADOW_TOPIC_LENGTH SHADOW_OP_DELETE_LENGTH SHADOW_SUFFIX_ACCEPTED_LENGTH thingNameLength
    shadowNameLength

def SHADOW_TOPIC_LENGTH_DELETE_REJECTED (thingNameLength shadowNameLength : Nat) : Nat :=
  SHADOW_TOPIC_LENGTH SHADOW_OP_DELETE_LENGTH SHADOW_SUFFIX_REJECTED_LENGTH thingNameLength
    shadowNameLength

/-- The macro `SHADOW_TOPIC_LENGTH_MAX`. -/
def SHADOW_TOPIC_LENGTH_MAX (thingNameLength shadowNameLength : Nat) : Nat :=
  SHADOW_TOPIC_LENGTH SHADOW_OP_UPDATE_LENGTH SHADOW_SUFFIX_DOCUMENTS_LENGTH thingNameLength
    shadowNameLength

/-- The value of `sizeof` on a string literal: its bytes and the terminating NUL. -/
def sizeofLiteral (lit : List Byte) : Nat := lit.length + 1

/-- The macro `SHADOW_TOPIC_STRING`: adjacent string literals are concatenated. -/
def SHADOW_TOPIC_STRING (thingName shadowName operation suffix : List Byte) : List Byte :=
  if sizeofLiteral shadowName > 1 then
    SHADOW_PREFIX ++ thingName ++ SHADOW_NAMED_ROOT ++ shadowName ++ operation ++ suffix
  else SHADOW_PREFIX ++ thingName ++ SHADOW_CLASSIC_ROOT ++ operation ++ suffix

def SHADOW_TOPIC_STRING_UPDATE (thingName shadowName : List Byte) : List Byte :=
  SHADOW_TOPIC_STRING thingName shadowName SHADOW_OP_UPDATE SHADOW_SUFFIX_NULL

def SHADOW_TOPIC_STRING_UPDATE_ACCEPTED (thingName shadowName : List Byte) : List Byte :=
  SHADOW_TOPIC_STRING thingName shadowName SHADOW_OP_UPDATE SHADOW_SUFFIX_ACCEPTED

def SHADOW_TOPIC_STRING_UPDATE_REJECTED (thingName shadowName : List Byte) : List Byte :=
  SHADOW_TOPIC_STRING thingName shadowName SHADOW_OP_UPDATE SHADOW_SUFFIX_REJECTED

def SHADOW_TOPIC_STRING_UPDATE_DOCUMENTS (thingName shadowName : List Byte) : List Byte :=
  SHADOW_TOPIC_STRING thingName shadowName SHADOW_OP_UPDATE SHADOW_SUFFIX_DOCUMENTS

def SHADOW_TOPIC_STRING_UPDATE_DELTA (thingName shadowName : List Byte) : List Byte :=
  SHADOW_TOPIC_STRING thingName shadowName SHADOW_OP_UPDATE SHADOW_SUFFIX_DELTA

def SHADOW_TOPIC_STRING_GET (thingName shadowName : List Byte) : List Byte :=
  SHADOW_TOPIC_STRING thingName shadowName SHADOW_OP_GET SHADOW_SUFFIX_NULL

def SHADOW_TOPIC_STRING_GET_ACCEPTED (thingName shadowName : List Byte) : List Byte :=
  SHADOW_TOPIC_STRING thingName shadowName SHADOW_OP_GET SHADOW_SUFFIX_ACCEPTED

def SHADOW_TOPIC_STRING_GET_REJECTED (thingName shadowName : List Byte) : List Byte :=
  SHADOW_TOPIC_STRING thingName shadowName SHADOW_OP_GET SHADOW_SUFFIX_REJECTED

def SHADOW_TOPIC_STRING_DELETE (thingName shadowName : List Byte) : List Byte :=
  SHADOW_TOPIC_STRING thingName shadowName SHADOW_OP_DELETE SHADOW_SUFFIX_NULL

def SHADOW_TOPIC_STRING_DELETE_ACCEPTED (thingName shadowName : List Byte) : List Byte :=
  SHADOW_TOPIC_STRING thingName shadowName SHADOW_OP_DELETE SHADOW_SUFFIX_ACCEPTED

def SHADOW_TOPIC_STRING_DELETE_REJECTED (thingName shadowName : List Byte) : List Byte :=
  SHADOW_TOPIC_STRING thingName shadowName SHADOW_OP_DELETE SHADOW_SUFFIX_REJECTED

/-- The length macro `SHADOW_TOPIC_LENGTH_<T>` that corresponds to a topic type;
0 for a value outside the enumeration. -/
def topicLengthMacro (topicType : ShadowTopicStringType_t)
    (thingNameLength shadowNameLength : Nat) : Nat :=
  match topicType with
  | 0 => SHADOW_TOPIC_LENGTH_GET thingNameLength shadowNameLength
  | 1 => SHADOW_TOPIC_LENGTH_GET_ACCEPTED thingNameLength shadowNameLength
  | 2 => SHADOW_TOPIC_LENGTH_GET_REJECTED thingNameLength shadowNameLength
  | 3 => SHADOW_TOPIC_LENGTH_DELETE thingNameLength shadowNameLength
  | 4 => SHADOW_TOPIC_LENGTH_DELETE_ACCEPTED thingNameLength shadowNameLength
  | 5 => SHADOW_TOPIC_LENGTH_DELETE_REJECTED thingNameLength shadowNameLength
  | 6 => SHADOW_TOPIC_LENGTH_UPDATE thingNameLength shadowNameLength
  | 7 => SHADOW_TOPIC_LENGTH_UPDATE_ACCEPTED thingNameLength shadowNameLength
  | 8 => SHADOW_TOPIC_LENGTH_UPDATE_REJECTED thingNameLength shadowNameLength
  | 9 => SHADOW_TOPIC_LENGTH_UPDATE_DOCUMENTS thingNameLength shadowNameLength
  | 10 => SHADOW_TOPIC_LENGTH_UPDATE_DELTA thingNameLength shadowNameLength
  | _ => 0

/-- The string macro `SHADOW_TOPIC_STRING_<T>` that corresponds to a topic type;
empty for a value outside the enumeration. -/
def topicStringMacro (topicType : ShadowTopicStringType_t) (thingName shadowName : List Byte) :
    List Byte :=
  match topicType with
  | 0 => SHADOW_TOPIC_STRING_GET thingName shadowName
  | 1 => SHADOW_TOPIC_STRING_GET_ACCEPTED thingName shadowName
  | 2 => SHADOW_TOPIC_STRING_GET_REJECTED thingName shadowName
  | 3 => SHADOW_TOPIC_STRING_DELETE thingName shadowName
  | 4 => SHADOW_TOPIC_STRING_DELETE_ACCEPTED thingName shadowName
  | 5 => SHADOW_TOPIC_STRING_DELETE_REJECTED thingName shadowName
  | 6 => SHADOW_TOPIC_STRING_UPDATE thingName shadowName
  | 7 => SHADOW_TOPIC_STRING_UPDATE_ACCEPTED thingName shadowName
  | 8 => SHADOW_TOPIC_STRING_UPDATE_REJECTED thingName shadowName
  | 9 => SHADOW_TOPIC_STRING_UPDATE_DOCUMENTS thingName shadowName
  | 10 => SHADOW_TOPIC_STRING_UPDATE_DELTA thingName shadowName
  | _ => []

/-! ## The local variables of the matcher -/

/-- The local variables of `Shadow_MatchTopicString` after each of its stages:
the status after the parameter check, after the prefix stage, after the thing
name stage and after the message type stage, the cursor `consumedTopicLength`
after the prefix stage and after the thing name stage, and the results of
`validateName`, `extractShadowRootAndName` and `extractShadowMessageType`. -/
structure MatchStages where
  shadowStatus0 : ShadowStatus_t
  shadowStatus1 : ShadowStatus_t
  consumedTopicLength1 : Nat
  name : ShadowStatus_t × Nat
  shadowStatus2 : ShadowStatus_t
  consumedTopicLength2 : Nat
  root : ShadowStatus_t × Nat × Nat
  message : ShadowStatus_t × ShadowMessageType_t
  shadowStatus4 : ShadowStatus_t

/-- The stages of `Shadow_MatchTopicString`, as in its body, up to the update of
the out parameters. -/
def Shadow_MatchTopicString_stages (pTopic : Option (List Byte)) (topicLength : Nat)
    (pMessageType : Option ShadowMessageType_t) : MatchStages :=
  let consumedTopicLength0 : Nat := 0
  let thingNameLength0 : Nat := 0
  let shadowNameLength0 : Nat := 0
  let topic : List Byte := pTopic.getD []
  let messageType0 : ShadowMessageType_t := pMessageType.getD ShadowMessageTypeMaxNum
  let shadowStatus0 := validateMatchTopicParameters pTopic topicLength pMessageType
  let shadowStatus1 :=
    if shadowStatus0 = SHADOW_SUCCESS then
      containsSubString (topic.drop consumedTopicLength0)
        (u16sub topicLength consumedTopicLength0) SHADOW_PREFIX SHADOW_PREFIX_LENGTH
    else shadowStatus0
  let consumedTopicLength1 :=
    if shadowStatus0 = SHADOW_SUCCESS ∧ shadowStatus1 = SHADOW_SUCCESS then
      u16add consumedTopicLength0 SHADOW_PREFIX_LENGTH
    else consumedTopicLength0
  let name :=
    if shadowStatus1 = SHADOW_SUCCESS then
      validateName (topic.drop consumedTopicLength1)
        (u16sub topicLength consumedTopicLength1) thingNameLength0
    else (shadowStatus1, thingNameLength0)
  let thingNameLength := name.2
  let shadowStatus2 :=
    if shadowStatus1 = SHADOW_SUCCESS then
      if name.1 = SHADOW_SUCCESS then SHADOW_SUCCESS else SHADOW_THINGNAME_PARSE_FAILED
    else shadowStatus1
  let consumedTopicLength2 :=
    if shadowStatus1 = SHADOW_SUCCESS ∧ name.1 = SHADOW_SUCCESS then
      u16add consumedTopicLength1 thingNameLength
    else consumedTopicLength1
  let root :=
    if shadowStatus2 = SHADOW_SUCCESS then
      extractShadowRootAndName topic topicLength consumedTopicLength2 shadowNameLength0
    else (shadowStatus2, consumedTopicLength2, shadowNameLength0)
  let shadowStatus3 := root.1
  let consumedTopicLength3 := root.2.1
  let message :=
    if shadowStatus3 = SHADOW_SUCCESS then
      extractShadowMessageType (topic.drop consumedTopicLength3)
        (u16sub topicLength consumedTopicLength3) messageType0
    else (shadowStatus3, messageType0)
  let shadowStatus4 :=
    if shadowStatus3 = SHADOW_SUCCESS then
      if message.1 ≠ SHADOW_SUCCESS then SHADOW_MESSAGE_TYPE_PARSE_FAILED else message.1
    else shadowStatus3
  { shadowStatus0 := shadowStatus0
    shadowStatus1 := shadowStatus1
    consumedTopicLength1 := consumedTopicLength1
    name := name
    shadowStatus2 := shadowStatus2
    consumedTopicLength2 := consumedTopicLength2
    root := root
    message := message
    shadowStatus4 := shadowStatus4 }

/-! ## The message type loop over a table -/

/-- The rows of the three lookup tables of `extractShadowMessageType`: literal,
its length, its message type. -/
def messageTable : List (List Byte × Nat × ShadowMessageType_t) :=
  List.zip pMessageStrings (List.zip pMessageStringsLength pMessageTypes)

/-- The loop of `extractShadowMessageType` run over the rows of a table in the
order given; `returnStatus` and `pMessageType` are the values of the variable
and of `*pMessageType` on entry to the iteration. -/
def extractShadowMessageTypeOver (pString : List Byte) (stringLength : Nat) :
    List (List Byte × Nat × ShadowMessageType_t) → ShadowStatus_t → ShadowMessageType_t →
      ShadowStatus_t × ShadowMessageType_t
  | [], returnStatus, pMessageType => (returnStatus, pMessageType)
  | row :: rest, _, pMessageType =>
    if containsSubString pString stringLength row.1 row.2.1 = SHADOW_SUCCESS then
      if stringLength ≠ row.2.1 then
        extractShadowMessageTypeOver pString stringLength rest SHADOW_FAIL pMessageType
      else (SHADOW_SUCCESS, row.2.2)
    else
      extractShadowMessageTypeOver pString stringLength rest
        (containsSubString pString stringLength row.1 row.2.1) pMessageType

/-! ## Arithmetic and library lemmas -/

theorem u16sub_eq (a b : Nat) (hb : b ≤ a) (ha : a < 65536) : u16sub a b = a - b := by
  unfold u16sub; omega

theorem u16add_eq (a b : Nat) (h : a + b < 65536) : u16add a b = a + b := by
  unfold u16add; omega

theorem strncmp_eq_zero_iff (sub : List Byte) (hsub : ∀ b ∈ sub, b ≠ 0) (s : List Byte) :
    strncmp s sub sub.length = 0 ↔ s.take sub.length = sub := by
  induction sub generalizing s with
  | nil => simp [strncmp]
  | cons c cs ih =>
    have hc : c ≠ 0 := hsub c (List.mem_cons_self _ _)
    have hcs : ∀ b ∈ cs, b ≠ 0 := fun b hb => hsub b (List.mem_cons_of_mem _ hb)
    cases s with
    | nil =>
      simp only [List.length_cons, strncmp, List.headD_nil, List.headD_cons, List.take_nil]
      have h0 : (0 : Nat) ≠ c := fun h => hc h.symm
      simp only [h0, ne_eq, not_false_eq_true, if_true]
      constructor
      · intro h
        have hc2 : (c : Nat) ≠ 0 := hc
        simp only [Nat.cast_zero, zero_sub, neg_eq_zero, Nat.cast_eq_zero] at h
        exact absurd h hc2
      · intro h; cases h
    | cons a as =>
      simp only [List.length_cons, strncmp, List.headD_cons, List.tail_cons, List.take_succ_cons]
      by_cases hac : a = c
      · subst hac
        simp only [ne_eq, not_true_eq_false, if_false, hc, List.cons.injEq, true_and]
        exact ih hcs as
      · simp only [ne_eq, hac, not_false_eq_true, if_true, List.cons.injEq, false_and, iff_false]
        intro h
        have h2 : (a : Int) = (c : Int) := by linarith
        exact hac (by exact_mod_cast h2)

theorem containsSubString_eq (sub : List Byte) (hsub : ∀ b ∈ sub, b ≠ 0) (s : List Byte)
    (sl : Nat) :
    containsSubString s sl sub sub.length =
      if sub.length ≤ sl ∧ s.take sub.length = sub then SHADOW_SUCCESS else SHADOW_FAIL := by
  unfold containsSubString
  by_cases h : sub.length ≤ sl
  · simp only [ge_iff_le, h, if_true, true_and, strncmp_eq_zero_iff sub hsub s]
  · simp [h]

theorem containsSubString_cases (s : List Byte) (sl : Nat) (sub : List Byte) (n : Nat) :
    containsSubString s sl sub n = SHADOW_SUCCESS ∨ containsSubString s sl sub n = SHADOW_FAIL := by
  unfold containsSubString
  split
  · split <;> simp
  · simp


/-! ## The stages of the matcher at a cursor -/

theorem slash_toNat : '/'.toNat = 47 := by decide

theorem drop_takeWhile_length (p : Byte → Bool) (A : List Byte) :
    A.drop (A.takeWhile p).length = A.dropWhile p := by
  have h : List.drop (A.takeWhile p).length (A.takeWhile p ++ A.dropWhile p) = A.dropWhile p :=
    List.drop_left _ _
  rwa [List.takeWhile_append_dropWhile] at h

theorem nameOf_append_afterName (A : List Byte) : nameOf A ++ afterName A = A :=
  List.takeWhile_append_dropWhile _ A

theorem drop_nameOf_length (A : List Byte) : A.drop (nameOf A).length = afterName A :=
  drop_takeWhile_length _ A

theorem validateNameLoop_eq (s : List Byte) (nl : Nat) :
    ∀ (remaining index : Nat), index + remaining ≤ s.length →
      validateNameLoop s nl index remaining =
        if (nameOf ((s.drop index).take remaining)).length < ((s.drop index).take remaining).length
            ∧ 0 < index + (nameOf ((s.drop index).take remaining)).length then
          (SHADOW_SUCCESS, index + (nameOf ((s.drop index).take remaining)).length)
        else (SHADOW_FAIL, nl) := by
  intro remaining
  induction remaining with
  | zero => intro index _; simp [validateNameLoop, nameOf]
  | succ r ih =>
    intro index h
    have hi : index < s.length := by omega
    have hd : s.drop index = s[index] :: s.drop (index + 1) := List.drop_eq_getElem_cons hi
    have hg : s.getD index 0 = s[index] := List.getD_eq_getElem _ _ hi
    rw [validateNameLoop, hg, hd, List.take_succ_cons]
    by_cases hc : s[index] = '/'.toNat
    · simp only [hc, if_true, nameOf, bne_self_eq_false, Bool.false_eq_true, not_false_eq_true,
        List.takeWhile_cons_of_neg, List.length_nil, List.length_cons, Nat.add_zero,
        Nat.zero_lt_succ, true_and, gt_iff_lt]
    · have hb : (s[index] != '/'.toNat) = true := by simpa using hc
      rw [if_neg hc, ih (index + 1) (by omega)]
      simp only [nameOf, List.takeWhile_cons, hb, if_true, List.length_cons]
      have e1 : index + 1 + (List.takeWhile (fun b => b != '/'.toNat)
          (List.take r (List.drop (index + 1) s))).length =
          index + ((List.takeWhile (fun b => b != '/'.toNat)
          (List.take r (List.drop (index + 1) s))).length + 1) := by omega
      rw [e1]
      congr 1
      apply propext
      constructor
      · rintro ⟨h1, _⟩; exact ⟨by omega, by omega⟩
      · rintro ⟨h1, _⟩; exact ⟨by omega, by omega⟩

theorem nameOf_length_le (A : List Byte) : (nameOf A).length ≤ A.length := by
  have h := congrArg List.length (nameOf_append_afterName A)
  rw [List.length_append] at h; omega

theorem afterName_ne_nil_iff (A : List Byte) : afterName A ≠ [] ↔ (nameOf A).length < A.length := by
  have h := congrArg List.length (nameOf_append_afterName A)
  rw [List.length_append] at h
  rw [← List.length_pos]; omega

/-- At a cursor `c` inside the topic, `validateName` finds the bytes before the
next slash of the remaining topic bytes. -/
theorem validateName_at (topic : List Byte) (tl c nl : Nat) (hc : c ≤ tl) (htl : tl ≤ topic.length)
    (h16 : tl < 65536) :
    validateName (topic.drop c) (u16sub tl c) nl =
      if nameOf ((topic.take tl).drop c) ≠ [] ∧ afterName ((topic.take tl).drop c) ≠ [] then
        (SHADOW_SUCCESS, (nameOf ((topic.take tl).drop c)).length)
      else (SHADOW_FAIL, nl) := by
  rw [u16sub_eq tl c hc h16, validateName,
    validateNameLoop_eq (topic.drop c) nl (tl - c) 0 (by rw [List.length_drop]; omega)]
  rw [List.drop_zero, List.drop_take]
  simp only [Nat.zero_add]
  refine if_congr ?_ rfl rfl
  rw [afterName_ne_nil_iff, ← List.length_pos]
  exact And.comm

/-- At a cursor `c` inside the topic, `containsSubString` with a NUL-free
literal tests whether the remaining topic bytes begin with the literal. -/
theorem containsSubString_at (sub : List Byte) (hsub : ∀ b ∈ sub, b ≠ 0) (topic : List Byte)
    (tl c : Nat) (hc : c ≤ tl) (h16 : tl < 65536) :
    containsSubString (topic.drop c) (u16sub tl c) sub sub.length =
      if ((topic.take tl).drop c).take sub.length = sub then SHADOW_SUCCESS else SHADOW_FAIL := by
  rw [u16sub_eq tl c hc h16, containsSubString_eq sub hsub, List.drop_take, List.take_take]
  by_cases hl : sub.length ≤ tl - c
  · simp only [hl, true_and, Nat.min_eq_left hl]
  · have hne : ¬ (List.take (min sub.length (tl - c)) (List.drop c topic) = sub) := by
      intro h
      have := congrArg List.length h
      rw [List.length_take, List.length_drop] at this
      omega
    simp only [hl, false_and, if_false, hne]


theorem cstr_noNul_of (l : List Byte) (h : l.all (fun b => b != 0) = true) : ∀ b ∈ l, b ≠ 0 := by
  intro b hb
  have := List.all_eq_true.mp h b hb
  simpa using this

theorem extractShadowMessageTypeLoop_step (s : List Byte) (sl index r : Nat) (rs : ShadowStatus_t)
    (mt : ShadowMessageType_t) (lit : List Byte) (t : ShadowMessageType_t)
    (hlit : pMessageStrings.getD index [] = lit)
    (hlen : pMessageStringsLength.getD index 0 = lit.length)
    (ht : pMessageTypes.getD index ShadowMessageTypeMaxNum = t)
    (hnul : ∀ b ∈ lit, b ≠ 0) (hsl : sl ≤ s.length) :
    extractShadowMessageTypeLoop s sl index (r + 1) rs mt =
      if s.take sl = lit then (SHADOW_SUCCESS, t)
      else extractShadowMessageTypeLoop s sl (index + 1) r SHADOW_FAIL mt := by
  rw [extractShadowMessageTypeLoop, hlit, hlen, ht, containsSubString_eq lit hnul]
  by_cases h : s.take sl = lit
  · have hl : sl = lit.length := by
      have := congrArg List.length h
      rw [List.length_take] at this; omega
    have h2 : s.take lit.length = lit := by rw [← hl]; exact h
    simp [h, h2, hl]
  · by_cases hc : lit.length ≤ sl ∧ s.take lit.length = lit
    · have hne : sl ≠ lit.length := by
        intro e; rw [e] at h; exact h hc.2
      simp [h, hc, hne]
    · simp [h, hc]

/-- At a cursor `c` inside the topic, `extractShadowMessageType` succeeds exactly
when the remaining topic bytes are one of the eight literals. -/
theorem extractShadowMessageType_at (topic : List Byte) (tl c : Nat) (mt : ShadowMessageType_t)
    (hc : c ≤ tl) (htl : tl ≤ topic.length) (h16 : tl < 65536) :
    extractShadowMessageType (topic.drop c) (u16sub tl c) mt =
      match messageTypeOf ((topic.take tl).drop c) with
      | some t => (SHADOW_SUCCESS, t)
      | none => (SHADOW_FAIL, mt) := by
  have hsl : tl - c ≤ (topic.drop c).length := by rw [List.length_drop]; omega
  rw [u16sub_eq tl c hc h16, List.drop_take, extractShadowMessageType]
  have e8 : pMessageStrings.length = 7 + 1 := by decide
  rw [e8]
  rw [extractShadowMessageTypeLoop_step _ _ 0 _ _ _ (cstr "/get/accepted")
    ShadowMessageTypeGetAccepted (by decide) (by decide) (by decide)
    (cstr_noNul_of _ (by decide)) hsl]
  rw [extractShadowMessageTypeLoop_step _ _ 1 _ _ _ (cstr "/get/rejected")
    ShadowMessageTypeGetRejected (by decide) (by decide) (by decide)
    (cstr_noNul_of _ (by decide)) hsl]
  rw [extractShadowMessageTypeLoop_step _ _ 2 _ _ _ (cstr "/delete/accepted")
    ShadowMessageTypeDeleteAccepted (by decide) (by decide) (by decide)
    (cstr_noNul_of _ (by decide)) hsl]
  rw [extractShadowMessageTypeLoop_step _ _ 3 _ _ _ (cstr "/delete/rejected")
    ShadowMessageTypeDeleteRejected (by decide) (by decide) (by decide)
    (cstr_noNul_of _ (by decide)) hsl]
  rw [extractShadowMessageTypeLoop_step _ _ 4 _ _ _ (cstr "/update/accepted")
    ShadowMessageTypeUpdateAccepted (by decide) (by decide) (by decide)
    (cstr_noNul_of _ (by decide)) hsl]
  rw [extractShadowMessageTypeLoop_step _ _ 5 _ _ _ (cstr "/update/rejected")
    ShadowMessageTypeUpdateRejected (by decide) (by decide) (by decide)
    (cstr_noNul_of _ (by decide)) hsl]
  rw [extractShadowMessageTypeLoop_step _ _ 6 _ _ _ (cstr "/update/documents")
    ShadowMessageTypeUpdateDocuments (by decide) (by decide) (by decide)
    (cstr_noNul_of _ (by decide)) hsl]
  rw [extractShadowMessageTypeLoop_step _ _ 7 _ _ _ (cstr "/update/delta")
    ShadowMessageTypeUpdateDelta (by decide) (by decide) (by decide)
    (cstr_noNul_of _ (by decide)) hsl]
  rw [extractShadowMessageTypeLoop]
  unfold messageTypeOf
  split_ifs <;> rfl


theorem take_eq_length_le (l lit : List Byte) (n : Nat) (h : l.take n = lit) (hn : lit.length = n) :
    n ≤ l.length := by
  have := congrArg List.length h
  rw [List.length_take] at this; omega

/-- At a cursor `c` inside the topic, `extractShadowRootAndName` tests the named
root first, then the classic root. -/
theorem extractShadowRootAndName_at (topic : List Byte) (tl c sn : Nat)
    (hc : c ≤ tl) (htl : tl ≤ topic.length) (h16 : tl < 65536) :
    extractShadowRootAndName topic tl c sn =
      if ((topic.take tl).drop c).take 13 = cstr "/shadow/name/" then
        if nameOf (((topic.take tl).drop c).drop 13) ≠ [] ∧
            afterName (((topic.take tl).drop c).drop 13) ≠ [] then
          (SHADOW_SUCCESS, c + 13 + (nameOf (((topic.take tl).drop c).drop 13)).length,
            (nameOf (((topic.take tl).drop c).drop 13)).length)
        else (SHADOW_SHADOWNAME_PARSE_FAILED, c + 13, sn)
      else if ((topic.take tl).drop c).take 7 = cstr "/shadow" then (SHADOW_SUCCESS, c + 7, sn)
      else (SHADOW_ROOT_PARSE_FAILED, c, sn) := by
  have hN : SHADOW_NAMED_ROOT = cstr "/shadow/name/" := rfl
  have hNL : SHADOW_NAMED_ROOT_LENGTH = (cstr "/shadow/name/").length := by decide
  have hC : SHADOW_CLASSIC_ROOT = cstr "/shadow" := rfl
  have hCL : SHADOW_CLASSIC_ROOT_LENGTH = (cstr "/shadow").length := by decide
  have h13 : (cstr "/shadow/name/").length = 13 := by decide
  have h7 : (cstr "/shadow").length = 7 := by decide
  have hTl : (topic.take tl).length = tl := by rw [List.length_take]; omega
  unfold extractShadowRootAndName
  rw [hN, hNL, hC, hCL, containsSubString_at _ (cstr_noNul_of _ (by decide)) topic tl c hc h16,
    containsSubString_at _ (cstr_noNul_of _ (by decide)) topic tl c hc h16, h13, h7]
  by_cases hn : ((topic.take tl).drop c).take 13 = cstr "/shadow/name/"
  · have hlen := take_eq_length_le _ _ 13 hn h13
    rw [List.length_drop, hTl] at hlen
    have hadd : u16add c 13 = c + 13 := u16add_eq _ _ (by omega)
    simp only [hn, if_true, hadd]
    rw [validateName_at topic tl (c + 13) sn (by omega) htl h16, List.drop_drop]
    have hle := nameOf_length_le ((topic.take tl).drop (c + 13))
    rw [List.length_drop, hTl] at hle
    by_cases hv : nameOf ((topic.take tl).drop (c + 13)) ≠ [] ∧
        afterName ((topic.take tl).drop (c + 13)) ≠ []
    · rw [if_pos hv, if_pos hv]
      simp only [if_true]
      rw [u16add_eq (c + 13) _ (by omega)]
    · rw [if_neg hv, if_neg hv]
      simp only [reduceCtorEq, if_false]
  · rw [if_neg hn, if_neg hn]
    simp only [reduceCtorEq, if_false]
    by_cases hcl : ((topic.take tl).drop c).take 7 = cstr "/shadow"
    · have hlen := take_eq_length_le _ _ 7 hcl h7
      rw [List.length_drop, hTl] at hlen
      rw [if_pos hcl, if_pos hcl]
      simp only [if_true]
      rw [u16add_eq c 7 (by omega)]
    · rw [if_neg hcl, if_neg hcl]
      simp only [reduceCtorEq, if_false]


/-- With valid parameters, `Shadow_MatchTopicString` computes the outcome of the
reference grammar on the first `topicLength` bytes of the topic. -/
theorem Shadow_MatchTopicString_eq_parse (topic : List Byte) (tl : Nat) (mt : ShadowMessageType_t)
    (pThingName : Option CharPtr) (pThingNameLength : Option Nat)
    (pShadowName : Option CharPtr) (pShadowNameLength : Option Nat)
    (h0 : 0 < tl) (htl : tl ≤ topic.length) (h16 : tl < 65536) :
    Shadow_MatchTopicString (some topic) tl (some mt) pThingName pThingNameLength
        pShadowName pShadowNameLength =
      matchResultOf (parseTopic (topic.take tl)) mt pThingName pThingNameLength
        pShadowName pShadowNameLength := by
  have hv : validateMatchTopicParameters (some topic) tl (some mt) = SHADOW_SUCCESS := by
    have : tl ≠ 0 := by omega
    simp [validateMatchTopicParameters, this]
  have hP : SHADOW_PREFIX = cstr "$aws/things/" := rfl
  have hPL : SHADOW_PREFIX_LENGTH = (cstr "$aws/things/").length := by decide
  have hPL2 : SHADOW_PREFIX_LENGTH = 12 := by decide
  have hNL : SHADOW_NAMED_ROOT_LENGTH = 13 := by decide
  have h12 : (cstr "$aws/things/").length = 12 := by decide
  have hTl : (topic.take tl).length = tl := by rw [List.length_take]; omega
  have hs1 : containsSubString (topic.drop 0) (u16sub tl 0) SHADOW_PREFIX 12 =
      if (topic.take tl).take 12 = cstr "$aws/things/" then SHADOW_SUCCESS else SHADOW_FAIL := by
    rw [← hPL2, hP, hPL, containsSubString_at _ (cstr_noNul_of (cstr "$aws/things/") (by decide)) topic
      tl 0 (by omega) h16, h12, List.drop_zero]
  have ha1 : u16add 0 12 = 12 := by decide
  by_cases h1 : (topic.take tl).take 12 = cstr "$aws/things/"
  · have hlen := take_eq_length_le _ _ 12 h1 h12
    rw [hTl] at hlen
    rw [if_pos h1] at hs1
    have hs2 := validateName_at topic tl 12 0 hlen htl h16
    by_cases h2 : nameOf ((topic.take tl).drop 12) ≠ [] ∧ afterName ((topic.take tl).drop 12) ≠ []
    · have hn := (afterName_ne_nil_iff _).mp h2.2
      rw [List.length_drop, hTl] at hn
      have hsum := congrArg List.length (nameOf_append_afterName ((topic.take tl).drop 12))
      rw [List.length_append, List.length_drop, hTl] at hsum
      rw [if_pos h2] at hs2
      have ha2 : u16add 12 (nameOf ((topic.take tl).drop 12)).length =
          12 + (nameOf ((topic.take tl).drop 12)).length := u16add_eq 12 _ (by omega)
      have hs3 := extractShadowRootAndName_at topic tl
        (12 + (nameOf ((topic.take tl).drop 12)).length) 0 (by omega) htl h16
      rw [← List.drop_drop, drop_nameOf_length] at hs3
      by_cases h3 : (afterName ((topic.take tl).drop 12)).take 13 = cstr "/shadow/name/"
      · rw [if_pos h3] at hs3
        have hlen13 := take_eq_length_le _ _ 13 h3 (by decide)
        by_cases h5 : nameOf ((afterName ((topic.take tl).drop 12)).drop 13) ≠ [] ∧
            afterName ((afterName ((topic.take tl).drop 12)).drop 13) ≠ []
        · rw [if_pos h5] at hs3
          have hsum2 := congrArg List.length
            (nameOf_append_afterName ((afterName ((topic.take tl).drop 12)).drop 13))
          rw [List.length_append, List.length_drop] at hsum2
          have hs4 := extractShadowMessageType_at topic tl
            (12 + (nameOf ((topic.take tl).drop 12)).length + 13 +
              (nameOf ((afterName ((topic.take tl).drop 12)).drop 13)).length) mt
            (by omega) htl h16
          have e : (topic.take tl).drop (12 + (nameOf ((topic.take tl).drop 12)).length + 13 +
              (nameOf ((afterName ((topic.take tl).drop 12)).drop 13)).length) =
              afterName ((afterName ((topic.take tl).drop 12)).drop 13) := by
            rw [← drop_nameOf_length ((afterName ((topic.take tl).drop 12)).drop 13),
              ← drop_nameOf_length ((topic.take tl).drop 12)]
            simp only [List.drop_drop]
          rw [e] at hs4
          cases hm : messageTypeOf (afterName ((afterName ((topic.take tl).drop 12)).drop 13)) with
          | none =>
            rw [hm] at hs4
            have hp : parseTopic (topic.take tl) = (SHADOW_MESSAGE_TYPE_PARSE_FAILED,
                (nameOf ((topic.take tl).drop 12)).length,
                (nameOf ((afterName ((topic.take tl).drop 12)).drop 13)).length, none) := by
              unfold parseTopic; rw [if_pos h1, if_pos h2, if_pos h3, if_pos h5, hm]
            simp only [Shadow_MatchTopicString, hPL2, hNL, hv, hs1, ha1, hs2, ha2, hs3, hs4, if_true,
              Option.getD_some, and_self, reduceCtorEq, if_false, ne_eq, not_false_eq_true,
              Option.map_some', hp, matchResultOf]
          | some t =>
            rw [hm] at hs4
            have hp : parseTopic (topic.take tl) = (SHADOW_SUCCESS,
                (nameOf ((topic.take tl).drop 12)).length,
                (nameOf ((afterName ((topic.take tl).drop 12)).drop 13)).length, some t) := by
              unfold parseTopic; rw [if_pos h1, if_pos h2, if_pos h3, if_pos h5, hm]
            simp only [Shadow_MatchTopicString, hPL2, hNL, hv, hs1, ha1, hs2, ha2, hs3, hs4, if_true,
              Option.getD_some, and_self, reduceCtorEq, if_false, ne_eq, not_false_eq_true,
              not_true_eq_false, hPL2, hNL, Option.map_some', hp, matchResultOf]
        · rw [if_neg h5] at hs3
          have hp : parseTopic (topic.take tl) = (SHADOW_SHADOWNAME_PARSE_FAILED,
              (nameOf ((topic.take tl).drop 12)).length, 0, none) := by
            unfold parseTopic; rw [if_pos h1, if_pos h2, if_pos h3, if_neg h5]
          simp only [Shadow_MatchTopicString, hPL2, hNL, hv, hs1, ha1, hs2, ha2, hs3, if_true,
            Option.getD_some, and_self, reduceCtorEq, if_false, Option.map_some', hp,
            matchResultOf]
      · rw [if_neg h3] at hs3
        by_cases h4 : (afterName ((topic.take tl).drop 12)).take 7 = cstr "/shadow"
        · rw [if_pos h4] at hs3
          have hlen7 := take_eq_length_le _ _ 7 h4 (by decide)
          have hs4 := extractShadowMessageType_at topic tl
            (12 + (nameOf ((topic.take tl).drop 12)).length + 7) mt (by omega) htl h16
          have e : (topic.take tl).drop (12 + (nameOf ((topic.take tl).drop 12)).length + 7) =
              (afterName ((topic.take tl).drop 12)).drop 7 := by
            rw [← drop_nameOf_length ((topic.take tl).drop 12)]
            simp only [List.drop_drop]
          rw [e] at hs4
          cases hm : messageTypeOf ((afterName ((topic.take tl).drop 12)).drop 7) with
          | none =>
            rw [hm] at hs4
            have hp : parseTopic (topic.take tl) = (SHADOW_MESSAGE_TYPE_PARSE_FAILED,
                (nameOf ((topic.take tl).drop 12)).length, 0, none) := by
              unfold parseTopic; rw [if_pos h1, if_pos h2, if_neg h3, if_pos h4, hm]
            simp only [Shadow_MatchTopicString, hPL2, hNL, hv, hs1, ha1, hs2, ha2, hs3, hs4, if_true,
              Option.getD_some, and_self, reduceCtorEq, if_false, ne_eq, not_false_eq_true,
              Option.map_some', hp, matchResultOf]
          | some t =>
            rw [hm] at hs4
            have hp : parseTopic (topic.take tl) = (SHADOW_SUCCESS,
                (nameOf ((topic.take tl).drop 12)).length, 0, some t) := by
              unfold parseTopic; rw [if_pos h1, if_pos h2, if_neg h3, if_pos h4, hm]
            simp only [Shadow_MatchTopicString, hPL2, hNL, hv, hs1, ha1, hs2, ha2, hs3, hs4, if_true,
              Option.getD_some, and_self, reduceCtorEq, if_false, ne_eq, not_false_eq_true,
              not_true_eq_false, hPL2, hNL, Option.map_some', hp, matchResultOf]
        · rw [if_neg h4] at hs3
          have hp : parseTopic (topic.take tl) = (SHADOW_ROOT_PARSE_FAILED,
              (nameOf ((topic.take tl).drop 12)).length, 0, none) := by
            unfold parseTopic; rw [if_pos h1, if_pos h2, if_neg h3, if_neg h4]
          simp only [Shadow_MatchTopicString, hPL2, hNL, hv, hs1, ha1, hs2, ha2, hs3, if_true,
            Option.getD_some, and_self, reduceCtorEq, if_false, Option.map_some', hp,
            matchResultOf]
    · rw [if_neg h2] at hs2
      have hp : parseTopic (topic.take tl) = (SHADOW_THINGNAME_PARSE_FAILED, 0, 0, none) := by
        unfold parseTopic; rw [if_pos h1, if_neg h2]
      simp only [Shadow_MatchTopicString, hPL2, hNL, hv, hs1, ha1, hs2, if_true, Option.getD_some,
        and_self, reduceCtorEq, if_false, and_false, Option.map_some', hp, matchResultOf]
  · rw [if_neg h1] at hs1
    have hp : parseTopic (topic.take tl) = (SHADOW_FAIL, 0, 0, none) := by
      unfold parseTopic; rw [if_neg h1]
    simp only [Shadow_MatchTopicString, hPL2, hNL, hv, hs1, if_true, Option.getD_some, reduceCtorEq,
      if_false, and_false, Option.map_some', hp, matchResultOf]


/-! ## The reference grammar on decomposed topics -/

theorem nameOf_not_mem (A : List Byte) : '/'.toNat ∉ nameOf A := by
  intro h
  have := List.mem_takeWhile_imp h
  simp at this

theorem nameOf_append_slash (name rest : List Byte) (h : '/'.toNat ∉ name) :
    nameOf (name ++ '/'.toNat :: rest) = name := by
  unfold nameOf
  rw [List.takeWhile_append_of_pos]
  · simp
  · intro a ha
    have : a ≠ '/'.toNat := fun e => h (e ▸ ha)
    simpa using this

theorem afterName_append_slash (name rest : List Byte) (h : '/'.toNat ∉ name) :
    afterName (name ++ '/'.toNat :: rest) = '/'.toNat :: rest := by
  unfold afterName
  rw [List.dropWhile_append_of_pos]
  · simp
  · intro a ha
    have : a ≠ '/'.toNat := fun e => h (e ▸ ha)
    simpa using this

theorem afterName_eq_cons (A : List Byte) (h : afterName A ≠ []) :
    ∃ r, afterName A = '/'.toNat :: r := by
  have hh := List.head_dropWhile_not (fun b => b != '/'.toNat) A h
  refine ⟨(afterName A).tail, ?_⟩
  have h2 : (afterName A).head h = '/'.toNat := by
    simpa using hh
  rw [← h2]
  exact (List.head_cons_tail _ h).symm

theorem messageTypeOf_eq_some_iff (D : List Byte) (t : ShadowMessageType_t) :
    messageTypeOf D = some t ↔ D = messageLiteral t ∧ t ≠ ShadowMessageTypeMaxNum := by
  constructor
  · intro h
    unfold messageTypeOf at h
    split_ifs at h with h1 h2 h3 h4 h5 h6 h7 h8 <;>
      (cases h; exact ⟨by assumption, by decide⟩)
  · rintro ⟨h, hne⟩
    subst h
    cases t <;> first | rfl | exact absurd rfl hne

theorem messageTypeOf_eq_none_iff (D : List Byte) :
    messageTypeOf D = none ↔ ∀ t, t ≠ ShadowMessageTypeMaxNum → D ≠ messageLiteral t := by
  constructor
  · intro h t ht hD
    have := (messageTypeOf_eq_some_iff D t).mpr ⟨hD, ht⟩
    rw [h] at this; cases this
  · intro h
    cases hm : messageTypeOf D with
    | none => rfl
    | some t =>
      have := (messageTypeOf_eq_some_iff D t).mp hm
      exact absurd this.1 (h t this.2)

/-- The outcome of the grammar on a topic with a named-shadow root. -/
theorem parseTopic_named (thing shadow rest : List Byte)
    (hthing : thing ≠ []) (hts : '/'.toNat ∉ thing)
    (hshadow : shadow ≠ []) (hss : '/'.toNat ∉ shadow) :
    parseTopic (cstr "$aws/things/" ++ thing ++ cstr "/shadow/name/" ++ shadow ++
        '/'.toNat :: rest) =
      match messageTypeOf ('/'.toNat :: rest) with
      | some t => (SHADOW_SUCCESS, thing.length, shadow.length, some t)
      | none => (SHADOW_MESSAGE_TYPE_PARSE_FAILED, thing.length, shadow.length, none) := by
  have e1 : (cstr "$aws/things/" ++ thing ++ cstr "/shadow/name/" ++ shadow ++
      '/'.toNat :: rest).take 12 = cstr "$aws/things/" := by
    simp only [List.append_assoc]
    exact List.take_left' (by decide)
  have e2 : (cstr "$aws/things/" ++ thing ++ cstr "/shadow/name/" ++ shadow ++
      '/'.toNat :: rest).drop 12 =
      thing ++ '/'.toNat :: (cstr "shadow/name/" ++ shadow ++ '/'.toNat :: rest) := by
    simp only [List.append_assoc]
    rw [List.drop_left' (by decide)]
    rfl
  have e3 : '/'.toNat :: (cstr "shadow/name/" ++ shadow ++ '/'.toNat :: rest) =
      cstr "/shadow/name/" ++ (shadow ++ '/'.toNat :: rest) := by
    simp only [List.append_assoc]; rfl
  unfold parseTopic
  rw [if_pos e1, e2, nameOf_append_slash _ _ hts, afterName_append_slash _ _ hts, e3,
    List.take_left' (by decide), List.drop_left' (by decide),
    nameOf_append_slash _ _ hss, afterName_append_slash _ _ hss]
  have hne : cstr "/shadow/name/" ++ (shadow ++ '/'.toNat :: rest) ≠ [] := by
    rw [← e3]; exact List.cons_ne_nil _ _
  rw [if_pos (And.intro hthing hne), if_pos (And.intro hshadow (List.cons_ne_nil _ _)),
    if_pos rfl]

/-- The outcome of the grammar on a topic with the classic-shadow root. -/
theorem parseTopic_classic (thing rest : List Byte)
    (hthing : thing ≠ []) (hts : '/'.toNat ∉ thing)
    (hnot : (cstr "/shadow" ++ rest).take 13 ≠ cstr "/shadow/name/") :
    parseTopic (cstr "$aws/things/" ++ thing ++ cstr "/shadow" ++ rest) =
      match messageTypeOf rest with
      | some t => (SHADOW_SUCCESS, thing.length, 0, some t)
      | none => (SHADOW_MESSAGE_TYPE_PARSE_FAILED, thing.length, 0, none) := by
  have e1 : (cstr "$aws/things/" ++ thing ++ cstr "/shadow" ++ rest).take 12 =
      cstr "$aws/things/" := by
    simp only [List.append_assoc]
    exact List.take_left' (by decide)
  have e2 : (cstr "$aws/things/" ++ thing ++ cstr "/shadow" ++ rest).drop 12 =
      thing ++ '/'.toNat :: (cstr "shadow" ++ rest) := by
    simp only [List.append_assoc]
    rw [List.drop_left' (by decide)]
    rfl
  have e3 : '/'.toNat :: (cstr "shadow" ++ rest) = cstr "/shadow" ++ rest := rfl
  unfold parseTopic
  rw [if_pos e1, e2, nameOf_append_slash _ _ hts, afterName_append_slash _ _ hts, e3,
    if_neg hnot, List.take_left' (by decide), List.drop_left' (by decide)]
  have hne : cstr "/shadow" ++ rest ≠ [] := by
    rw [← e3]; exact List.cons_ne_nil _ _
  rw [if_pos (And.intro hthing hne), if_pos rfl]


/-- A topic on which the grammar reaches the message type stage is a prefix, a
device identifier, a root and a remainder. -/
theorem parseTopic_shape (T : List Byte)
    (h : (parseTopic T).1 = SHADOW_SUCCESS ∨ (parseTopic T).1 = SHADOW_MESSAGE_TYPE_PARSE_FAILED) :
    ∃ thing rest, thing ≠ [] ∧ '/'.toNat ∉ thing ∧
      ((∃ shadow r, shadow ≠ [] ∧ '/'.toNat ∉ shadow ∧ rest = '/'.toNat :: r ∧
          T = cstr "$aws/things/" ++ thing ++ cstr "/shadow/name/" ++ shadow ++ rest) ∨
        ((cstr "/shadow" ++ rest).take 13 ≠ cstr "/shadow/name/" ∧
          T = cstr "$aws/things/" ++ thing ++ cstr "/shadow" ++ rest)) := by
  by_cases h1 : T.take 12 = cstr "$aws/things/"
  · have hT : T = cstr "$aws/things/" ++ T.drop 12 := by
      conv_lhs => rw [← List.take_append_drop 12 T, h1]
    by_cases h2 : nameOf (T.drop 12) ≠ [] ∧ afterName (T.drop 12) ≠ []
    · have hA := nameOf_append_afterName (T.drop 12)
      by_cases h3 : (afterName (T.drop 12)).take 13 = cstr "/shadow/name/"
      · have hB : afterName (T.drop 12) =
            cstr "/shadow/name/" ++ (afterName (T.drop 12)).drop 13 := by
          conv_lhs => rw [← List.take_append_drop 13 (afterName (T.drop 12)), h3]
        by_cases h5 : nameOf ((afterName (T.drop 12)).drop 13) ≠ [] ∧
            afterName ((afterName (T.drop 12)).drop 13) ≠ []
        · obtain ⟨r, hr⟩ := afterName_eq_cons _ h5.2
          have hC := nameOf_append_afterName ((afterName (T.drop 12)).drop 13)
          refine ⟨nameOf (T.drop 12), afterName ((afterName (T.drop 12)).drop 13), h2.1,
            nameOf_not_mem _, Or.inl ⟨nameOf ((afterName (T.drop 12)).drop 13), r, h5.1,
              nameOf_not_mem _, hr, ?_⟩⟩
          simp only [List.append_assoc]
          rw [hC, ← hB, hA]
          exact hT
        · exfalso
          unfold parseTopic at h
          rw [if_pos h1, if_pos h2, if_pos h3, if_neg h5] at h
          simp at h
      · by_cases h4 : (afterName (T.drop 12)).take 7 = cstr "/shadow"
        · have hB : afterName (T.drop 12) = cstr "/shadow" ++ (afterName (T.drop 12)).drop 7 := by
            conv_lhs => rw [← List.take_append_drop 7 (afterName (T.drop 12)), h4]
          refine ⟨nameOf (T.drop 12), (afterName (T.drop 12)).drop 7, h2.1, nameOf_not_mem _,
            Or.inr ⟨?_, ?_⟩⟩
          · rw [← hB]; exact h3
          · simp only [List.append_assoc]
            rw [← hB, hA]
            exact hT
        · exfalso
          unfold parseTopic at h
          rw [if_pos h1, if_pos h2, if_neg h3, if_neg h4] at h
          simp at h
    · exfalso
      unfold parseTopic at h
      rw [if_pos h1, if_neg h2] at h
      simp at h
  · exfalso
    unfold parseTopic at h
    rw [if_neg h1] at h
    simp at h

/-! ## `memcpy` and the assembler -/

theorem memcpy_length (dest : List Byte) (offset : Nat) (src : List Byte) (n : Nat) :
    (memcpy dest offset src n).length = dest.length := by
  induction n with
  | zero => rfl
  | succ k ih => rw [memcpy, List.length_set, ih]

/-- Copying `n` bytes of `src` to the position right after `pre` replaces the
`n` bytes found there. -/
theorem memcpy_append (pre rest src : List Byte) (n : Nat) (hsrc : n ≤ src.length)
    (hrest : n ≤ rest.length) :
    memcpy (pre ++ rest) pre.length src n = pre ++ src.take n ++ rest.drop n := by
  induction n with
  | zero => simp [memcpy]
  | succ k ih =>
    have hk : k < src.length := by omega
    have hr : k < rest.length := by omega
    rw [memcpy, ih (by omega) (by omega), List.getD_eq_getElem _ _ hk]
    have hlen : (pre ++ src.take k).length = pre.length + k := by
      rw [List.length_append, List.length_take]; omega
    rw [← hlen, List.set_append_right _ _ (Nat.le_refl _), Nat.sub_self,
      List.drop_eq_getElem_cons hr, List.set_cons_zero]
    have ht : src.take (k + 1) = src.take k ++ [src[k]] := by
      rw [List.take_succ, List.getElem?_eq_getElem hk]; rfl
    rw [ht]
    simp only [List.append_assoc, List.singleton_append]

/-- Copying to a position given as a number equal to the length of `pre`. -/
theorem memcpy_at (pre rest src : List Byte) (offset n : Nat) (hoff : offset = pre.length)
    (hsrc : n ≤ src.length) (hrest : n ≤ rest.length) :
    memcpy (pre ++ rest) offset src n = pre ++ src.take n ++ rest.drop n := by
  subst hoff; exact memcpy_append pre rest src n hsrc hrest


theorem memcpy_literal (pre rest lit : List Byte) (offset n : Nat) (hoff : offset = pre.length)
    (hn : n = lit.length) (hrest : n ≤ rest.length) :
    memcpy (pre ++ rest) offset lit n = pre ++ lit ++ rest.drop n := by
  rw [memcpy_at pre rest lit offset n hoff (by omega) hrest, hn, List.take_length]

theorem getShadowOperation_eq (topicType : ShadowTopicStringType_t) (h : topicType < 11) :
    getShadowOperationString topicType = opLiteral topicType ∧
      getShadowOperationLength topicType = (opLiteral topicType).length := by
  interval_cases topicType <;> exact ⟨by decide, by decide⟩

theorem opLiteral_length_le (topicType : ShadowTopicStringType_t) :
    (opLiteral topicType).length ≤ 17 := by
  unfold opLiteral
  split <;> decide

/-- The buffer after `createShadowTopicString`: the topic string followed by the
untouched rest of the buffer. -/
theorem createShadowTopicString_eq (topicType : ShadowTopicStringType_t)
    (thing shadow buffer : List Byte) (tnl snl : Nat)
    (ht : topicType < 11) (htn : tnl ≤ thing.length) (hsn : snl ≤ shadow.length)
    (h8a : tnl < 256) (h8b : snl < 256)
    (hbuf : requiredLength topicType tnl snl ≤ buffer.length) :
    createShadowTopicString topicType thing tnl shadow snl buffer =
      cstr "$aws/things/" ++ thing.take tnl ++
        (if snl > 0 then cstr "/shadow/name/" ++ shadow.take snl else cstr "/shadow") ++
        opLiteral topicType ++ buffer.drop (requiredLength topicType tnl snl) := by
  obtain ⟨hos, hol⟩ := getShadowOperation_eq topicType ht
  have hop := opLiteral_length_le topicType
  have hP : SHADOW_PREFIX = cstr "$aws/things/" := rfl
  have hPL : SHADOW_PREFIX_LENGTH = 12 := by decide
  have hN : SHADOW_NAMED_ROOT = cstr "/shadow/name/" := rfl
  have hNL : SHADOW_NAMED_ROOT_LENGTH = 13 := by decide
  have hC : SHADOW_CLASSIC_ROOT = cstr "/shadow" := rfl
  have hCL : SHADOW_CLASSIC_ROOT_LENGTH = 7 := by decide
  have hPlen : (cstr "$aws/things/").length = 12 := by decide
  have hNlen : (cstr "/shadow/name/").length = 13 := by decide
  have hClen : (cstr "/shadow").length = 7 := by decide
  have hTlen : (thing.take tnl).length = tnl := by rw [List.length_take]; omega
  have hSlen : (shadow.take snl).length = snl := by rw [List.length_take]; omega
  unfold requiredLength at hbuf ⊢
  unfold createShadowTopicString
  simp only [hos, hol, hP, hPL, hN, hNL, hC, hCL]
  have ha1 : u16add 0 12 = 12 := by decide
  have ha2 : u16add 12 tnl = 12 + tnl := u16add_eq _ _ (by omega)
  have hb1 : memcpy buffer 0 (cstr "$aws/things/") 12 = cstr "$aws/things/" ++ buffer.drop 12 := by
    have := memcpy_literal [] buffer (cstr "$aws/things/") 0 12 rfl (by decide) (by omega)
    simpa using this
  have hb2 : memcpy (cstr "$aws/things/" ++ buffer.drop 12) 12 thing tnl =
      cstr "$aws/things/" ++ thing.take tnl ++ buffer.drop (12 + tnl) := by
    rw [memcpy_at _ _ thing 12 tnl (by decide) htn (by rw [List.length_drop]; omega),
      List.drop_drop]
  rw [ha1, hb1, ha2, hb2]
  by_cases hs : snl > 0
  · simp only [hs, if_true]
    rw [if_pos hs] at hbuf
    have ha3 : u16add (12 + tnl) 13 = 12 + tnl + 13 := u16add_eq _ _ (by omega)
    have ha4 : u16add (12 + tnl + 13) snl = 12 + tnl + 13 + snl := u16add_eq _ _ (by omega)
    rw [ha3, ha4]
    rw [memcpy_literal (cstr "$aws/things/" ++ thing.take tnl) _ (cstr "/shadow/name/")
      (12 + tnl) 13 (by rw [List.length_append, hPlen, hTlen]) (by decide)
      (by rw [List.length_drop]; omega), List.drop_drop]
    rw [memcpy_at (cstr "$aws/things/" ++ thing.take tnl ++ cstr "/shadow/name/") _ shadow
      (12 + tnl + 13) snl (by simp only [List.length_append, hPlen, hTlen, hNlen]) hsn
      (by rw [List.length_drop]; omega), List.drop_drop]
    rw [memcpy_literal (cstr "$aws/things/" ++ thing.take tnl ++ cstr "/shadow/name/" ++
      shadow.take snl) _ (opLiteral topicType) (12 + tnl + 13 + snl) _
      (by simp only [List.length_append, hPlen, hTlen, hNlen, hSlen]) rfl
      (by rw [List.length_drop]; omega), List.drop_drop]
    simp only [List.append_assoc]
    have e : 12 + tnl + 13 + snl + (opLiteral topicType).length =
        12 + tnl + (13 + snl) + (opLiteral topicType).length := by omega
    rw [e]
  · simp only [hs, if_false]
    rw [if_neg hs] at hbuf
    have ha3 : u16add (12 + tnl) 7 = 12 + tnl + 7 := u16add_eq _ _ (by omega)
    rw [ha3]
    rw [memcpy_literal (cstr "$aws/things/" ++ thing.take tnl) _ (cstr "/shadow")
      (12 + tnl) 7 (by rw [List.length_append, hPlen, hTlen]) (by decide)
      (by rw [List.length_drop]; omega), List.drop_drop]
    rw [memcpy_literal (cstr "$aws/things/" ++ thing.take tnl ++ cstr "/shadow") _
      (opLiteral topicType) (12 + tnl + 7) _
      (by simp only [List.length_append, hPlen, hTlen, hClen]) rfl
      (by rw [List.length_drop]; omega), List.drop_drop]


/-- With valid parameters, `Shadow_AssembleTopicString` compares the buffer size
with the required length and writes the topic when it fits. -/
theorem Shadow_AssembleTopicString_valid (topicType : ShadowTopicStringType_t)
    (thing : List Byte) (tnl : Nat) (pShadowName : Option (List Byte)) (snl : Nat)
    (buffer : List Byte) (bufferSize ol0 : Nat)
    (htn : tnl ≠ 0) (hsh : ¬ (pShadowName = none ∧ snl > 0)) (ht : topicType < 11)
    (h8a : tnl < 256) (h8b : snl < 256) :
    Shadow_AssembleTopicString topicType (some thing) tnl pShadowName snl (some buffer)
        bufferSize (some ol0) =
      if bufferSize < requiredLength topicType tnl snl then
        { status := SHADOW_BUFFER_TOO_SMALL, topicBuffer := some buffer, outLength := some ol0 }
      else
        { status := SHADOW_SUCCESS
          topicBuffer := some (createShadowTopicString topicType thing tnl
            (pShadowName.getD []) snl buffer)
          outLength := some (requiredLength topicType tnl snl) } := by
  obtain ⟨_, hol⟩ := getShadowOperation_eq topicType ht
  have hop := opLiteral_length_le topicType
  have hPL : SHADOW_PREFIX_LENGTH = 12 := by decide
  have hNL : SHADOW_NAMED_ROOT_LENGTH = 13 := by decide
  have hCL : SHADOW_CLASSIC_ROOT_LENGTH = 7 := by decide
  have hcond : ¬ ((some buffer = none) ∨ (some thing = none) ∨ tnl = 0 ∨
      (pShadowName = none ∧ snl > 0) ∨ topicType ≥ ShadowTopicStringTypeMaxNum ∨
      (some ol0 = none)) := by
    intro h
    rcases h with h | h | h | h | h | h
    · cases h
    · cases h
    · exact htn h
    · exact hsh h
    · exact absurd ht (Nat.not_lt.mpr h)
    · cases h
  have hlen : (SHADOW_PREFIX_LENGTH + tnl +
      (if snl > 0 then SHADOW_NAMED_ROOT_LENGTH + snl else SHADOW_CLASSIC_ROOT_LENGTH) +
      getShadowOperationLength topicType) % 65536 = requiredLength topicType tnl snl := by
    unfold requiredLength
    rw [hPL, hNL, hCL, hol]
    apply Nat.mod_eq_of_lt
    by_cases hs : snl > 0
    · rw [if_pos hs]; omega
    · rw [if_neg hs]; omega
  unfold Shadow_AssembleTopicString
  rw [if_neg hcond]
  simp only [hlen, Option.getD_some, Option.map_some']

/-- The validation test of `Shadow_AssembleTopicString`. -/
theorem Shadow_AssembleTopicString_bad (topicType : ShadowTopicStringType_t)
    (pThingName : Option (List Byte)) (tnl : Nat) (pShadowName : Option (List Byte)) (snl : Nat)
    (pTopicBuffer : Option (List Byte)) (bufferSize : Nat) (pOutLength : Option Nat) :
    (Shadow_AssembleTopicString topicType pThingName tnl pShadowName snl pTopicBuffer
        bufferSize pOutLength).status = SHADOW_BAD_PARAMETER ↔
      (pTopicBuffer = none ∨ pThingName = none ∨ tnl = 0 ∨ (pShadowName = none ∧ snl > 0) ∨
        topicType ≥ ShadowTopicStringTypeMaxNum ∨ pOutLength = none) := by
  unfold Shadow_AssembleTopicString
  by_cases hc : (pTopicBuffer = none ∨ pThingName = none ∨ tnl = 0 ∨
      (pShadowName = none ∧ snl > 0) ∨ topicType ≥ ShadowTopicStringTypeMaxNum ∨
      pOutLength = none)
  · rw [if_pos hc]; simp [hc]
  · rw [if_neg hc]
    simp only [hc, iff_false]
    intro h
    split_ifs at h


/-! ## Completeness of the grammar on well-formed topics -/

theorem resultMessageType_literal (topicType : ShadowTopicStringType_t) (t : ShadowMessageType_t)
    (h : resultMessageType topicType = some t) :
    opLiteral topicType = messageLiteral t ∧ t ≠ ShadowMessageTypeMaxNum ∧ topicType < 11 := by
  unfold resultMessageType at h
  split at h <;> first | (cases h; exact ⟨by decide, by decide, by decide⟩) | cases h

theorem messageLiteral_cons (t : ShadowMessageType_t) (ht : t ≠ ShadowMessageTypeMaxNum) :
    ∃ r, messageLiteral t = '/'.toNat :: r := by
  cases t <;> first | exact absurd rfl ht | exact ⟨_, rfl⟩

theorem classic_not_named (t : ShadowMessageType_t) :
    (cstr "/shadow" ++ messageLiteral t).take 13 ≠ cstr "/shadow/name/" := by
  cases t <;> decide

/-- The grammar accepts every well-formed topic and returns its parts. -/
theorem parseTopic_topic (thing shadow : List Byte) (t : ShadowMessageType_t)
    (ht : t ≠ ShadowMessageTypeMaxNum) (hthing : thing ≠ []) (hts : '/'.toNat ∉ thing)
    (hss : '/'.toNat ∉ shadow) :
    parseTopic (cstr "$aws/things/" ++ thing ++ rootLiteral shadow ++ messageLiteral t) =
      (SHADOW_SUCCESS, thing.length, shadow.length, some t) := by
  have hm : messageTypeOf (messageLiteral t) = some t :=
    (messageTypeOf_eq_some_iff _ _).mpr ⟨rfl, ht⟩
  unfold rootLiteral
  by_cases hs : shadow.length > 0
  · rw [if_pos hs]
    obtain ⟨r, hr⟩ := messageLiteral_cons t ht
    have hne : shadow ≠ [] := List.length_pos.mp hs
    have := parseTopic_named thing shadow r hthing hts hne hss
    rw [← hr, hm] at this
    simp only [List.append_assoc] at this ⊢
    exact this
  · rw [if_neg hs]
    have h0 : shadow.length = 0 := by omega
    have := parseTopic_classic thing (messageLiteral t) hthing hts (classic_not_named t)
    rw [hm] at this
    rw [this, h0]

/-- The matcher accepts every well-formed topic held in the first `n` bytes of
the memory `mem`. -/
theorem Shadow_MatchTopicString_topic (mem thing shadow : List Byte) (n : Nat)
    (t mt0 : ShadowMessageType_t)
    (pThingName : Option CharPtr) (pThingNameLength : Option Nat)
    (pShadowName : Option CharPtr) (pShadowNameLength : Option Nat)
    (ht : t ≠ ShadowMessageTypeMaxNum) (hthing : thing ≠ []) (hts : '/'.toNat ∉ thing)
    (hss : '/'.toNat ∉ shadow)
    (hmem : mem.take n = cstr "$aws/things/" ++ thing ++ rootLiteral shadow ++ messageLiteral t)
    (hn : n = (cstr "$aws/things/" ++ thing ++ rootLiteral shadow ++ messageLiteral t).length)
    (h16 : n < 65536) :
    Shadow_MatchTopicString (some mem) n (some mt0) pThingName pThingNameLength
        pShadowName pShadowNameLength =
      { status := SHADOW_SUCCESS
        messageType := some t
        thingName := pThingName.map (fun _ => CharPtr.topicAt 12)
        thingNameLength := pThingNameLength.map (fun _ => thing.length)
        shadowName := pShadowName.map (fun _ => CharPtr.topicAt (12 + thing.length + 13))
        shadowNameLength := pShadowNameLength.map (fun _ => shadow.length) } := by
  have hlen : n ≤ mem.length := by
    have := congrArg List.length hmem
    rw [List.length_take, ← hn] at this
    omega
  have hpos : 0 < n := by
    rw [hn]
    simp only [List.length_append]
    have : (cstr "$aws/things/").length = 12 := by decide
    omega
  rw [Shadow_MatchTopicString_eq_parse mem n mt0 _ _ _ _ hpos hlen h16, hmem,
    parseTopic_topic thing shadow t ht hthing hts hss]
  simp [matchResultOf]


/-- With an invalid parameter the matcher returns `SHADOW_BAD_PARAMETER` and
writes nothing. -/
theorem Shadow_MatchTopicString_bad (pTopic : Option (List Byte)) (tl : Nat)
    (pMessageType : Option ShadowMessageType_t)
    (pThingName : Option CharPtr) (pThingNameLength : Option Nat)
    (pShadowName : Option CharPtr) (pShadowNameLength : Option Nat)
    (h : pTopic = none ∨ tl = 0 ∨ pMessageType = none) :
    Shadow_MatchTopicString pTopic tl pMessageType pThingName pThingNameLength
        pShadowName pShadowNameLength =
      { status := SHADOW_BAD_PARAMETER
        messageType := pMessageType
        thingName := pThingName
        thingNameLength := pThingNameLength
        shadowName := pShadowName
        shadowNameLength := pShadowNameLength } := by
  have hv : validateMatchTopicParameters pTopic tl pMessageType = SHADOW_BAD_PARAMETER := by
    unfold validateMatchTopicParameters
    rw [if_pos h]
  simp only [Shadow_MatchTopicString, hv, reduceCtorEq, if_false, false_and, and_false]
  cases pMessageType <;> rfl

/-- A topic the grammar accepts is a well-formed topic. -/
theorem parseTopic_success (T : List Byte) (n s : Nat) (m : Option ShadowMessageType_t)
    (h : parseTopic T = (SHADOW_SUCCESS, n, s, m)) :
    ∃ t thing shadow, m = some t ∧ t ≠ ShadowMessageTypeMaxNum ∧ n = thing.length ∧
      s = shadow.length ∧ thing ≠ [] ∧ '/'.toNat ∉ thing ∧ '/'.toNat ∉ shadow ∧
      T = cstr "$aws/things/" ++ thing ++ rootLiteral shadow ++ messageLiteral t := by
  have h1 : (parseTopic T).1 = SHADOW_SUCCESS := by rw [h]
  obtain ⟨thing, rest, hthing, hts, hcase⟩ := parseTopic_shape T (Or.inl h1)
  rcases hcase with ⟨shadow, r, hshadow, hss, hr, hT⟩ | ⟨hnot, hT⟩
  · have hp := parseTopic_named thing shadow r hthing hts hshadow hss
    rw [← hr, ← hT, h] at hp
    cases hm : messageTypeOf rest with
    | none => rw [hm] at hp; cases hp
    | some t =>
      rw [hm] at hp
      obtain ⟨hlit, hne⟩ := (messageTypeOf_eq_some_iff _ _).mp hm
      have hroot : rootLiteral shadow = cstr "/shadow/name/" ++ shadow := by
        unfold rootLiteral
        rw [if_pos (List.length_pos.mpr hshadow)]
      injection hp with _ hp
      injection hp with hn hp
      injection hp with hs hm2
      refine ⟨t, thing, shadow, hm2, hne, hn, hs, hthing, hts, hss, ?_⟩
      rw [hT, hroot, hlit]
      simp only [List.append_assoc]
  · have hp := parseTopic_classic thing rest hthing hts hnot
    rw [← hT, h] at hp
    cases hm : messageTypeOf rest with
    | none => rw [hm] at hp; cases hp
    | some t =>
      rw [hm] at hp
      obtain ⟨hlit, hne⟩ := (messageTypeOf_eq_some_iff _ _).mp hm
      injection hp with _ hp
      injection hp with hn hp
      injection hp with hs hm2
      refine ⟨t, thing, [], hm2, hne, hn, hs, hthing, hts, List.not_mem_nil _, ?_⟩
      rw [hT, hlit]
      rfl

theorem matchResultOf_status (r : ShadowStatus_t × Nat × Nat × Option ShadowMessageType_t)
    (mt : ShadowMessageType_t) (a : Option CharPtr) (b : Option Nat) (c : Option CharPtr)
    (d : Option Nat) : (matchResultOf r mt a b c d).status = r.1 := by
  unfold matchResultOf
  split
  · rename_i h; rw [h]
  · rfl


/-- Parameters that pass the validation of `Shadow_AssembleTopicString`. -/
theorem assemble_valid_inv (topicType : ShadowTopicStringType_t)
    (pThingName : Option (List Byte)) (tnl : Nat) (pShadowName : Option (List Byte)) (snl : Nat)
    (pTopicBuffer : Option (List Byte)) (pOutLength : Option Nat)
    (h : ¬ (pTopicBuffer = none ∨ pThingName = none ∨ tnl = 0 ∨ (pShadowName = none ∧ snl > 0) ∨
      topicType ≥ ShadowTopicStringTypeMaxNum ∨ pOutLength = none)) :
    ∃ thing buffer ol0, pThingName = some thing ∧ pTopicBuffer = some buffer ∧
      pOutLength = some ol0 ∧ tnl ≠ 0 ∧ ¬ (pShadowName = none ∧ snl > 0) ∧ topicType < 11 := by
  cases pThingName with
  | none => exact absurd (Or.inr (Or.inl rfl)) h
  | some thing =>
    cases pTopicBuffer with
    | none => exact absurd (Or.inl rfl) h
    | some buffer =>
      cases pOutLength with
      | none => exact absurd (Or.inr (Or.inr (Or.inr (Or.inr (Or.inr rfl))))) h
      | some ol0 =>
        refine ⟨thing, buffer, ol0, rfl, rfl, rfl, ?_, ?_, ?_⟩
        · intro h0; exact h (Or.inr (Or.inr (Or.inl h0)))
        · intro hs; exact h (Or.inr (Or.inr (Or.inr (Or.inl hs))))
        · exact Nat.lt_of_not_le (fun h11 => h (Or.inr (Or.inr (Or.inr (Or.inr (Or.inl h11))))))


/-- With valid parameters the status of the matcher is the status of the
reference grammar. -/
theorem Shadow_MatchTopicString_status (mem : List Byte) (n : Nat) (mt : ShadowMessageType_t)
    (a : Option CharPtr) (b : Option Nat) (c : Option CharPtr) (d : Option Nat)
    (h0 : 0 < n) (hmem : n ≤ mem.length) (h16 : n < 65536) :
    (Shadow_MatchTopicString (some mem) n (some mt) a b c d).status =
      (parseTopic (mem.take n)).1 := by
  rw [Shadow_MatchTopicString_eq_parse mem n mt a b c d h0 hmem h16, matchResultOf_status]

/-- No operation+suffix literal is a prefix of another one. -/
theorem messageLiteral_no_extension (t u : ShadowMessageType_t)
    (ht : t ≠ ShadowMessageTypeMaxNum)
    (h : (messageLiteral u).take (messageLiteral t).length = messageLiteral t) : t = u := by
  cases t <;> cases u <;> first | rfl | exact absurd rfl ht | (exfalso; revert h; decide)

/-- A literal followed by further bytes is not a literal. -/
theorem messageTypeOf_append (t : ShadowMessageType_t) (extra : List Byte)
    (ht : t ≠ ShadowMessageTypeMaxNum) (hextra : extra ≠ []) :
    messageTypeOf (messageLiteral t ++ extra) = none := by
  rw [messageTypeOf_eq_none_iff]
  intro u _ h
  have h1 : (messageLiteral u).take (messageLiteral t).length = messageLiteral t := by
    rw [← h, List.take_left]
  have htu := messageLiteral_no_extension t u ht h1
  subst htu
  have hl := congrArg List.length h
  rw [List.length_append] at hl
  exact hextra (List.length_eq_zero.mp (by omega))

theorem messageLiteral_length_ge (t : ShadowMessageType_t) (ht : t ≠ ShadowMessageTypeMaxNum) :
    13 ≤ (messageLiteral t).length := by
  cases t <;> first | exact absurd rfl ht | decide

theorem classic_not_named_append (t : ShadowMessageType_t) (extra : List Byte)
    (ht : t ≠ ShadowMessageTypeMaxNum) :
    (cstr "/shadow" ++ (messageLiteral t ++ extra)).take 13 ≠ cstr "/shadow/name/" := by
  have hl := messageLiteral_length_ge t ht
  have h7 : (cstr "/shadow").length = 7 := by decide
  rw [← List.append_assoc, List.take_append_of_le_length
    (by rw [List.length_append]; omega)]
  exact classic_not_named t


/-! ## Claims -/

/-- C1 (round trip): for each of the eight result topic types, a thing name of
1 to 128 bytes without a slash, a shadow name of 0 to 64 bytes without a slash
and a buffer at least as large as the required length, the assembler succeeds
and the matcher, applied to the first `*pOutLength` bytes of the buffer, returns
`SHADOW_SUCCESS` with the message type of the same name, a thing name span equal
to the thing name and a shadow name length and span equal to the shadow name. -/
theorem C1_round_trip (topicType : ShadowTopicStringType_t) (t : ShadowMessageType_t)
    (thing shadow buffer : List Byte) (bufferSize outLength0 : Nat)
    (mt0 : ShadowMessageType_t) (p1 p2 : CharPtr) (l1 l2 : Nat)
    (hkind : resultMessageType topicType = some t)
    (hthing1 : 1 ≤ thing.length) (hthing2 : thing.length ≤ 128) (hts : '/'.toNat ∉ thing)
    (hshadow : shadow.length ≤ 64) (hss : '/'.toNat ∉ shadow)
    (hsize : requiredLength topicType thing.length shadow.length ≤ bufferSize)
    (hmem : bufferSize ≤ buffer.length) (h16 : bufferSize < 65536) :
    ∃ out n,
      Shadow_AssembleTopicString topicType (some thing) thing.length (some shadow) shadow.length
          (some buffer) bufferSize (some outLength0) =
        { status := SHADOW_SUCCESS, topicBuffer := some out, outLength := some n } ∧
      Shadow_MatchTopicString (some out) n (some mt0) (some p1) (some l1) (some p2) (some l2) =
        { status := SHADOW_SUCCESS
          messageType := some t
          thingName := some (CharPtr.topicAt 12)
          thingNameLength := some thing.length
          shadowName := some (CharPtr.topicAt (12 + thing.length + 13))
          shadowNameLength := some shadow.length } ∧
      spanBytes out (CharPtr.topicAt 12) thing.length = thing ∧
      spanBytes out (CharPtr.topicAt (12 + thing.length + 13)) shadow.length = shadow := by
  obtain ⟨hlit, hne, hlt⟩ := resultMessageType_literal topicType t hkind
  have hthing : thing ≠ [] := List.length_pos.mp (by omega)
  have hP : (cstr "$aws/things/").length = 12 := by decide
  have hN : (cstr "/shadow/name/").length = 13 := by decide
  have hC : (cstr "/shadow").length = 7 := by decide
  have hvalid := Shadow_AssembleTopicString_valid topicType thing thing.length (some shadow)
    shadow.length buffer bufferSize outLength0 (by omega) (by simp) hlt (by omega) (by omega)
  rw [if_neg (by omega)] at hvalid
  have hcreate := createShadowTopicString_eq topicType thing shadow buffer thing.length
    shadow.length hlt (Nat.le_refl _) (Nat.le_refl _) (by omega) (by omega) (by omega)
  rw [List.take_length, List.take_length] at hcreate
  have hroot : (if shadow.length > 0 then cstr "/shadow/name/" ++ shadow else cstr "/shadow") =
      rootLiteral shadow := rfl
  rw [hroot, hlit] at hcreate
  have hreq : requiredLength topicType thing.length shadow.length =
      (cstr "$aws/things/" ++ thing ++ rootLiteral shadow ++ messageLiteral t).length := by
    unfold requiredLength rootLiteral
    rw [hlit]
    by_cases hs : shadow.length > 0
    · simp only [hs, if_true, List.length_append, hP, hN]
    · simp only [hs, if_false, List.length_append, hP, hC]
  refine ⟨_, _, hvalid, ?_, ?_, ?_⟩
  · simp only [Option.getD_some]
    have hm := Shadow_MatchTopicString_topic
      (createShadowTopicString topicType thing thing.length shadow shadow.length buffer)
      thing shadow (requiredLength topicType thing.length shadow.length) t mt0
      (some p1) (some l1) (some p2) (some l2) hne hthing hts hss
      (by rw [hcreate, hreq]; exact List.take_left _ _) hreq (by omega)
    simpa using hm
  · simp only [Option.getD_some]
    rw [hcreate]
    simp only [spanBytes, List.append_assoc]
    rw [List.drop_left' hP, List.take_left]
  · simp only [Option.getD_some]
    rw [hcreate]
    by_cases hs : shadow.length > 0
    · simp only [spanBytes, rootLiteral, hs, if_true, List.append_assoc]
      have e : cstr "$aws/things/" ++ (thing ++ (cstr "/shadow/name/" ++ (shadow ++
          (messageLiteral t ++ List.drop (requiredLength topicType thing.length shadow.length)
            buffer)))) =
          (cstr "$aws/things/" ++ thing ++ cstr "/shadow/name/") ++ (shadow ++
          (messageLiteral t ++ List.drop (requiredLength topicType thing.length shadow.length)
            buffer)) := by
        simp only [List.append_assoc]
      rw [e, List.drop_left' (by simp only [List.length_append, hP, hN]), List.take_left]
    · have h0 : shadow.length = 0 := by omega
      simp only [spanBytes, h0, List.take_zero]
      exact (List.length_eq_zero.mp h0).symm

/-- Witness of C1: the named-shadow topic for `UpdateDelta`, thing `Thing1`,
shadow `Shadow1`, in a 64-byte buffer. -/
theorem C1_round_trip_witness :
    resultMessageType ShadowTopicStringTypeUpdateDelta = some ShadowMessageTypeUpdateDelta ∧
    1 ≤ (cstr "Thing1").length ∧ (cstr "Thing1").length ≤ 128 ∧ '/'.toNat ∉ cstr "Thing1" ∧
    (cstr "Shadow1").length ≤ 64 ∧ '/'.toNat ∉ cstr "Shadow1" ∧
    requiredLength ShadowTopicStringTypeUpdateDelta (cstr "Thing1").length
      (cstr "Shadow1").length ≤ 64 ∧
    ∃ out n,
      Shadow_AssembleTopicString ShadowTopicStringTypeUpdateDelta (some (cstr "Thing1"))
          (cstr "Thing1").length (some (cstr "Shadow1")) (cstr "Shadow1").length
          (some (List.replicate 64 0)) 64 (some 0) =
        { status := SHADOW_SUCCESS, topicBuffer := some out, outLength := some n } ∧
      Shadow_MatchTopicString (some out) n (some ShadowMessageTypeMaxNum)
          (some CharPtr.null) (some 0) (some CharPtr.null) (some 0) =
        { status := SHADOW_SUCCESS
          messageType := some ShadowMessageTypeUpdateDelta
          thingName := some (CharPtr.topicAt 12)
          thingNameLength := some (cstr "Thing1").length
          shadowName := some (CharPtr.topicAt (12 + (cstr "Thing1").length + 13))
          shadowNameLength := some (cstr "Shadow1").length } ∧
      spanBytes out (CharPtr.topicAt 12) (cstr "Thing1").length = cstr "Thing1" ∧
      spanBytes out (CharPtr.topicAt (12 + (cstr "Thing1").length + 13))
        (cstr "Shadow1").length = cstr "Shadow1" :=
  ⟨by decide, by decide, by decide, by decide, by decide, by decide, by decide,
    C1_round_trip ShadowTopicStringTypeUpdateDelta ShadowMessageTypeUpdateDelta
      (cstr "Thing1") (cstr "Shadow1") (List.replicate 64 0) 64 0 ShadowMessageTypeMaxNum
      CharPtr.null CharPtr.null 0 0 (by decide) (by decide) (by decide) (by decide)
      (by decide) (by decide) (by decide) (by decide) (by decide)⟩

/-- C2 (soundness of matching): whenever the matcher returns `SHADOW_SUCCESS`
with message type `t`, thing name length `n` and shadow name length `s`, the
first `topicLength` bytes of the topic are exactly the prefix, a thing name of
`n >= 1` bytes without a slash, the classic root when `s = 0` or the named root
and a shadow name of `s >= 1` bytes without a slash, and the literal of `t`,
with nothing left over. -/
theorem C2_match_sound (topic : List Byte) (topicLength : Nat)
    (pMessageType : Option ShadowMessageType_t) (pThingName pShadowName : Option CharPtr)
    (l1 l2 : Nat) (hmem : topicLength ≤ topic.length) (h16 : topicLength < 65536)
    (hs : (Shadow_MatchTopicString (some topic) topicLength pMessageType pThingName (some l1)
      pShadowName (some l2)).status = SHADOW_SUCCESS) :
    ∃ t thing shadow,
      (Shadow_MatchTopicString (some topic) topicLength pMessageType pThingName (some l1)
        pShadowName (some l2)).messageType = some t ∧
      t ≠ ShadowMessageTypeMaxNum ∧
      (Shadow_MatchTopicString (some topic) topicLength pMessageType pThingName (some l1)
        pShadowName (some l2)).thingNameLength = some thing.length ∧
      (Shadow_MatchTopicString (some topic) topicLength pMessageType pThingName (some l1)
        pShadowName (some l2)).shadowNameLength = some shadow.length ∧
      1 ≤ thing.length ∧ '/'.toNat ∉ thing ∧ '/'.toNat ∉ shadow ∧
      topic.take topicLength =
        cstr "$aws/things/" ++ thing ++
          (if shadow.length = 0 then cstr "/shadow" else cstr "/shadow/name/" ++ shadow) ++
          messageLiteral t := by
  by_cases hbad : topicLength = 0 ∨ pMessageType = none
  · rw [Shadow_MatchTopicString_bad _ _ _ _ _ _ _ (Or.inr hbad)] at hs
    cases hs
  · have h0 : 0 < topicLength := by
      rcases Nat.eq_zero_or_pos topicLength with h | h
      · exact absurd (Or.inl h) hbad
      · exact h
    obtain ⟨mt, hmt⟩ : ∃ mt, pMessageType = some mt := by
      cases pMessageType with
      | none => exact absurd (Or.inr rfl) hbad
      | some mt => exact ⟨mt, rfl⟩
    subst hmt
    rw [Shadow_MatchTopicString_eq_parse topic topicLength mt _ _ _ _ h0 hmem h16] at hs ⊢
    rw [matchResultOf_status] at hs
    rcases hp : parseTopic (topic.take topicLength) with ⟨st, n, s, m⟩
    rw [hp] at hs
    simp only at hs
    subst hs
    obtain ⟨t, thing, shadow, hm, hne, hn, hsl, hthing, hts, hss, hT⟩ :=
      parseTopic_success _ n s m hp
    subst hm hn hsl
    refine ⟨t, thing, shadow, ?_, hne, ?_, ?_, List.length_pos.mpr hthing, hts, hss, ?_⟩
    · simp [matchResultOf]
    · simp [matchResultOf]
    · simp [matchResultOf]
    · rw [hT]
      unfold rootLiteral
      by_cases hz : shadow.length = 0
      · simp [hz]
      · have : shadow.length > 0 := by omega
        simp [hz, this]

/-- Witness of C2: the classic `update/delta` topic of thing `Thing1`. -/
theorem C2_match_sound_witness :
    38 ≤ (cstr "$aws/things/Thing1/shadow/update/delta").length ∧
    (Shadow_MatchTopicString (some (cstr "$aws/things/Thing1/shadow/update/delta")) 38
      (some ShadowMessageTypeMaxNum) none (some 0) none (some 0)).status = SHADOW_SUCCESS ∧
    ∃ t thing shadow,
      (Shadow_MatchTopicString (some (cstr "$aws/things/Thing1/shadow/update/delta")) 38
        (some ShadowMessageTypeMaxNum) none (some 0) none (some 0)).messageType = some t ∧
      t ≠ ShadowMessageTypeMaxNum ∧
      (Shadow_MatchTopicString (some (cstr "$aws/things/Thing1/shadow/update/delta")) 38
        (some ShadowMessageTypeMaxNum) none (some 0) none (some 0)).thingNameLength =
          some thing.length ∧
      (Shadow_MatchTopicString (some (cstr "$aws/things/Thing1/shadow/update/delta")) 38
        (some ShadowMessageTypeMaxNum) none (some 0) none (some 0)).shadowNameLength =
          some shadow.length ∧
      1 ≤ thing.length ∧ '/'.toNat ∉ thing ∧ '/'.toNat ∉ shadow ∧
      (cstr "$aws/things/Thing1/shadow/update/delta").take 38 =
        cstr "$aws/things/" ++ thing ++
          (if shadow.length = 0 then cstr "/shadow" else cstr "/shadow/name/" ++ shadow) ++
          messageLiteral t :=
  ⟨by decide, by decide,
    C2_match_sound (cstr "$aws/things/Thing1/shadow/update/delta") 38
      (some ShadowMessageTypeMaxNum) none none 0 0 (by decide) (by decide) (by decide)⟩

/-- C3 (completeness of matching): for every non-empty thing name without a
slash, each of the eight operation+suffix literals, and the classic root or the
named root with a non-empty shadow name without a slash, the matcher applied to
the topic built from them (at most 65535 bytes, whatever memory follows it)
returns `SHADOW_SUCCESS` with the message type of the literal, the length of the
thing name, and the length of the shadow name (0 for the classic form); so do
the two scenarios of the specification. -/
theorem C3_match_complete (thing shadow tail : List Byte) (t mt0 : ShadowMessageType_t)
    (p1 p2 : CharPtr) (l1 l2 : Nat)
    (ht : t ≠ ShadowMessageTypeMaxNum) (hthing : thing ≠ []) (hts : '/'.toNat ∉ thing)
    (hss : '/'.toNat ∉ shadow)
    (hlen : (cstr "$aws/things/" ++ thing ++ rootLiteral shadow ++ messageLiteral t).length
      ≤ 65535) :
    Shadow_MatchTopicString
        (some (cstr "$aws/things/" ++ thing ++ rootLiteral shadow ++ messageLiteral t ++ tail))
        (cstr "$aws/things/" ++ thing ++ rootLiteral shadow ++ messageLiteral t).length
        (some mt0) (some p1) (some l1) (some p2) (some l2) =
      { status := SHADOW_SUCCESS
        messageType := some t
        thingName := some (CharPtr.topicAt 12)
        thingNameLength := some thing.length
        shadowName := some (CharPtr.topicAt (12 + thing.length + 13))
        shadowNameLength := some shadow.length } ∧
    Shadow_MatchTopicString (some (cstr "$aws/things/Thing1/shadow/update/delta")) 38
        (some mt0) (some p1) (some l1) (some p2) (some l2) =
      { status := SHADOW_SUCCESS
        messageType := some ShadowMessageTypeUpdateDelta
        thingName := some (CharPtr.topicAt 12)
        thingNameLength := some 6
        shadowName := some (CharPtr.topicAt 31)
        shadowNameLength := some 0 } ∧
    spanBytes (cstr "$aws/things/Thing1/shadow/update/delta") (CharPtr.topicAt 12) 6 =
      cstr "Thing1" ∧
    Shadow_MatchTopicString (some (cstr "$aws/things/Thing1/shadow/name/Shadow1/get/accepted"))
        51 (some mt0) (some p1) (some l1) (some p2) (some l2) =
      { status := SHADOW_SUCCESS
        messageType := some ShadowMessageTypeGetAccepted
        thingName := some (CharPtr.topicAt 12)
        thingNameLength := some 6
        shadowName := some (CharPtr.topicAt 31)
        shadowNameLength := some 7 } ∧
    spanBytes (cstr "$aws/things/Thing1/shadow/name/Shadow1/get/accepted")
      (CharPtr.topicAt 12) 6 = cstr "Thing1" ∧
    spanBytes (cstr "$aws/things/Thing1/shadow/name/Shadow1/get/accepted")
      (CharPtr.topicAt 31) 7 = cstr "Shadow1" := by
  refine ⟨?_, ?_, by decide, ?_, by decide, by decide⟩
  · have := Shadow_MatchTopicString_topic
      (cstr "$aws/things/" ++ thing ++ rootLiteral shadow ++ messageLiteral t ++ tail)
      thing shadow _ t mt0 (some p1) (some l1) (some p2) (some l2) ht hthing hts hss
      (List.take_left _ _) rfl (by omega)
    simpa using this
  · have := Shadow_MatchTopicString_topic (cstr "$aws/things/Thing1/shadow/update/delta")
      (cstr "Thing1") [] 38 ShadowMessageTypeUpdateDelta mt0 (some p1) (some l1) (some p2)
      (some l2) (by decide) (by decide) (by decide) (by decide) (by decide) (by decide)
      (by decide)
    simpa using this
  · have := Shadow_MatchTopicString_topic
      (cstr "$aws/things/Thing1/shadow/name/Shadow1/get/accepted")
      (cstr "Thing1") (cstr "Shadow1") 51 ShadowMessageTypeGetAccepted mt0 (some p1) (some l1)
      (some p2) (some l2) (by decide) (by decide) (by decide) (by decide) (by decide)
      (by decide) (by decide)
    simpa using this

/-- Witness of C3: a thing name of exactly one byte with the named shadow `s`. -/
theorem C3_match_complete_witness :
    ShadowMessageTypeGetRejected ≠ ShadowMessageTypeMaxNum ∧
    cstr "T" ≠ [] ∧ '/'.toNat ∉ cstr "T" ∧
    '/'.toNat ∉ cstr "s" ∧
    Shadow_MatchTopicString
        (some (cstr "$aws/things/" ++ cstr "T" ++ rootLiteral (cstr "s") ++
          messageLiteral ShadowMessageTypeGetRejected ++ []))
        (cstr "$aws/things/" ++ cstr "T" ++ rootLiteral (cstr "s") ++
          messageLiteral ShadowMessageTypeGetRejected).length
        (some ShadowMessageTypeMaxNum) (some CharPtr.null) (some 0) (some CharPtr.null) (some 0) =
      { status := SHADOW_SUCCESS
        messageType := some ShadowMessageTypeGetRejected
        thingName := some (CharPtr.topicAt 12)
        thingNameLength := some (cstr "T").length
        shadowName := some (CharPtr.topicAt (12 + (cstr "T").length + 13))
        shadowNameLength := some (cstr "s").length } :=
  ⟨by decide, by decide, by decide, by decide,
    (C3_match_complete (cstr "T") (cstr "s") []
      ShadowMessageTypeGetRejected ShadowMessageTypeMaxNum CharPtr.null CharPtr.null 0 0
      (by decide) (by decide) (by decide) (by decide) (by decide)).1⟩


/-- C4 (assembled content): whenever the assembler returns `SHADOW_SUCCESS`, the
first `*pOutLength` bytes of the buffer are the prefix, the thing name, the named
root and the shadow name when `shadowNameLength > 0` or else the classic root,
and the operation literal of the topic type, and `*pOutLength` is the sum of
their lengths; the scenario of the specification gives
`$aws/things/Thing1/shadow/update/accepted`. -/
theorem C4_assembled_content (topicType : ShadowTopicStringType_t)
    (pThingName : Option (List Byte)) (thingNameLength : Nat)
    (pShadowName : Option (List Byte)) (shadowNameLength : Nat)
    (pTopicBuffer : Option (List Byte)) (bufferSize : Nat) (pOutLength : Option Nat)
    (h8a : thingNameLength < 256) (h8b : shadowNameLength < 256)
    (hthingMem : ∀ m, pThingName = some m → thingNameLength ≤ m.length)
    (hshadowMem : ∀ m, pShadowName = some m → shadowNameLength ≤ m.length)
    (hbufMem : ∀ m, pTopicBuffer = some m → bufferSize ≤ m.length)
    (hs : (Shadow_AssembleTopicString topicType pThingName thingNameLength pShadowName
      shadowNameLength pTopicBuffer bufferSize pOutLength).status = SHADOW_SUCCESS) :
    (∃ out n,
      (Shadow_AssembleTopicString topicType pThingName thingNameLength pShadowName
        shadowNameLength pTopicBuffer bufferSize pOutLength).topicBuffer = some out ∧
      (Shadow_AssembleTopicString topicType pThingName thingNameLength pShadowName
        shadowNameLength pTopicBuffer bufferSize pOutLength).outLength = some n ∧
      n = 12 + thingNameLength + (if shadowNameLength > 0 then 13 + shadowNameLength else 7) +
        (opLiteral topicType).length ∧
      out.take n = cstr "$aws/things/" ++ (pThingName.getD []).take thingNameLength ++
        (if shadowNameLength > 0 then
          cstr "/shadow/name/" ++ (pShadowName.getD []).take shadowNameLength
         else cstr "/shadow") ++ opLiteral topicType) ∧
    (Shadow_AssembleTopicString ShadowTopicStringTypeUpdateAccepted (some (cstr "Thing1")) 6
        (some []) 0 (some (List.replicate 64 0)) 64 (some 0)).outLength = some 41 ∧
    (Shadow_AssembleTopicString ShadowTopicStringTypeUpdateAccepted (some (cstr "Thing1")) 6
        (some []) 0 (some (List.replicate 64 0)) 64 (some 0)).topicBuffer.map (List.take 41) =
      some (cstr "$aws/things/Thing1/shadow/update/accepted") := by
  refine ⟨?_, by decide, by decide⟩
  have hnb : ¬ (pTopicBuffer = none ∨ pThingName = none ∨ thingNameLength = 0 ∨
      (pShadowName = none ∧ shadowNameLength > 0) ∨
      topicType ≥ ShadowTopicStringTypeMaxNum ∨ pOutLength = none) := by
    intro hb
    rw [(Shadow_AssembleTopicString_bad _ _ _ _ _ _ _ _).mpr hb] at hs
    cases hs
  obtain ⟨thing, buffer, ol0, rfl, rfl, rfl, htn, hsh, hlt⟩ := assemble_valid_inv _ _ _ _ _ _ _ hnb
  have hv := Shadow_AssembleTopicString_valid topicType thing thingNameLength pShadowName
    shadowNameLength buffer bufferSize ol0 htn hsh hlt h8a h8b
  rw [hv] at hs ⊢
  by_cases hsmall : bufferSize < requiredLength topicType thingNameLength shadowNameLength
  · rw [if_pos hsmall] at hs; cases hs
  · rw [if_neg hsmall]
    have hsn : shadowNameLength ≤ (pShadowName.getD []).length := by
      cases pShadowName with
      | none =>
        have : ¬ shadowNameLength > 0 := fun h => hsh ⟨rfl, h⟩
        omega
      | some m => exact hshadowMem m rfl
    have hbl := hbufMem buffer rfl
    have hcreate := createShadowTopicString_eq topicType thing (pShadowName.getD []) buffer
      thingNameLength shadowNameLength hlt (hthingMem thing rfl) hsn h8a h8b (by omega)
    refine ⟨_, _, rfl, rfl, rfl, ?_⟩
    rw [hcreate]
    simp only [Option.getD_some]
    apply List.take_left'
    have hP : (cstr "$aws/things/").length = 12 := by decide
    have hN : (cstr "/shadow/name/").length = 13 := by decide
    have hC : (cstr "/shadow").length = 7 := by decide
    have h1 := hthingMem thing rfl
    unfold requiredLength
    by_cases hpos : shadowNameLength > 0
    · simp only [hpos, if_true, List.length_append, List.length_take, hP, hN]
      omega
    · simp only [hpos, if_false, List.length_append, List.length_take, hP, hC]
      omega

/-- Witness of C4: `GetAccepted` for thing `Thing1` and shadow `Shadow1` in a
buffer of exactly the required 51 bytes. -/
theorem C4_assembled_content_witness :
    (6 < 256 ∧ 7 < 256) ∧
    (Shadow_AssembleTopicString ShadowTopicStringTypeGetAccepted (some (cstr "Thing1")) 6
      (some (cstr "Shadow1")) 7 (some (List.replicate 51 0)) 51 (some 0)).status
        = SHADOW_SUCCESS ∧
    ((∃ out n,
      (Shadow_AssembleTopicString ShadowTopicStringTypeGetAccepted (some (cstr "Thing1")) 6
        (some (cstr "Shadow1")) 7 (some (List.replicate 51 0)) 51 (some 0)).topicBuffer
          = some out ∧
      (Shadow_AssembleTopicString ShadowTopicStringTypeGetAccepted (some (cstr "Thing1")) 6
        (some (cstr "Shadow1")) 7 (some (List.replicate 51 0)) 51 (some 0)).outLength
          = some n ∧
      n = 12 + 6 + (if 7 > 0 then 13 + 7 else 7) +
        (opLiteral ShadowTopicStringTypeGetAccepted).length ∧
      out.take n = cstr "$aws/things/" ++ ((some (cstr "Thing1")).getD []).take 6 ++
        (if 7 > 0 then cstr "/shadow/name/" ++ ((some (cstr "Shadow1")).getD []).take 7
         else cstr "/shadow") ++ opLiteral ShadowTopicStringTypeGetAccepted) ∧
    (Shadow_AssembleTopicString ShadowTopicStringTypeUpdateAccepted (some (cstr "Thing1")) 6
        (some []) 0 (some (List.replicate 64 0)) 64 (some 0)).outLength = some 41 ∧
    (Shadow_AssembleTopicString ShadowTopicStringTypeUpdateAccepted (some (cstr "Thing1")) 6
        (some []) 0 (some (List.replicate 64 0)) 64 (some 0)).topicBuffer.map (List.take 41) =
      some (cstr "$aws/things/Thing1/shadow/update/accepted")) :=
  ⟨⟨by decide, by decide⟩, by decide,
    C4_assembled_content ShadowTopicStringTypeGetAccepted (some (cstr "Thing1")) 6
      (some (cstr "Shadow1")) 7 (some (List.replicate 51 0)) 51 (some 0)
      (by decide) (by decide)
      (by intro m hm; cases hm; decide) (by intro m hm; cases hm; decide)
      (by intro m hm; cases hm; decide) (by decide)⟩


/-- C5 (buffer-size boundary): when the parameters pass validation, the
assembler returns `SHADOW_BUFFER_TOO_SMALL` if and only if `bufferSize` is
strictly less than the required length, and `SHADOW_SUCCESS` otherwise; a buffer
of exactly the required length succeeds and a buffer one byte shorter fails. -/
theorem C5_buffer_size_boundary (topicType : ShadowTopicStringType_t)
    (pThingName : Option (List Byte)) (thingNameLength : Nat)
    (pShadowName : Option (List Byte)) (shadowNameLength : Nat)
    (pTopicBuffer : Option (List Byte)) (bufferSize : Nat) (pOutLength : Option Nat)
    (h8a : thingNameLength < 256) (h8b : shadowNameLength < 256)
    (hvalid : ¬ (pTopicBuffer = none ∨ pThingName = none ∨ thingNameLength = 0 ∨
      (pShadowName = none ∧ shadowNameLength > 0) ∨
      topicType ≥ ShadowTopicStringTypeMaxNum ∨ pOutLength = none)) :
    ((Shadow_AssembleTopicString topicType pThingName thingNameLength pShadowName
        shadowNameLength pTopicBuffer bufferSize pOutLength).status = SHADOW_BUFFER_TOO_SMALL ↔
      bufferSize < 12 + thingNameLength +
        (if shadowNameLength > 0 then 13 + shadowNameLength else 7) +
        (opLiteral topicType).length) ∧
    (¬ (bufferSize < 12 + thingNameLength +
        (if shadowNameLength > 0 then 13 + shadowNameLength else 7) +
        (opLiteral topicType).length) →
      (Shadow_AssembleTopicString topicType pThingName thingNameLength pShadowName
        shadowNameLength pTopicBuffer bufferSize pOutLength).status = SHADOW_SUCCESS) ∧
    (Shadow_AssembleTopicString topicType pThingName thingNameLength pShadowName
        shadowNameLength pTopicBuffer
        (12 + thingNameLength + (if shadowNameLength > 0 then 13 + shadowNameLength else 7) +
          (opLiteral topicType).length) pOutLength).status = SHADOW_SUCCESS ∧
    (Shadow_AssembleTopicString topicType pThingName thingNameLength pShadowName
        shadowNameLength pTopicBuffer
        (12 + thingNameLength + (if shadowNameLength > 0 then 13 + shadowNameLength else 7) +
          (opLiteral topicType).length - 1) pOutLength).status = SHADOW_BUFFER_TOO_SMALL := by
  obtain ⟨thing, buffer, ol0, rfl, rfl, rfl, htn, hsh, hlt⟩ :=
    assemble_valid_inv _ _ _ _ _ _ _ hvalid
  have hv := fun bs => Shadow_AssembleTopicString_valid topicType thing thingNameLength
    pShadowName shadowNameLength buffer bs ol0 htn hsh hlt h8a h8b
  have hreq : requiredLength topicType thingNameLength shadowNameLength =
      12 + thingNameLength + (if shadowNameLength > 0 then 13 + shadowNameLength else 7) +
        (opLiteral topicType).length := rfl
  have hpos : 0 < requiredLength topicType thingNameLength shadowNameLength := by
    rw [hreq]; omega
  rw [← hreq]
  refine ⟨?_, ?_, ?_, ?_⟩
  · rw [hv]
    by_cases h : bufferSize < requiredLength topicType thingNameLength shadowNameLength
    · simp [h]
    · simp [h]
  · intro h
    rw [hv, if_neg h]
  · rw [hv, if_neg (Nat.lt_irrefl _)]
  · rw [hv, if_pos (by omega)]

/-- Witness of C5: `UpdateAccepted` for thing `Thing1`, classic shadow, buffer of
40 bytes (one byte short of the required 41). -/
theorem C5_buffer_size_boundary_witness :
    (Shadow_AssembleTopicString ShadowTopicStringTypeUpdateAccepted (some (cstr "Thing1")) 6
        none 0 (some (List.replicate 40 0)) 40 (some 0)).status = SHADOW_BUFFER_TOO_SMALL ∧
    (Shadow_AssembleTopicString ShadowTopicStringTypeUpdateAccepted (some (cstr "Thing1")) 6
        none 0 (some (List.replicate 40 0)) 41 (some 0)).status = SHADOW_SUCCESS :=
  ⟨((C5_buffer_size_boundary ShadowTopicStringTypeUpdateAccepted (some (cstr "Thing1")) 6
      none 0 (some (List.replicate 40 0)) 40 (some 0) (by decide) (by decide)
      (by decide)).1).mpr (by decide),
   (C5_buffer_size_boundary ShadowTopicStringTypeUpdateAccepted (some (cstr "Thing1")) 6
      none 0 (some (List.replicate 40 0)) 40 (some 0) (by decide) (by decide)
      (by decide)).2.2.1⟩

/-- C6 (no partial write): whenever the assembler returns
`SHADOW_BUFFER_TOO_SMALL`, the destination buffer is unchanged. -/
theorem C6_no_partial_write (topicType : ShadowTopicStringType_t)
    (pThingName : Option (List Byte)) (thingNameLength : Nat)
    (pShadowName : Option (List Byte)) (shadowNameLength : Nat)
    (pTopicBuffer : Option (List Byte)) (bufferSize : Nat) (pOutLength : Option Nat)
    (hs : (Shadow_AssembleTopicString topicType pThingName thingNameLength pShadowName
      shadowNameLength pTopicBuffer bufferSize pOutLength).status = SHADOW_BUFFER_TOO_SMALL) :
    (Shadow_AssembleTopicString topicType pThingName thingNameLength pShadowName
      shadowNameLength pTopicBuffer bufferSize pOutLength).topicBuffer = pTopicBuffer := by
  unfold Shadow_AssembleTopicString at hs ⊢
  by_cases hc : (pTopicBuffer = none ∨ pThingName = none ∨ thingNameLength = 0 ∨
      (pShadowName = none ∧ shadowNameLength > 0) ∨
      topicType ≥ ShadowTopicStringTypeMaxNum ∨ pOutLength = none)
  · rw [if_pos hc]
  · rw [if_neg hc] at hs ⊢
    simp only at hs ⊢
    by_cases hb : bufferSize < (SHADOW_PREFIX_LENGTH + thingNameLength +
        (if shadowNameLength > 0 then SHADOW_NAMED_ROOT_LENGTH + shadowNameLength
         else SHADOW_CLASSIC_ROOT_LENGTH) + getShadowOperationLength topicType) % 65536
    · rw [if_pos hb]
    · rw [if_neg hb] at hs
      cases hs

/-- Witness of C6: a 40-byte buffer of `'x'` bytes, one byte too small. -/
theorem C6_no_partial_write_witness :
    (Shadow_AssembleTopicString ShadowTopicStringTypeUpdateAccepted (some (cstr "Thing1")) 6
      (some []) 0 (some (List.replicate 40 ('x'.toNat))) 40 (some 0)).status
        = SHADOW_BUFFER_TOO_SMALL ∧
    (Shadow_AssembleTopicString ShadowTopicStringTypeUpdateAccepted (some (cstr "Thing1")) 6
      (some []) 0 (some (List.replicate 40 ('x'.toNat))) 40 (some 0)).topicBuffer
        = some (List.replicate 40 ('x'.toNat)) :=
  ⟨by decide,
    C6_no_partial_write ShadowTopicStringTypeUpdateAccepted (some (cstr "Thing1")) 6
      (some []) 0 (some (List.replicate 40 ('x'.toNat))) 40 (some 0) (by decide)⟩

/-- C7 (counterexample): with a 40-byte buffer for a topic of 41 bytes the
assembler returns `SHADOW_BUFFER_TOO_SMALL` and `*pOutLength` still holds its
old value 0, not the required length. -/
theorem C7_required_length_counterexample :
    (Shadow_AssembleTopicString ShadowTopicStringTypeUpdateAccepted (some (cstr "Thing1")) 6
      (some []) 0 (some (List.replicate 40 0)) 40 (some 0)).status = SHADOW_BUFFER_TOO_SMALL ∧
    requiredLength ShadowTopicStringTypeUpdateAccepted 6 0 = 41 ∧
    (Shadow_AssembleTopicString ShadowTopicStringTypeUpdateAccepted (some (cstr "Thing1")) 6
      (some []) 0 (some (List.replicate 40 0)) 40 (some 0)).outLength = some 0 ∧
    (Shadow_AssembleTopicString ShadowTopicStringTypeUpdateAccepted (some (cstr "Thing1")) 6
      (some []) 0 (some (List.replicate 40 0)) 40 (some 0)).outLength ≠
        some (requiredLength ShadowTopicStringTypeUpdateAccepted 6 0) := by
  decide

/-- C7 (amended): whenever the assembler fails with `SHADOW_BUFFER_TOO_SMALL`,
`*pOutLength` keeps the value it had before the call and `bufferSize` is below
the required length of section 4.2; a call with the same names and type and a
buffer of that required length succeeds and stores the required length in
`*pOutLength`. -/
theorem C7_required_length_amended (topicType : ShadowTopicStringType_t)
    (pThingName : Option (List Byte)) (thingNameLength : Nat)
    (pShadowName : Option (List Byte)) (shadowNameLength : Nat)
    (pTopicBuffer : Option (List Byte)) (bufferSize : Nat) (pOutLength : Option Nat)
    (h8a : thingNameLength < 256) (h8b : shadowNameLength < 256)
    (hs : (Shadow_AssembleTopicString topicType pThingName thingNameLength pShadowName
      shadowNameLength pTopicBuffer bufferSize pOutLength).status = SHADOW_BUFFER_TOO_SMALL) :
    (Shadow_AssembleTopicString topicType pThingName thingNameLength pShadowName
      shadowNameLength pTopicBuffer bufferSize pOutLength).outLength = pOutLength ∧
    bufferSize < requiredLength topicType thingNameLength shadowNameLength ∧
    ∀ larger : List Byte,
      (Shadow_AssembleTopicString topicType pThingName thingNameLength pShadowName
        shadowNameLength (some larger)
        (requiredLength topicType thingNameLength shadowNameLength) pOutLength).status
          = SHADOW_SUCCESS ∧
      (Shadow_AssembleTopicString topicType pThingName thingNameLength pShadowName
        shadowNameLength (some larger)
        (requiredLength topicType thingNameLength shadowNameLength) pOutLength).outLength
          = some (requiredLength topicType thingNameLength shadowNameLength) := by
  have hnb : ¬ (pTopicBuffer = none ∨ pThingName = none ∨ thingNameLength = 0 ∨
      (pShadowName = none ∧ shadowNameLength > 0) ∨
      topicType ≥ ShadowTopicStringTypeMaxNum ∨ pOutLength = none) := by
    intro hb
    rw [(Shadow_AssembleTopicString_bad _ _ _ _ _ _ _ _).mpr hb] at hs
    cases hs
  obtain ⟨thing, buffer, ol0, rfl, rfl, rfl, htn, hsh, hlt⟩ := assemble_valid_inv _ _ _ _ _ _ _ hnb
  have hv := fun buf bs => Shadow_AssembleTopicString_valid topicType thing thingNameLength
    pShadowName shadowNameLength buf bs ol0 htn hsh hlt h8a h8b
  rw [hv] at hs ⊢
  by_cases hsmall : bufferSize < requiredLength topicType thingNameLength shadowNameLength
  · rw [if_pos hsmall]
    refine ⟨rfl, hsmall, ?_⟩
    intro larger
    rw [hv, if_neg (Nat.lt_irrefl _)]
    exact ⟨rfl, rfl⟩
  · rw [if_neg hsmall] at hs; cases hs

/-- Witness of C7 (amended): the 40-byte buffer of the counterexample. -/
theorem C7_required_length_amended_witness :
    (Shadow_AssembleTopicString ShadowTopicStringTypeUpdateAccepted (some (cstr "Thing1")) 6
      (some []) 0 (some (List.replicate 40 0)) 40 (some 0)).status = SHADOW_BUFFER_TOO_SMALL ∧
    (Shadow_AssembleTopicString ShadowTopicStringTypeUpdateAccepted (some (cstr "Thing1")) 6
      (some []) 0 (some (List.replicate 40 0)) 40 (some 0)).outLength = some 0 ∧
    40 < requiredLength ShadowTopicStringTypeUpdateAccepted 6 0 :=
  ⟨by decide,
    (C7_required_length_amended ShadowTopicStringTypeUpdateAccepted (some (cstr "Thing1")) 6
      (some []) 0 (some (List.replicate 40 0)) 40 (some 0) (by decide) (by decide)
      (by decide)).1,
    (C7_required_length_amended ShadowTopicStringTypeUpdateAccepted (some (cstr "Thing1")) 6
      (some []) 0 (some (List.replicate 40 0)) 40 (some 0) (by decide) (by decide)
      (by decide)).2.1⟩


/-- C8 (assembly parameter validation): the assembler returns
`SHADOW_BAD_PARAMETER` if and only if the buffer pointer is null, or the thing
name pointer is null, or `thingNameLength` is 0, or the shadow name pointer is
null while `shadowNameLength > 0`, or `topicType >= ShadowTopicStringTypeMaxNum`,
or `pOutLength` is null; then the result is not `SHADOW_BUFFER_TOO_SMALL`
whatever the buffer size, and the buffer and `*pOutLength` are unchanged. A null
shadow name pointer with `shadowNameLength` 0 is accepted and assembles the
classic topic. -/
theorem C8_assembly_parameter_validation (topicType : ShadowTopicStringType_t)
    (pThingName : Option (List Byte)) (thingNameLength : Nat)
    (pShadowName : Option (List Byte)) (shadowNameLength : Nat)
    (pTopicBuffer : Option (List Byte)) (bufferSize : Nat) (pOutLength : Option Nat) :
    ((Shadow_AssembleTopicString topicType pThingName thingNameLength pShadowName
        shadowNameLength pTopicBuffer bufferSize pOutLength).status = SHADOW_BAD_PARAMETER ↔
      (pTopicBuffer = none ∨ pThingName = none ∨ thingNameLength = 0 ∨
        (pShadowName = none ∧ shadowNameLength > 0) ∨
        topicType ≥ ShadowTopicStringTypeMaxNum ∨ pOutLength = none)) ∧
    ((pTopicBuffer = none ∨ pThingName = none ∨ thingNameLength = 0 ∨
        (pShadowName = none ∧ shadowNameLength > 0) ∨
        topicType ≥ ShadowTopicStringTypeMaxNum ∨ pOutLength = none) →
      (Shadow_AssembleTopicString topicType pThingName thingNameLength pShadowName
        shadowNameLength pTopicBuffer bufferSize pOutLength).status ≠ SHADOW_BUFFER_TOO_SMALL ∧
      (Shadow_AssembleTopicString topicType pThingName thingNameLength pShadowName
        shadowNameLength pTopicBuffer bufferSize pOutLength).topicBuffer = pTopicBuffer ∧
      (Shadow_AssembleTopicString topicType pThingName thingNameLength pShadowName
        shadowNameLength pTopicBuffer bufferSize pOutLength).outLength = pOutLength) ∧
    (∀ (thing buffer : List Byte) (outLength0 : Nat),
      thingNameLength ≠ 0 → thingNameLength ≤ thing.length → thingNameLength < 256 →
      topicType < ShadowTopicStringTypeMaxNum →
      requiredLength topicType thingNameLength 0 ≤ bufferSize → bufferSize ≤ buffer.length →
      Shadow_AssembleTopicString topicType (some thing) thingNameLength none 0 (some buffer)
          bufferSize (some outLength0) =
        { status := SHADOW_SUCCESS
          topicBuffer := some (cstr "$aws/things/" ++ thing.take thingNameLength ++
            cstr "/shadow" ++ opLiteral topicType ++
            buffer.drop (requiredLength topicType thingNameLength 0))
          outLength := some (requiredLength topicType thingNameLength 0) }) := by
  refine ⟨Shadow_AssembleTopicString_bad _ _ _ _ _ _ _ _, ?_, ?_⟩
  · intro hb
    unfold Shadow_AssembleTopicString
    rw [if_pos hb]
    exact ⟨by simp, rfl, rfl⟩
  · intro thing buffer ol0 htn hle h8 hlt hreq hbuf
    have hv := Shadow_AssembleTopicString_valid topicType thing thingNameLength none 0
      buffer bufferSize ol0 htn (by simp) hlt h8 (by decide)
    rw [hv, if_neg (by omega)]
    have hcreate := createShadowTopicString_eq topicType thing [] buffer thingNameLength 0 hlt
      hle (Nat.le_refl _) h8 (by decide) (by omega)
    simp only [Option.getD_none, hcreate, gt_iff_lt, Nat.lt_irrefl, if_false]

/-- Witness of C8: `UpdateAccepted` for thing `Thing1` with a null shadow name
pointer and length 0 assembles the classic topic in a 41-byte buffer. -/
theorem C8_assembly_parameter_validation_witness :
    Shadow_AssembleTopicString ShadowTopicStringTypeUpdateAccepted (some (cstr "Thing1")) 6
        none 0 (some (List.replicate 41 0)) 41 (some 0) =
      { status := SHADOW_SUCCESS
        topicBuffer := some (cstr "$aws/things/" ++ (cstr "Thing1").take 6 ++
            cstr "/shadow" ++ opLiteral ShadowTopicStringTypeUpdateAccepted ++
            (List.replicate 41 0).drop (requiredLength ShadowTopicStringTypeUpdateAccepted 6 0))
        outLength := some (requiredLength ShadowTopicStringTypeUpdateAccepted 6 0) } ∧
    ((Shadow_AssembleTopicString ShadowTopicStringTypeMaxNum (some (cstr "Thing1")) 6
        none 0 (some (List.replicate 41 0)) 0 (some 0)).status = SHADOW_BAD_PARAMETER) :=
  ⟨(C8_assembly_parameter_validation ShadowTopicStringTypeUpdateAccepted (some (cstr "Thing1")) 6
      none 0 (some (List.replicate 41 0)) 41 (some 0)).2.2 (cstr "Thing1") (List.replicate 41 0) 0
      (by decide) (by decide) (by decide) (by decide) (by decide) (by decide),
   (C8_assembly_parameter_validation ShadowTopicStringTypeMaxNum (some (cstr "Thing1")) 6
      none 0 (some (List.replicate 41 0)) 0 (some 0)).1.mpr (by decide)⟩

/-- C9 (no trailing bytes): for every topic the matcher accepts and every
non-empty byte string `extra` (total length at most 65535), matching the topic
followed by `extra` returns `SHADOW_MESSAGE_TYPE_PARSE_FAILED`; so does the
scenario `$aws/things/Thing1/shadow/update/delta/extra` of the specification. -/
theorem C9_no_trailing_bytes (topic extra : List Byte)
    (pMessageType : Option ShadowMessageType_t) (a c : Option CharPtr) (b d : Option Nat)
    (mt2 : ShadowMessageType_t) (a2 c2 : Option CharPtr) (b2 d2 : Option Nat)
    (hacc : (Shadow_MatchTopicString (some topic) topic.length pMessageType a b c d).status
      = SHADOW_SUCCESS)
    (hextra : extra ≠ []) (hlen : (topic ++ extra).length ≤ 65535) :
    (Shadow_MatchTopicString (some (topic ++ extra)) (topic ++ extra).length (some mt2)
        a2 b2 c2 d2).status = SHADOW_MESSAGE_TYPE_PARSE_FAILED ∧
    (Shadow_MatchTopicString (some (cstr "$aws/things/Thing1/shadow/update/delta/extra")) 44
        (some mt2) a2 b2 c2 d2).status = SHADOW_MESSAGE_TYPE_PARSE_FAILED := by
  have hl2 : (topic ++ extra).length = topic.length + extra.length := List.length_append _ _
  have hepos : 0 < extra.length := List.length_pos.mpr hextra
  constructor
  · by_cases hbad : topic.length = 0 ∨ pMessageType = none
    · rw [Shadow_MatchTopicString_bad _ _ _ _ _ _ _ (Or.inr hbad)] at hacc
      cases hacc
    · have h0 : 0 < topic.length := by
        rcases Nat.eq_zero_or_pos topic.length with h | h
        · exact absurd (Or.inl h) hbad
        · exact h
      obtain ⟨mt, hmt⟩ : ∃ mt, pMessageType = some mt := by
        cases pMessageType with
        | none => exact absurd (Or.inr rfl) hbad
        | some mt => exact ⟨mt, rfl⟩
      subst hmt
      rw [Shadow_MatchTopicString_status topic topic.length mt a b c d h0 (Nat.le_refl _)
        (by omega), List.take_length] at hacc
      rcases hp : parseTopic topic with ⟨st, n, s, m⟩
      rw [hp] at hacc
      simp only at hacc
      subst hacc
      obtain ⟨t, thing, shadow, _, hne, _, _, hthing, hts, hss, hT⟩ :=
        parseTopic_success _ n s m hp
      rw [Shadow_MatchTopicString_status (topic ++ extra) _ mt2 a2 b2 c2 d2 (by omega)
        (Nat.le_refl _) (by omega), List.take_length, hT]
      have hnone := messageTypeOf_append t extra hne hextra
      unfold rootLiteral
      by_cases hs : shadow.length > 0
      · rw [if_pos hs]
        obtain ⟨r, hr⟩ := messageLiteral_cons t hne
        have hpn := parseTopic_named thing shadow (r ++ extra) hthing hts
          (List.length_pos.mp hs) hss
        have e : '/'.toNat :: (r ++ extra) = messageLiteral t ++ extra := by rw [hr]; rfl
        rw [e, hnone] at hpn
        simp only [List.append_assoc] at hpn ⊢
        rw [hpn]
      · rw [if_neg hs]
        have hpc := parseTopic_classic thing (messageLiteral t ++ extra) hthing hts
          (classic_not_named_append t extra hne)
        rw [hnone] at hpc
        simp only [List.append_assoc] at hpc ⊢
        rw [hpc]
  · rw [Shadow_MatchTopicString_status _ 44 mt2 a2 b2 c2 d2 (by decide) (by decide) (by decide)]
    decide

/-- Witness of C9: the accepted topic `$aws/things/Thing1/shadow/name/Shadow1/get/accepted`
followed by the single byte `x`. -/
theorem C9_no_trailing_bytes_witness :
    (Shadow_MatchTopicString (some (cstr "$aws/things/Thing1/shadow/name/Shadow1/get/accepted"))
      (cstr "$aws/things/Thing1/shadow/name/Shadow1/get/accepted").length
      (some ShadowMessageTypeMaxNum) none none none none).status = SHADOW_SUCCESS ∧
    (Shadow_MatchTopicString
      (some (cstr "$aws/things/Thing1/shadow/name/Shadow1/get/accepted" ++ cstr "x"))
      (cstr "$aws/things/Thing1/shadow/name/Shadow1/get/accepted" ++ cstr "x").length
      (some ShadowMessageTypeMaxNum) none none none none).status
        = SHADOW_MESSAGE_TYPE_PARSE_FAILED :=
  ⟨by decide,
    (C9_no_trailing_bytes (cstr "$aws/things/Thing1/shadow/name/Shadow1/get/accepted") (cstr "x")
      (some ShadowMessageTypeMaxNum) none none none none ShadowMessageTypeMaxNum none none none
      none (by decide) (by decide) (by decide)).1⟩


/-- C10 (message type classification): the matcher returns
`SHADOW_MESSAGE_TYPE_PARSE_FAILED` if and only if the parameters are valid, the
topic bytes are the prefix, a non-empty thing name without a slash, a root that
parses (the classic root when the named root does not match, or the named root
with a non-empty shadow name that ends at a slash) and a remainder that is none
of the eight operation+suffix literals; in particular a well-formed topic ending
in `/get/delta`, `/get/documents`, `/delete/delta` or `/delete/documents` is
rejected with this status. -/
theorem C10_message_type_classification (pTopic : Option (List Byte)) (topicLength : Nat)
    (pMessageType : Option ShadowMessageType_t) (a c : Option CharPtr) (b d : Option Nat)
    (hmem : ∀ m, pTopic = some m → topicLength ≤ m.length) (h16 : topicLength < 65536) :
    ((Shadow_MatchTopicString pTopic topicLength pMessageType a b c d).status
        = SHADOW_MESSAGE_TYPE_PARSE_FAILED ↔
      (pTopic ≠ none ∧ topicLength ≠ 0 ∧ pMessageType ≠ none ∧
        ∃ thing root rest,
          (pTopic.getD []).take topicLength = cstr "$aws/things/" ++ thing ++ root ++ rest ∧
          thing ≠ [] ∧ '/'.toNat ∉ thing ∧
          ((root = cstr "/shadow" ∧ (root ++ rest).take 13 ≠ cstr "/shadow/name/") ∨
            (∃ shadow, root = cstr "/shadow/name/" ++ shadow ∧ shadow ≠ [] ∧
              '/'.toNat ∉ shadow ∧ rest.head? = some '/'.toNat)) ∧
          ∀ t, t ≠ ShadowMessageTypeMaxNum → rest ≠ messageLiteral t)) ∧
    (∀ (thing shadow suffix : List Byte) (mt : ShadowMessageType_t),
      thing ≠ [] → '/'.toNat ∉ thing → '/'.toNat ∉ shadow →
      suffix ∈ [cstr "/get/delta", cstr "/get/documents", cstr "/delete/delta",
        cstr "/delete/documents"] →
      (cstr "$aws/things/" ++ thing ++ rootLiteral shadow ++ suffix).length ≤ 65535 →
      (Shadow_MatchTopicString (some (cstr "$aws/things/" ++ thing ++ rootLiteral shadow ++ suffix))
        (cstr "$aws/things/" ++ thing ++ rootLiteral shadow ++ suffix).length (some mt)
        a b c d).status = SHADOW_MESSAGE_TYPE_PARSE_FAILED) := by
  have key : ∀ (T thing root rest : List Byte),
      T = cstr "$aws/things/" ++ thing ++ root ++ rest → thing ≠ [] → '/'.toNat ∉ thing →
      ((root = cstr "/shadow" ∧ (root ++ rest).take 13 ≠ cstr "/shadow/name/") ∨
        (∃ shadow, root = cstr "/shadow/name/" ++ shadow ∧ shadow ≠ [] ∧
          '/'.toNat ∉ shadow ∧ rest.head? = some '/'.toNat)) →
      messageTypeOf rest = none → (parseTopic T).1 = SHADOW_MESSAGE_TYPE_PARSE_FAILED := by
    intro T thing root rest hT hthing hts hroot hnone
    rcases hroot with ⟨hr, hnot⟩ | ⟨shadow, hr, hshadow, hss, hhead⟩
    · subst hr
      have hp := parseTopic_classic thing rest hthing hts hnot
      rw [hnone] at hp
      rw [hT, hp]
    · subst hr
      obtain ⟨r, hr⟩ : ∃ r, rest = '/'.toNat :: r := by
        cases rest with
        | nil => simp at hhead
        | cons x r =>
          simp only [List.head?_cons, Option.some.injEq] at hhead
          exact ⟨r, by rw [hhead]⟩
      have hp := parseTopic_named thing shadow r hthing hts hshadow hss
      rw [← hr, hnone] at hp
      rw [hT]
      simp only [List.append_assoc] at hp ⊢
      rw [hp]
  constructor
  · constructor
    · intro hs
      by_cases hbad : pTopic = none ∨ topicLength = 0 ∨ pMessageType = none
      · rw [Shadow_MatchTopicString_bad _ _ _ _ _ _ _ hbad] at hs
        cases hs
      · obtain ⟨topic, rfl⟩ : ∃ topic, pTopic = some topic := by
          cases pTopic with
          | none => exact absurd (Or.inl rfl) hbad
          | some m => exact ⟨m, rfl⟩
        obtain ⟨mt, rfl⟩ : ∃ mt, pMessageType = some mt := by
          cases pMessageType with
          | none => exact absurd (Or.inr (Or.inr rfl)) hbad
          | some mt => exact ⟨mt, rfl⟩
        have h0 : topicLength ≠ 0 := fun h => hbad (Or.inr (Or.inl h))
        rw [Shadow_MatchTopicString_status topic topicLength mt a b c d (by omega)
          (hmem topic rfl) h16] at hs
        refine ⟨by simp, h0, by simp, ?_⟩
        simp only [Option.getD_some]
        obtain ⟨thing, rest, hthing, hts, hcase⟩ := parseTopic_shape _ (Or.inr hs)
        rcases hcase with ⟨shadow, r, hshadow, hss, hr, hT⟩ | ⟨hnot, hT⟩
        · have hp := parseTopic_named thing shadow r hthing hts hshadow hss
          rw [← hr, ← hT] at hp
          refine ⟨thing, cstr "/shadow/name/" ++ shadow, rest, ?_, hthing, hts,
            Or.inr ⟨shadow, rfl, hshadow, hss, by rw [hr]; rfl⟩, ?_⟩
          · rw [hT]; simp only [List.append_assoc]
          · cases hm : messageTypeOf rest with
            | none => exact (messageTypeOf_eq_none_iff rest).mp hm
            | some t => rw [hp, hm] at hs; cases hs
        · have hp := parseTopic_classic thing rest hthing hts hnot
          rw [← hT] at hp
          refine ⟨thing, cstr "/shadow", rest, hT, hthing, hts, Or.inl ⟨rfl, hnot⟩, ?_⟩
          cases hm : messageTypeOf rest with
          | none => exact (messageTypeOf_eq_none_iff rest).mp hm
          | some t => rw [hp, hm] at hs; cases hs
    · rintro ⟨hT0, hl0, hm0, thing, root, rest, hT, hthing, hts, hroot, hrest⟩
      obtain ⟨topic, rfl⟩ : ∃ topic, pTopic = some topic := by
        cases pTopic with
        | none => exact absurd rfl hT0
        | some m => exact ⟨m, rfl⟩
      obtain ⟨mt, rfl⟩ : ∃ mt, pMessageType = some mt := by
        cases pMessageType with
        | none => exact absurd rfl hm0
        | some mt => exact ⟨mt, rfl⟩
      rw [Shadow_MatchTopicString_status topic topicLength mt a b c d (by omega)
        (hmem topic rfl) h16]
      exact key _ thing root rest hT hthing hts hroot ((messageTypeOf_eq_none_iff rest).mpr hrest)
  · intro thing shadow suffix mt hthing hts hss hsuf hlen
    have hP : (cstr "$aws/things/").length = 12 := by decide
    rw [Shadow_MatchTopicString_status _ _ mt a b c d
      (by simp only [List.length_append, hP]; omega) (Nat.le_refl _) (by omega),
      List.take_length]
    have hfacts : messageTypeOf suffix = none ∧ suffix.head? = some '/'.toNat ∧
        (cstr "/shadow" ++ suffix).take 13 ≠ cstr "/shadow/name/" := by
      simp only [List.mem_cons, List.mem_singleton, List.not_mem_nil, or_false] at hsuf
      rcases hsuf with h | h | h | h <;> (subst h; decide)
    apply key _ thing (rootLiteral shadow) suffix rfl hthing hts _ hfacts.1
    unfold rootLiteral
    by_cases hs : shadow.length > 0
    · rw [if_pos hs]
      exact Or.inr ⟨shadow, rfl, List.length_pos.mp hs, hss, hfacts.2.1⟩
    · rw [if_neg hs]
      exact Or.inl ⟨rfl, hfacts.2.2⟩

/-- Witness of C10: the topic `$aws/things/Thing1/shadow/get/delta`. -/
theorem C10_message_type_classification_witness :
    (Shadow_MatchTopicString (some (cstr "$aws/things/Thing1/shadow/get/delta")) 35
        (some ShadowMessageTypeMaxNum) none none none none).status
        = SHADOW_MESSAGE_TYPE_PARSE_FAILED ∧
    (∃ thing root rest,
      ((some (cstr "$aws/things/Thing1/shadow/get/delta")).getD []).take 35 =
        cstr "$aws/things/" ++ thing ++ root ++ rest ∧
      thing ≠ [] ∧ '/'.toNat ∉ thing ∧
      ((root = cstr "/shadow" ∧ (root ++ rest).take 13 ≠ cstr "/shadow/name/") ∨
        (∃ shadow, root = cstr "/shadow/name/" ++ shadow ∧ shadow ≠ [] ∧
          '/'.toNat ∉ shadow ∧ rest.head? = some '/'.toNat)) ∧
      ∀ t, t ≠ ShadowMessageTypeMaxNum → rest ≠ messageLiteral t) :=
  ⟨by decide,
    (((C10_message_type_classification (some (cstr "$aws/things/Thing1/shadow/get/delta")) 35
      (some ShadowMessageTypeMaxNum) none none none none
      (by intro m hm; cases hm; decide) (by decide)).1).mp (by decide)).2.2.2⟩


/-! ## The failing stages of the reference grammar -/

theorem take_eq_iff_begins (lit T : List Byte) : T.take lit.length = lit ↔ lit <+: T := by
  rw [List.prefix_iff_eq_take]
  exact eq_comm

/-- A name fails to parse exactly when no slash follows or the name is empty. -/
theorem name_fails_iff (A : List Byte) :
    ¬ (nameOf A ≠ [] ∧ afterName A ≠ []) ↔ ('/'.toNat ∉ A ∨ A.head? = some '/'.toNat) := by
  have hafter : afterName A = [] ↔ '/'.toNat ∉ A := by
    unfold afterName
    rw [List.dropWhile_eq_nil_iff]
    constructor
    · intro h hm
      have := h _ hm
      simp at this
    · intro h x hx
      have : x ≠ '/'.toNat := fun e => h (e ▸ hx)
      simpa using this
  have hname : nameOf A = [] ↔ (A = [] ∨ A.head? = some '/'.toNat) := by
    cases A with
    | nil => simp [nameOf]
    | cons x xs =>
      unfold nameOf
      by_cases hx : x = '/'.toNat
      · simp [hx]
      · have hb : (x != '/'.toNat) = true := by simpa using hx
        simp [List.takeWhile_cons, hb, hx]
  constructor
  · intro h
    by_cases h1 : nameOf A = []
    · rcases hname.mp h1 with h2 | h2
      · left; rw [h2]; exact List.not_mem_nil _
      · right; exact h2
    · by_cases h2 : afterName A = []
      · left; exact hafter.mp h2
      · exact absurd ⟨h1, h2⟩ h
  · rintro (h | h) ⟨h1, h2⟩
    · exact h2 (hafter.mpr h)
    · exact h1 (hname.mpr (Or.inr h))

theorem head_eq_slash_cons (B : List Byte) (h : B.head? = some '/'.toNat) :
    ∃ r, B = '/'.toNat :: r := by
  cases B with
  | nil => simp at h
  | cons x r =>
    simp only [List.head?_cons, Option.some.injEq] at h
    exact ⟨r, by rw [h]⟩

theorem parseTopic_no_start (T : List Byte) (h : ¬ cstr "$aws/things/" <+: T) :
    parseTopic T = (SHADOW_FAIL, 0, 0, none) := by
  have h12 : (cstr "$aws/things/").length = 12 := by decide
  have hne : ¬ (T.take 12 = cstr "$aws/things/") := by
    intro e
    apply h
    rw [← take_eq_iff_begins, h12]
    exact e
  unfold parseTopic
  rw [if_neg hne]

theorem parseTopic_bad_thing (A : List Byte)
    (h : '/'.toNat ∉ A ∨ A.head? = some '/'.toNat) :
    parseTopic (cstr "$aws/things/" ++ A) = (SHADOW_THINGNAME_PARSE_FAILED, 0, 0, none) := by
  unfold parseTopic
  rw [if_pos (List.take_left' (by decide)), List.drop_left' (by decide),
    if_neg ((name_fails_iff A).mpr h)]

/-- The grammar on a topic whose thing name parses: the outcome is decided by
the bytes `B` that start at the slash ending the thing name. -/
theorem parseTopic_after_thing (thing B : List Byte) (hthing : thing ≠ [])
    (hts : '/'.toNat ∉ thing) (hB : B.head? = some '/'.toNat) :
    parseTopic (cstr "$aws/things/" ++ thing ++ B) =
      if B.take 13 = cstr "/shadow/name/" then
        if nameOf (B.drop 13) ≠ [] ∧ afterName (B.drop 13) ≠ [] then
          match messageTypeOf (afterName (B.drop 13)) with
          | some t => (SHADOW_SUCCESS, thing.length, (nameOf (B.drop 13)).length, some t)
          | none => (SHADOW_MESSAGE_TYPE_PARSE_FAILED, thing.length,
              (nameOf (B.drop 13)).length, none)
        else (SHADOW_SHADOWNAME_PARSE_FAILED, thing.length, 0, none)
      else if B.take 7 = cstr "/shadow" then
        match messageTypeOf (B.drop 7) with
        | some t => (SHADOW_SUCCESS, thing.length, 0, some t)
        | none => (SHADOW_MESSAGE_TYPE_PARSE_FAILED, thing.length, 0, none)
      else (SHADOW_ROOT_PARSE_FAILED, thing.length, 0, none) := by
  obtain ⟨r, rfl⟩ := head_eq_slash_cons B hB
  have e1 : (cstr "$aws/things/" ++ thing ++ '/'.toNat :: r).take 12 = cstr "$aws/things/" := by
    rw [List.append_assoc]
    exact List.take_left' (by decide)
  have e2 : (cstr "$aws/things/" ++ thing ++ '/'.toNat :: r).drop 12 =
      thing ++ '/'.toNat :: r := by
    rw [List.append_assoc]
    exact List.drop_left' (by decide)
  unfold parseTopic
  rw [if_pos e1, e2, nameOf_append_slash _ _ hts, afterName_append_slash _ _ hts,
    if_pos (And.intro hthing (List.cons_ne_nil _ _))]

theorem parseTopic_bad_root (thing B : List Byte) (hthing : thing ≠ [])
    (hts : '/'.toNat ∉ thing) (hB : B.head? = some '/'.toNat)
    (hclassic : ¬ cstr "/shadow" <+: B) :
    parseTopic (cstr "$aws/things/" ++ thing ++ B) =
      (SHADOW_ROOT_PARSE_FAILED, thing.length, 0, none) := by
  have h7 : (cstr "/shadow").length = 7 := by decide
  have h13 : (cstr "/shadow/name/").length = 13 := by decide
  have hc : ¬ (B.take 7 = cstr "/shadow") := by
    intro e; apply hclassic; rw [← take_eq_iff_begins, h7]; exact e
  have hn : ¬ (B.take 13 = cstr "/shadow/name/") := by
    intro e
    apply hc
    have : (B.take 13).take 7 = (cstr "/shadow/name/").take 7 := by rw [e]
    rw [List.take_take] at this
    exact this
  rw [parseTopic_after_thing thing B hthing hts hB, if_neg hn, if_neg hc]

theorem parseTopic_bad_shadow (thing C : List Byte) (hthing : thing ≠ [])
    (hts : '/'.toNat ∉ thing) (hC : '/'.toNat ∉ C ∨ C.head? = some '/'.toNat) :
    parseTopic (cstr "$aws/things/" ++ thing ++ cstr "/shadow/name/" ++ C) =
      (SHADOW_SHADOWNAME_PARSE_FAILED, thing.length, 0, none) := by
  have := parseTopic_after_thing thing (cstr "/shadow/name/" ++ C) hthing hts (by rfl)
  rw [List.take_left' (by decide), List.drop_left' (by decide), if_pos rfl,
    if_neg ((name_fails_iff C).mpr hC)] at this
  rw [← this]
  simp only [List.append_assoc]

/-- Every topic falls under exactly one stage outcome of the grammar; each
failing outcome comes with the decomposition of the topic that causes it. -/
theorem parseTopic_cases (T : List Byte) :
    (¬ cstr "$aws/things/" <+: T ∧ parseTopic T = (SHADOW_FAIL, 0, 0, none)) ∨
    (∃ A, T = cstr "$aws/things/" ++ A ∧ ('/'.toNat ∉ A ∨ A.head? = some '/'.toNat) ∧
      parseTopic T = (SHADOW_THINGNAME_PARSE_FAILED, 0, 0, none)) ∨
    (∃ thing B, T = cstr "$aws/things/" ++ thing ++ B ∧ thing ≠ [] ∧ '/'.toNat ∉ thing ∧
      B.head? = some '/'.toNat ∧ ¬ cstr "/shadow/name/" <+: B ∧ ¬ cstr "/shadow" <+: B ∧
      parseTopic T = (SHADOW_ROOT_PARSE_FAILED, thing.length, 0, none)) ∨
    (∃ thing C, T = cstr "$aws/things/" ++ thing ++ cstr "/shadow/name/" ++ C ∧ thing ≠ [] ∧
      '/'.toNat ∉ thing ∧ ('/'.toNat ∉ C ∨ C.head? = some '/'.toNat) ∧
      parseTopic T = (SHADOW_SHADOWNAME_PARSE_FAILED, thing.length, 0, none)) ∨
    ((parseTopic T).1 = SHADOW_SUCCESS ∨ (parseTopic T).1 = SHADOW_MESSAGE_TYPE_PARSE_FAILED) := by
  have h12 : (cstr "$aws/things/").length = 12 := by decide
  have h7 : (cstr "/shadow").length = 7 := by decide
  have h13 : (cstr "/shadow/name/").length = 13 := by decide
  by_cases h1 : T.take 12 = cstr "$aws/things/"
  · have hT : T = cstr "$aws/things/" ++ T.drop 12 := by
      conv_lhs => rw [← List.take_append_drop 12 T, h1]
    by_cases h2 : nameOf (T.drop 12) ≠ [] ∧ afterName (T.drop 12) ≠ []
    · have hA := nameOf_append_afterName (T.drop 12)
      obtain ⟨r, hr⟩ := afterName_eq_cons _ h2.2
      have hB : (afterName (T.drop 12)).head? = some '/'.toNat := by rw [hr]; rfl
      have hT2 : T = cstr "$aws/things/" ++ nameOf (T.drop 12) ++ afterName (T.drop 12) := by
        rw [List.append_assoc, hA]; exact hT
      have hp := parseTopic_after_thing (nameOf (T.drop 12)) (afterName (T.drop 12)) h2.1
        (nameOf_not_mem _) hB
      rw [← hT2] at hp
      by_cases h3 : (afterName (T.drop 12)).take 13 = cstr "/shadow/name/"
      · rw [if_pos h3] at hp
        by_cases h5 : nameOf ((afterName (T.drop 12)).drop 13) ≠ [] ∧
            afterName ((afterName (T.drop 12)).drop 13) ≠ []
        · rw [if_pos h5] at hp
          right; right; right; right
          rw [hp]
          cases messageTypeOf (afterName ((afterName (T.drop 12)).drop 13)) with
          | none => right; rfl
          | some t => left; rfl
        · rw [if_neg h5] at hp
          right; right; right; left
          refine ⟨nameOf (T.drop 12), (afterName (T.drop 12)).drop 13, ?_, h2.1,
            nameOf_not_mem _, (name_fails_iff _).mp h5, hp⟩
          have hB2 : afterName (T.drop 12) =
              cstr "/shadow/name/" ++ (afterName (T.drop 12)).drop 13 := by
            conv_lhs => rw [← List.take_append_drop 13 (afterName (T.drop 12)), h3]
          rw [List.append_assoc, ← hB2]
          exact hT2
      · rw [if_neg h3] at hp
        by_cases h4 : (afterName (T.drop 12)).take 7 = cstr "/shadow"
        · rw [if_pos h4] at hp
          right; right; right; right
          rw [hp]
          cases messageTypeOf ((afterName (T.drop 12)).drop 7) with
          | none => right; rfl
          | some t => left; rfl
        · rw [if_neg h4] at hp
          right; right; left
          refine ⟨nameOf (T.drop 12), afterName (T.drop 12), hT2, h2.1, nameOf_not_mem _, hB,
            ?_, ?_, hp⟩
          · intro hpre; apply h3; rw [← h13]; exact (take_eq_iff_begins _ _).mpr hpre
          · intro hpre; apply h4; rw [← h7]; exact (take_eq_iff_begins _ _).mpr hpre
    · right; left
      have hp := parseTopic_bad_thing (T.drop 12) ((name_fails_iff _).mp h2)
      rw [← hT] at hp
      exact ⟨T.drop 12, hT, (name_fails_iff _).mp h2, hp⟩
  · left
    have hne : ¬ cstr "$aws/things/" <+: T := by
      intro hpre; apply h1; rw [← h12]; exact (take_eq_iff_begins _ _).mpr hpre
    exact ⟨hne, parseTopic_no_start T hne⟩


/-! ## Outcomes of the matcher without assumptions on the memory -/

theorem validateNameLoop_cases (s : List Byte) (nl : Nat) :
    ∀ (remaining index : Nat), (validateNameLoop s nl index remaining).1 = SHADOW_SUCCESS ∨
      validateNameLoop s nl index remaining = (SHADOW_FAIL, nl) := by
  intro remaining
  induction remaining with
  | zero => intro index; right; rfl
  | succ r ih =>
    intro index
    rw [validateNameLoop]
    split_ifs
    · left; rfl
    · right; rfl
    · exact ih (index + 1)

theorem validateName_cases (s : List Byte) (sl nl : Nat) :
    (validateName s sl nl).1 = SHADOW_SUCCESS ∨ validateName s sl nl = (SHADOW_FAIL, nl) :=
  validateNameLoop_cases s nl sl 0

theorem extractShadowMessageTypeLoop_cases (s : List Byte) (sl : Nat) (mt : ShadowMessageType_t) :
    ∀ (remaining index : Nat),
      (extractShadowMessageTypeLoop s sl index remaining SHADOW_FAIL mt).1 = SHADOW_SUCCESS ∨
      extractShadowMessageTypeLoop s sl index remaining SHADOW_FAIL mt = (SHADOW_FAIL, mt) := by
  intro remaining
  induction remaining with
  | zero => intro index; right; rfl
  | succ r ih =>
    intro index
    rw [extractShadowMessageTypeLoop]
    rcases containsSubString_cases s sl (pMessageStrings.getD index [])
      (pMessageStringsLength.getD index 0) with hc | hc
    · rw [hc]
      simp only [if_true]
      split_ifs
      · exact ih (index + 1)
      · left; rfl
    · rw [hc]
      simp only [reduceCtorEq, if_false]
      exact ih (index + 1)

theorem extractShadowMessageType_cases (s : List Byte) (sl : Nat) (mt : ShadowMessageType_t) :
    (extractShadowMessageType s sl mt).1 = SHADOW_SUCCESS ∨
      extractShadowMessageType s sl mt = (SHADOW_FAIL, mt) :=
  extractShadowMessageTypeLoop_cases s sl mt _ 0

theorem extractShadowRootAndName_cases (topic : List Byte) (tl c sn : Nat) :
    (extractShadowRootAndName topic tl c sn).1 = SHADOW_SUCCESS ∨
    (extractShadowRootAndName topic tl c sn).1 = SHADOW_SHADOWNAME_PARSE_FAILED ∨
    (extractShadowRootAndName topic tl c sn).1 = SHADOW_ROOT_PARSE_FAILED := by
  unfold extractShadowRootAndName
  by_cases h1 : containsSubString (topic.drop c) (u16sub tl c) SHADOW_NAMED_ROOT
      SHADOW_NAMED_ROOT_LENGTH = SHADOW_SUCCESS
  · rw [if_pos h1]
    simp only
    by_cases h2 : (validateName (topic.drop (u16add c SHADOW_NAMED_ROOT_LENGTH))
        (u16sub tl (u16add c SHADOW_NAMED_ROOT_LENGTH)) sn).1 = SHADOW_SUCCESS
    · rw [if_pos h2]; left; rfl
    · rw [if_neg h2]; right; left; rfl
  · rw [if_neg h1]
    by_cases h3 : containsSubString (topic.drop c) (u16sub tl c) SHADOW_CLASSIC_ROOT
        SHADOW_CLASSIC_ROOT_LENGTH = SHADOW_SUCCESS
    · rw [if_pos h3]; left; rfl
    · rw [if_neg h3]; right; right; rfl

/-- With valid parameters the matcher either succeeds or returns one of five
failure statuses and leaves all five outputs as they were. -/
theorem Shadow_MatchTopicString_frame (topic : List Byte) (tl : Nat) (mt : ShadowMessageType_t)
    (a : Option CharPtr) (b : Option Nat) (c : Option CharPtr) (d : Option Nat)
    (h0 : tl ≠ 0) :
    (Shadow_MatchTopicString (some topic) tl (some mt) a b c d).status = SHADOW_SUCCESS ∨
    ∃ s, Shadow_MatchTopicString (some topic) tl (some mt) a b c d =
        { status := s, messageType := some mt, thingName := a, thingNameLength := b,
          shadowName := c, shadowNameLength := d } ∧
      (s = SHADOW_FAIL ∨ s = SHADOW_THINGNAME_PARSE_FAILED ∨ s = SHADOW_ROOT_PARSE_FAILED ∨
        s = SHADOW_SHADOWNAME_PARSE_FAILED ∨ s = SHADOW_MESSAGE_TYPE_PARSE_FAILED) := by
  have hv : validateMatchTopicParameters (some topic) tl (some mt) = SHADOW_SUCCESS := by
    simp [validateMatchTopicParameters, h0]
  rcases containsSubString_cases (topic.drop 0) (u16sub tl 0) SHADOW_PREFIX SHADOW_PREFIX_LENGTH
    with hs1 | hs1
  · rcases hn : validateName (topic.drop (u16add 0 SHADOW_PREFIX_LENGTH))
      (u16sub tl (u16add 0 SHADOW_PREFIX_LENGTH)) 0 with ⟨ns, nl⟩
    rcases validateName_cases (topic.drop (u16add 0 SHADOW_PREFIX_LENGTH))
      (u16sub tl (u16add 0 SHADOW_PREFIX_LENGTH)) 0 with hn1 | hn1
    · rw [hn] at hn1
      simp only at hn1
      subst hn1
      rcases hr : extractShadowRootAndName topic tl
        (u16add (u16add 0 SHADOW_PREFIX_LENGTH) nl) 0 with ⟨rs, rc, rn⟩
      have hrc := extractShadowRootAndName_cases topic tl
        (u16add (u16add 0 SHADOW_PREFIX_LENGTH) nl) 0
      rw [hr] at hrc
      simp only at hrc
      rcases hrc with h | h | h
      · subst h
        rcases hm : extractShadowMessageType (topic.drop rc) (u16sub tl rc) mt with ⟨ms, mv⟩
        rcases extractShadowMessageType_cases (topic.drop rc) (u16sub tl rc) mt with hm1 | hm1
        · rw [hm] at hm1
          simp only at hm1
          subst hm1
          left
          simp only [Shadow_MatchTopicString, hv, Option.getD_some, hs1, hn, hr, hm, if_true,
            and_self, ne_eq, not_true_eq_false, if_false]
        · rw [hm] at hm1
          injection hm1 with h1 h2
          subst h1 h2
          right
          refine ⟨SHADOW_MESSAGE_TYPE_PARSE_FAILED, ?_, by simp⟩
          simp only [Shadow_MatchTopicString, hv, Option.getD_some, hs1, hn, hr, hm, if_true,
            and_self, ne_eq, reduceCtorEq, not_false_eq_true, if_false, Option.map_some']
      · subst h
        right
        refine ⟨SHADOW_SHADOWNAME_PARSE_FAILED, ?_, by simp⟩
        simp only [Shadow_MatchTopicString, hv, Option.getD_some, hs1, hn, hr, if_true,
          and_self, ne_eq, reduceCtorEq, not_false_eq_true, if_false, Option.map_some']
      · subst h
        right
        refine ⟨SHADOW_ROOT_PARSE_FAILED, ?_, by simp⟩
        simp only [Shadow_MatchTopicString, hv, Option.getD_some, hs1, hn, hr, if_true,
          and_self, ne_eq, reduceCtorEq, not_false_eq_true, if_false, Option.map_some']
    · rw [hn] at hn1
      injection hn1 with h1 h2
      subst h1 h2
      right
      refine ⟨SHADOW_THINGNAME_PARSE_FAILED, ?_, by simp⟩
      simp only [Shadow_MatchTopicString, hv, Option.getD_some, hs1, hn, if_true,
        and_self, and_false, ne_eq, reduceCtorEq, not_false_eq_true, if_false, Option.map_some']
  · right
    refine ⟨SHADOW_FAIL, ?_, by simp⟩
    simp only [Shadow_MatchTopicString, hv, Option.getD_some, hs1, if_true,
      and_self, and_false, ne_eq, reduceCtorEq, not_false_eq_true, if_false, Option.map_some']


/-- The grammar on a topic with a well-formed prefix, thing name and root and an
arbitrary remainder that starts with a slash. -/
theorem parseTopic_rootLiteral (thing shadow rest : List Byte)
    (hthing : thing ≠ []) (hts : '/'.toNat ∉ thing) (hss : '/'.toNat ∉ shadow)
    (hhead : rest.head? = some '/'.toNat)
    (hnot : (cstr "/shadow" ++ rest).take 13 ≠ cstr "/shadow/name/") :
    parseTopic (cstr "$aws/things/" ++ thing ++ rootLiteral shadow ++ rest) =
      match messageTypeOf rest with
      | some t => (SHADOW_SUCCESS, thing.length, shadow.length, some t)
      | none => (SHADOW_MESSAGE_TYPE_PARSE_FAILED, thing.length, shadow.length, none) := by
  unfold rootLiteral
  by_cases hs : shadow.length > 0
  · rw [if_pos hs]
    obtain ⟨r, rfl⟩ := head_eq_slash_cons rest hhead
    have hp := parseTopic_named thing shadow r hthing hts (List.length_pos.mp hs) hss
    simp only [List.append_assoc] at hp ⊢
    exact hp
  · rw [if_neg hs]
    have h0 : shadow.length = 0 := by omega
    rw [h0]
    exact parseTopic_classic thing rest hthing hts hnot

theorem getElem?_append_length (pre rest : List Byte) (x : Byte) :
    (pre ++ x :: rest)[pre.length]? = some x := by
  rw [List.getElem?_append_right (Nat.le_refl _), Nat.sub_self]
  simp

theorem rootLiteral_cons (shadow : List Byte) : ∃ r, rootLiteral shadow = '/'.toNat :: r := by
  unfold rootLiteral
  split_ifs
  · exact ⟨cstr "shadow/name/" ++ shadow, rfl⟩
  · exact ⟨cstr "shadow", rfl⟩


/-- A successful match, with valid memory, comes from a well-formed topic; the
result holds its message type, name positions and name lengths. -/
theorem Shadow_MatchTopicString_success_inv (topic : List Byte) (tl : Nat)
    (pMessageType : Option ShadowMessageType_t)
    (a : Option CharPtr) (b : Option Nat) (c : Option CharPtr) (d : Option Nat)
    (hmem : tl ≤ topic.length) (h16 : tl < 65536)
    (hs : (Shadow_MatchTopicString (some topic) tl pMessageType a b c d).status
      = SHADOW_SUCCESS) :
    ∃ t thing shadow, t ≠ ShadowMessageTypeMaxNum ∧ thing ≠ [] ∧ '/'.toNat ∉ thing ∧
      '/'.toNat ∉ shadow ∧
      topic.take tl = cstr "$aws/things/" ++ thing ++ rootLiteral shadow ++ messageLiteral t ∧
      Shadow_MatchTopicString (some topic) tl pMessageType a b c d =
        { status := SHADOW_SUCCESS
          messageType := some t
          thingName := a.map (fun _ => CharPtr.topicAt 12)
          thingNameLength := b.map (fun _ => thing.length)
          shadowName := c.map (fun _ => CharPtr.topicAt (12 + thing.length + 13))
          shadowNameLength := d.map (fun _ => shadow.length) } := by
  by_cases hbad : tl = 0 ∨ pMessageType = none
  · rw [Shadow_MatchTopicString_bad _ _ _ _ _ _ _ (Or.inr hbad)] at hs
    cases hs
  · have h0 : 0 < tl := by
      rcases Nat.eq_zero_or_pos tl with h | h
      · exact absurd (Or.inl h) hbad
      · exact h
    obtain ⟨mt, rfl⟩ : ∃ mt, pMessageType = some mt := by
      cases pMessageType with
      | none => exact absurd (Or.inr rfl) hbad
      | some mt => exact ⟨mt, rfl⟩
    rw [Shadow_MatchTopicString_eq_parse topic tl mt a b c d h0 hmem h16] at hs ⊢
    rw [matchResultOf_status] at hs
    rcases hp : parseTopic (topic.take tl) with ⟨st, n, s, m⟩
    rw [hp] at hs
    simp only at hs
    subst hs
    obtain ⟨t, thing, shadow, hm, hne, hn, hsl, hthing, hts, hss, hT⟩ :=
      parseTopic_success _ n s m hp
    subst hm hn hsl
    refine ⟨t, thing, shadow, hne, hthing, hts, hss, hT, ?_⟩
    simp [matchResultOf]


/-- C11 (request topics are assemble-only): for every thing name of 1 to 128
bytes and shadow name of 0 to 64 bytes, both without a slash, the topic that the
assembler writes for the types `Get`, `Delete` or `Update` is rejected by the
matcher with `SHADOW_MESSAGE_TYPE_PARSE_FAILED`, all outputs left as they were. -/
theorem C11_request_topics_assemble_only (topicType : ShadowTopicStringType_t)
    (thing shadow buffer : List Byte) (bufferSize outLength0 : Nat)
    (mt0 : ShadowMessageType_t) (a c : Option CharPtr) (b d : Option Nat)
    (hkind : topicType = ShadowTopicStringTypeGet ∨ topicType = ShadowTopicStringTypeDelete ∨
      topicType = ShadowTopicStringTypeUpdate)
    (hthing1 : 1 ≤ thing.length) (hthing2 : thing.length ≤ 128) (hts : '/'.toNat ∉ thing)
    (hshadow : shadow.length ≤ 64) (hss : '/'.toNat ∉ shadow)
    (hsize : requiredLength topicType thing.length shadow.length ≤ bufferSize)
    (hmem : bufferSize ≤ buffer.length) (h16 : bufferSize < 65536) :
    ∃ out n,
      Shadow_AssembleTopicString topicType (some thing) thing.length (some shadow) shadow.length
          (some buffer) bufferSize (some outLength0) =
        { status := SHADOW_SUCCESS, topicBuffer := some out, outLength := some n } ∧
      out.take n = topicString topicType thing shadow ∧
      Shadow_MatchTopicString (some out) n (some mt0) a b c d =
        { status := SHADOW_MESSAGE_TYPE_PARSE_FAILED
          messageType := some mt0
          thingName := a
          thingNameLength := b
          shadowName := c
          shadowNameLength := d } := by
  have hfacts : topicType < 11 ∧ messageTypeOf (opLiteral topicType) = none ∧
      (opLiteral topicType).head? = some '/'.toNat ∧
      (cstr "/shadow" ++ opLiteral topicType).take 13 ≠ cstr "/shadow/name/" := by
    rcases hkind with h | h | h <;> (subst h; decide)
  obtain ⟨hlt, hnone, hhead, hnot⟩ := hfacts
  have hthing : thing ≠ [] := List.length_pos.mp (by omega)
  have hP : (cstr "$aws/things/").length = 12 := by decide
  have hN : (cstr "/shadow/name/").length = 13 := by decide
  have hC : (cstr "/shadow").length = 7 := by decide
  have hvalid := Shadow_AssembleTopicString_valid topicType thing thing.length (some shadow)
    shadow.length buffer bufferSize outLength0 (by omega) (by simp) hlt (by omega) (by omega)
  rw [if_neg (by omega)] at hvalid
  have hcreate := createShadowTopicString_eq topicType thing shadow buffer thing.length
    shadow.length hlt (Nat.le_refl _) (Nat.le_refl _) (by omega) (by omega) (by omega)
  rw [List.take_length, List.take_length] at hcreate
  have hroot : (if shadow.length > 0 then cstr "/shadow/name/" ++ shadow else cstr "/shadow") =
      rootLiteral shadow := rfl
  rw [hroot] at hcreate
  have hreq : requiredLength topicType thing.length shadow.length =
      (cstr "$aws/things/" ++ thing ++ rootLiteral shadow ++ opLiteral topicType).length := by
    unfold requiredLength rootLiteral
    by_cases hs : shadow.length > 0
    · simp only [hs, if_true, List.length_append, hP, hN]
    · simp only [hs, if_false, List.length_append, hP, hC]
  have htake : (createShadowTopicString topicType thing thing.length shadow shadow.length
      buffer).take (requiredLength topicType thing.length shadow.length) =
      cstr "$aws/things/" ++ thing ++ rootLiteral shadow ++ opLiteral topicType := by
    rw [hcreate, hreq]; exact List.take_left _ _
  have hlen : (createShadowTopicString topicType thing thing.length shadow shadow.length
      buffer).length = buffer.length := by
    unfold createShadowTopicString
    simp only [apply_ite, memcpy_length, ite_self]
  refine ⟨_, _, hvalid, ?_, ?_⟩
  · simp only [Option.getD_some]
    exact htake
  · simp only [Option.getD_some]
    have hpos : 0 < requiredLength topicType thing.length shadow.length := by
      unfold requiredLength; omega
    rw [Shadow_MatchTopicString_eq_parse _ _ mt0 a b c d hpos (by rw [hlen]; omega) (by omega),
      htake, parseTopic_rootLiteral thing shadow _ hthing hts hss hhead hnot, hnone]
    simp [matchResultOf]

/-- Witness of C11: the `Get` topic of thing `Thing1` and shadow `Shadow1`. -/
theorem C11_request_topics_assemble_only_witness :
    (ShadowTopicStringTypeGet = ShadowTopicStringTypeGet ∨
      ShadowTopicStringTypeGet = ShadowTopicStringTypeDelete ∨
      ShadowTopicStringTypeGet = ShadowTopicStringTypeUpdate) ∧
    requiredLength ShadowTopicStringTypeGet (cstr "Thing1").length (cstr "Shadow1").length
      ≤ 64 ∧
    ∃ out n,
      Shadow_AssembleTopicString ShadowTopicStringTypeGet (some (cstr "Thing1"))
          (cstr "Thing1").length (some (cstr "Shadow1")) (cstr "Shadow1").length
          (some (List.replicate 64 0)) 64 (some 0) =
        { status := SHADOW_SUCCESS, topicBuffer := some out, outLength := some n } ∧
      out.take n = topicString ShadowTopicStringTypeGet (cstr "Thing1") (cstr "Shadow1") ∧
      Shadow_MatchTopicString (some out) n (some ShadowMessageTypeMaxNum) (some CharPtr.null)
          (some 0) (some CharPtr.null) (some 0) =
        { status := SHADOW_MESSAGE_TYPE_PARSE_FAILED
          messageType := some ShadowMessageTypeMaxNum
          thingName := some CharPtr.null
          thingNameLength := some 0
          shadowName := some CharPtr.null
          shadowNameLength := some 0 } :=
  ⟨by decide, by decide,
    C11_request_topics_assemble_only ShadowTopicStringTypeGet (cstr "Thing1") (cstr "Shadow1")
      (List.replicate 64 0) 64 0 ShadowMessageTypeMaxNum (some CharPtr.null) (some CharPtr.null)
      (some 0) (some 0) (by decide) (by decide) (by decide) (by decide) (by decide) (by decide)
      (by decide) (by decide) (by decide)⟩

/-- C12 (prefix failure): with valid parameters the matcher returns `SHADOW_FAIL`
if and only if the topic bytes do not begin with the 12 bytes `$aws/things/`; this
includes every topic shorter than 12 bytes, and once the prefix matches no later
stage returns `SHADOW_FAIL`. -/
theorem C12_prefix_failure (topic : List Byte) (topicLength : Nat) (mt : ShadowMessageType_t)
    (a c : Option CharPtr) (b d : Option Nat)
    (h0 : 0 < topicLength) (hmem : topicLength ≤ topic.length) (h16 : topicLength < 65536) :
    ((Shadow_MatchTopicString (some topic) topicLength (some mt) a b c d).status = SHADOW_FAIL ↔
      ¬ cstr "$aws/things/" <+: topic.take topicLength) ∧
    (topicLength < 12 →
      (Shadow_MatchTopicString (some topic) topicLength (some mt) a b c d).status = SHADOW_FAIL) ∧
    (cstr "$aws/things/" <+: topic.take topicLength →
      (Shadow_MatchTopicString (some topic) topicLength (some mt) a b c d).status
        ≠ SHADOW_FAIL) := by
  rw [Shadow_MatchTopicString_status topic topicLength mt a b c d h0 hmem h16]
  have hiff : (parseTopic (topic.take topicLength)).1 = SHADOW_FAIL ↔
      ¬ cstr "$aws/things/" <+: topic.take topicLength := by
    constructor
    · intro h
      rcases parseTopic_cases (topic.take topicLength) with
        ⟨h1, _⟩ | ⟨_, _, _, hp⟩ | ⟨_, _, _, _, _, _, _, _, hp⟩ | ⟨_, _, _, _, _, _, hp⟩ | hp | hp
      · exact h1
      · rw [hp] at h; cases h
      · rw [hp] at h; cases h
      · rw [hp] at h; cases h
      · rw [hp] at h; cases h
      · rw [hp] at h; cases h
    · intro h
      rw [parseTopic_no_start _ h]
  refine ⟨hiff, ?_, ?_⟩
  · intro hlt
    apply hiff.mpr
    intro hpre
    have := hpre.length_le
    rw [List.length_take] at this
    have h12 : (cstr "$aws/things/").length = 12 := by decide
    omega
  · intro hpre h
    exact hiff.mp h hpre

/-- Witness of C12: the unrelated topic `home/kitchen/temp`. -/
theorem C12_prefix_failure_witness :
    (Shadow_MatchTopicString (some (cstr "home/kitchen/temp")) 17 (some ShadowMessageTypeMaxNum)
      none none none none).status = SHADOW_FAIL ∧
    ¬ cstr "$aws/things/" <+: (cstr "home/kitchen/temp").take 17 :=
  ⟨(C12_prefix_failure (cstr "home/kitchen/temp") 17 ShadowMessageTypeMaxNum none none none none
      (by decide) (by decide) (by decide)).1.mpr (by decide),
    by decide⟩


/-- C13 (thing name failure): with valid parameters the matcher returns
`SHADOW_THINGNAME_PARSE_FAILED` if and only if the topic bytes begin with
`$aws/things/` and the bytes after the prefix either contain no slash at all or
begin with a slash; so do `$aws/things//shadow/get/accepted` (empty thing name)
and the bare prefix. -/
theorem C13_thing_name_failure (topic : List Byte) (topicLength : Nat) (mt : ShadowMessageType_t)
    (a c : Option CharPtr) (b d : Option Nat)
    (h0 : 0 < topicLength) (hmem : topicLength ≤ topic.length) (h16 : topicLength < 65536) :
    ((Shadow_MatchTopicString (some topic) topicLength (some mt) a b c d).status
        = SHADOW_THINGNAME_PARSE_FAILED ↔
      ∃ A, topic.take topicLength = cstr "$aws/things/" ++ A ∧
        ('/'.toNat ∉ A ∨ A.head? = some '/'.toNat)) ∧
    (Shadow_MatchTopicString (some (cstr "$aws/things//shadow/get/accepted")) 32 (some mt)
        a b c d).status = SHADOW_THINGNAME_PARSE_FAILED ∧
    (Shadow_MatchTopicString (some (cstr "$aws/things/")) 12 (some mt)
        a b c d).status = SHADOW_THINGNAME_PARSE_FAILED := by
  refine ⟨?_, ?_, ?_⟩
  · rw [Shadow_MatchTopicString_status topic topicLength mt a b c d h0 hmem h16]
    constructor
    · intro h
      rcases parseTopic_cases (topic.take topicLength) with
        ⟨_, hp⟩ | ⟨A, hT, hA, _⟩ | ⟨_, _, _, _, _, _, _, _, hp⟩ | ⟨_, _, _, _, _, _, hp⟩ | hp | hp
      · rw [hp] at h; cases h
      · exact ⟨A, hT, hA⟩
      · rw [hp] at h; cases h
      · rw [hp] at h; cases h
      · rw [hp] at h; cases h
      · rw [hp] at h; cases h
    · rintro ⟨A, hT, hA⟩
      rw [hT, parseTopic_bad_thing A hA]
  · rw [Shadow_MatchTopicString_status _ 32 mt a b c d (by decide) (by decide) (by decide)]
    decide
  · rw [Shadow_MatchTopicString_status _ 12 mt a b c d (by decide) (by decide) (by decide)]
    decide

/-- Witness of C13: the topic `$aws/things/Thing1`, whose thing name is not
followed by a slash. -/
theorem C13_thing_name_failure_witness :
    (Shadow_MatchTopicString (some (cstr "$aws/things/Thing1")) 18
      (some ShadowMessageTypeMaxNum) none none none none).status
        = SHADOW_THINGNAME_PARSE_FAILED ∧
    ∃ A, (cstr "$aws/things/Thing1").take 18 = cstr "$aws/things/" ++ A ∧
      ('/'.toNat ∉ A ∨ A.head? = some '/'.toNat) :=
  ⟨by decide,
    (C13_thing_name_failure (cstr "$aws/things/Thing1") 18 ShadowMessageTypeMaxNum none none
      none none (by decide) (by decide) (by decide)).1.mp (by decide)⟩

/-- C14 (root failure): with valid parameters the matcher returns
`SHADOW_ROOT_PARSE_FAILED` if and only if the topic bytes are the prefix, a
non-empty thing name without a slash, and bytes that start at the slash ending
the thing name and begin with neither `/shadow/name/` nor `/shadow`; this
includes the case where fewer than 7 bytes remain. -/
theorem C14_root_failure (topic : List Byte) (topicLength : Nat) (mt : ShadowMessageType_t)
    (a c : Option CharPtr) (b d : Option Nat)
    (h0 : 0 < topicLength) (hmem : topicLength ≤ topic.length) (h16 : topicLength < 65536) :
    ((Shadow_MatchTopicString (some topic) topicLength (some mt) a b c d).status
        = SHADOW_ROOT_PARSE_FAILED ↔
      ∃ thing B, topic.take topicLength = cstr "$aws/things/" ++ thing ++ B ∧
        thing ≠ [] ∧ '/'.toNat ∉ thing ∧ B.head? = some '/'.toNat ∧
        ¬ cstr "/shadow/name/" <+: B ∧ ¬ cstr "/shadow" <+: B) ∧
    (∀ thing B, topic.take topicLength = cstr "$aws/things/" ++ thing ++ B →
      thing ≠ [] → '/'.toNat ∉ thing → B.head? = some '/'.toNat → B.length < 7 →
      (Shadow_MatchTopicString (some topic) topicLength (some mt) a b c d).status
        = SHADOW_ROOT_PARSE_FAILED) := by
  rw [Shadow_MatchTopicString_status topic topicLength mt a b c d h0 hmem h16]
  refine ⟨?_, ?_⟩
  · constructor
    · intro h
      rcases parseTopic_cases (topic.take topicLength) with
        ⟨_, hp⟩ | ⟨_, _, _, hp⟩ | ⟨thing, B, hT, h1, h2, h3, h4, h5, _⟩ |
        ⟨_, _, _, _, _, _, hp⟩ | hp | hp
      · rw [hp] at h; cases h
      · rw [hp] at h; cases h
      · exact ⟨thing, B, hT, h1, h2, h3, h4, h5⟩
      · rw [hp] at h; cases h
      · rw [hp] at h; cases h
      · rw [hp] at h; cases h
    · rintro ⟨thing, B, hT, h1, h2, h3, _, h5⟩
      rw [hT, parseTopic_bad_root thing B h1 h2 h3 h5]
  · intro thing B hT h1 h2 h3 hlen
    have h5 : ¬ cstr "/shadow" <+: B := by
      intro hpre
      have := hpre.length_le
      have h7 : (cstr "/shadow").length = 7 := by decide
      omega
    rw [hT, parseTopic_bad_root thing B h1 h2 h3 h5]

/-- Witness of C14: the topic `$aws/things/Thing1/shado`, with 6 bytes after the
thing name. -/
theorem C14_root_failure_witness :
    (Shadow_MatchTopicString (some (cstr "$aws/things/Thing1/shado")) 24
      (some ShadowMessageTypeMaxNum) none none none none).status = SHADOW_ROOT_PARSE_FAILED ∧
    ∃ thing B, (cstr "$aws/things/Thing1/shado").take 24 = cstr "$aws/things/" ++ thing ++ B ∧
      thing ≠ [] ∧ '/'.toNat ∉ thing ∧ B.head? = some '/'.toNat ∧
      ¬ cstr "/shadow/name/" <+: B ∧ ¬ cstr "/shadow" <+: B :=
  ⟨(C14_root_failure (cstr "$aws/things/Thing1/shado") 24 ShadowMessageTypeMaxNum none none
      none none (by decide) (by decide) (by decide)).2 (cstr "Thing1") (cstr "/shado")
      (by decide) (by decide) (by decide) (by decide) (by decide),
    (C14_root_failure (cstr "$aws/things/Thing1/shado") 24 ShadowMessageTypeMaxNum none none
      none none (by decide) (by decide) (by decide)).1.mp (by decide)⟩

/-- C15 (named root takes precedence): with valid parameters the matcher returns
`SHADOW_SHADOWNAME_PARSE_FAILED` if and only if the topic bytes are the prefix, a
non-empty thing name without a slash, the named root `/shadow/name/`, and bytes
that either contain no slash or begin with a slash; such a topic is then neither
accepted nor given the status of a classic topic, and no output is written. -/
theorem C15_named_root_precedence (topic : List Byte) (topicLength : Nat)
    (mt : ShadowMessageType_t) (a c : Option CharPtr) (b d : Option Nat)
    (h0 : 0 < topicLength) (hmem : topicLength ≤ topic.length) (h16 : topicLength < 65536) :
    ((Shadow_MatchTopicString (some topic) topicLength (some mt) a b c d).status
        = SHADOW_SHADOWNAME_PARSE_FAILED ↔
      ∃ thing C, topic.take topicLength =
          cstr "$aws/things/" ++ thing ++ cstr "/shadow/name/" ++ C ∧
        thing ≠ [] ∧ '/'.toNat ∉ thing ∧ ('/'.toNat ∉ C ∨ C.head? = some '/'.toNat)) ∧
    (∀ thing C, topic.take topicLength =
        cstr "$aws/things/" ++ thing ++ cstr "/shadow/name/" ++ C →
      thing ≠ [] → '/'.toNat ∉ thing → ('/'.toNat ∉ C ∨ C.head? = some '/'.toNat) →
      Shadow_MatchTopicString (some topic) topicLength (some mt) a b c d =
        { status := SHADOW_SHADOWNAME_PARSE_FAILED
          messageType := some mt
          thingName := a
          thingNameLength := b
          shadowName := c
          shadowNameLength := d }) := by
  refine ⟨?_, ?_⟩
  · rw [Shadow_MatchTopicString_status topic topicLength mt a b c d h0 hmem h16]
    constructor
    · intro h
      rcases parseTopic_cases (topic.take topicLength) with
        ⟨_, hp⟩ | ⟨_, _, _, hp⟩ | ⟨_, _, _, _, _, _, _, _, hp⟩ |
        ⟨thing, C, hT, h1, h2, h3, _⟩ | hp | hp
      · rw [hp] at h; cases h
      · rw [hp] at h; cases h
      · rw [hp] at h; cases h
      · exact ⟨thing, C, hT, h1, h2, h3⟩
      · rw [hp] at h; cases h
      · rw [hp] at h; cases h
    · rintro ⟨thing, C, hT, h1, h2, h3⟩
      rw [hT, parseTopic_bad_shadow thing C h1 h2 h3]
  · intro thing C hT h1 h2 h3
    rw [Shadow_MatchTopicString_eq_parse topic topicLength mt a b c d h0 hmem h16, hT,
      parseTopic_bad_shadow thing C h1 h2 h3]
    simp [matchResultOf]

/-- Witness of C15: the topic `$aws/things/Thing1/shadow/name/update`, which as a
classic topic would have the remainder `/name/update`. -/
theorem C15_named_root_precedence_witness :
    (Shadow_MatchTopicString (some (cstr "$aws/things/Thing1/shadow/name/update")) 37
      (some ShadowMessageTypeMaxNum) none none none none).status
        = SHADOW_SHADOWNAME_PARSE_FAILED ∧
    ∃ thing C, (cstr "$aws/things/Thing1/shadow/name/update").take 37 =
        cstr "$aws/things/" ++ thing ++ cstr "/shadow/name/" ++ C ∧
      thing ≠ [] ∧ '/'.toNat ∉ thing ∧ ('/'.toNat ∉ C ∨ C.head? = some '/'.toNat) :=
  ⟨by decide,
    (C15_named_root_precedence (cstr "$aws/things/Thing1/shadow/name/update") 37
      ShadowMessageTypeMaxNum none none none none (by decide) (by decide) (by decide)).1.mp
      (by decide)⟩


/-- C16 (match parameter validation): the matcher returns `SHADOW_BAD_PARAMETER`
if and only if the topic pointer is null, or `topicLength` is 0, or
`pMessageType` is null; the four name outputs may each be null without causing
`SHADOW_BAD_PARAMETER`. -/
theorem C16_match_parameter_validation (pTopic : Option (List Byte)) (topicLength : Nat)
    (pMessageType : Option ShadowMessageType_t)
    (pThingName : Option CharPtr) (pThingNameLength : Option Nat)
    (pShadowName : Option CharPtr) (pShadowNameLength : Option Nat) :
    ((Shadow_MatchTopicString pTopic topicLength pMessageType pThingName pThingNameLength
        pShadowName pShadowNameLength).status = SHADOW_BAD_PARAMETER ↔
      (pTopic = none ∨ topicLength = 0 ∨ pMessageType = none)) ∧
    (¬ (pTopic = none ∨ topicLength = 0 ∨ pMessageType = none) →
      (Shadow_MatchTopicString pTopic topicLength pMessageType none none none none).status
        ≠ SHADOW_BAD_PARAMETER) := by
  have key : ∀ (a : Option CharPtr) (b : Option Nat) (c : Option CharPtr) (d : Option Nat),
      ¬ (pTopic = none ∨ topicLength = 0 ∨ pMessageType = none) →
      (Shadow_MatchTopicString pTopic topicLength pMessageType a b c d).status
        ≠ SHADOW_BAD_PARAMETER := by
    intro a b c d hvalid
    obtain ⟨topic, rfl⟩ : ∃ topic, pTopic = some topic := by
      cases pTopic with
      | none => exact absurd (Or.inl rfl) hvalid
      | some m => exact ⟨m, rfl⟩
    obtain ⟨mt, rfl⟩ : ∃ mt, pMessageType = some mt := by
      cases pMessageType with
      | none => exact absurd (Or.inr (Or.inr rfl)) hvalid
      | some mt => exact ⟨mt, rfl⟩
    have h0 : topicLength ≠ 0 := fun h => hvalid (Or.inr (Or.inl h))
    rcases Shadow_MatchTopicString_frame topic topicLength mt a b c d h0 with
      h | ⟨s, hR, hs⟩
    · rw [h]; decide
    · rw [hR]
      rcases hs with h | h | h | h | h <;> (subst h; simp)
  refine ⟨⟨?_, ?_⟩, key none none none none⟩
  · intro h
    by_contra hvalid
    exact key _ _ _ _ hvalid h
  · intro hbad
    rw [Shadow_MatchTopicString_bad _ _ _ _ _ _ _ hbad]

/-- C17 (outputs untouched on failure): whenever the matcher returns a status
other than `SHADOW_SUCCESS`, each of its five outputs keeps the value it had
before the call. -/
theorem C17_outputs_untouched_on_failure (pTopic : Option (List Byte)) (topicLength : Nat)
    (pMessageType : Option ShadowMessageType_t)
    (pThingName : Option CharPtr) (pThingNameLength : Option Nat)
    (pShadowName : Option CharPtr) (pShadowNameLength : Option Nat)
    (hs : (Shadow_MatchTopicString pTopic topicLength pMessageType pThingName pThingNameLength
      pShadowName pShadowNameLength).status ≠ SHADOW_SUCCESS) :
    (Shadow_MatchTopicString pTopic topicLength pMessageType pThingName pThingNameLength
      pShadowName pShadowNameLength).messageType = pMessageType ∧
    (Shadow_MatchTopicString pTopic topicLength pMessageType pThingName pThingNameLength
      pShadowName pShadowNameLength).thingName = pThingName ∧
    (Shadow_MatchTopicString pTopic topicLength pMessageType pThingName pThingNameLength
      pShadowName pShadowNameLength).thingNameLength = pThingNameLength ∧
    (Shadow_MatchTopicString pTopic topicLength pMessageType pThingName pThingNameLength
      pShadowName pShadowNameLength).shadowName = pShadowName ∧
    (Shadow_MatchTopicString pTopic topicLength pMessageType pThingName pThingNameLength
      pShadowName pShadowNameLength).shadowNameLength = pShadowNameLength := by
  by_cases hbad : pTopic = none ∨ topicLength = 0 ∨ pMessageType = none
  · rw [Shadow_MatchTopicString_bad _ _ _ _ _ _ _ hbad]
    exact ⟨rfl, rfl, rfl, rfl, rfl⟩
  · obtain ⟨topic, rfl⟩ : ∃ topic, pTopic = some topic := by
      cases pTopic with
      | none => exact absurd (Or.inl rfl) hbad
      | some m => exact ⟨m, rfl⟩
    obtain ⟨mt, rfl⟩ : ∃ mt, pMessageType = some mt := by
      cases pMessageType with
      | none => exact absurd (Or.inr (Or.inr rfl)) hbad
      | some mt => exact ⟨mt, rfl⟩
    have h0 : topicLength ≠ 0 := fun h => hbad (Or.inr (Or.inl h))
    rcases Shadow_MatchTopicString_frame topic topicLength mt pThingName pThingNameLength
      pShadowName pShadowNameLength h0 with h | ⟨s, hR, _⟩
    · exact absurd h hs
    · rw [hR]
      exact ⟨rfl, rfl, rfl, rfl, rfl⟩

/-- Witness of C17: the topic `$aws/things/Thing1/shadow/update/delta/extra` with
outputs that hold `GetRejected`, the addresses of bytes 3 and 5 and the lengths 7
and 9 before the call. -/
theorem C17_outputs_untouched_on_failure_witness :
    (Shadow_MatchTopicString (some (cstr "$aws/things/Thing1/shadow/update/delta/extra")) 44
      (some ShadowMessageTypeGetRejected) (some (CharPtr.topicAt 3)) (some 7)
      (some (CharPtr.topicAt 5)) (some 9)).status ≠ SHADOW_SUCCESS ∧
    (Shadow_MatchTopicString (some (cstr "$aws/things/Thing1/shadow/update/delta/extra")) 44
      (some ShadowMessageTypeGetRejected) (some (CharPtr.topicAt 3)) (some 7)
      (some (CharPtr.topicAt 5)) (some 9)).messageType = some ShadowMessageTypeGetRejected ∧
    (Shadow_MatchTopicString (some (cstr "$aws/things/Thing1/shadow/update/delta/extra")) 44
      (some ShadowMessageTypeGetRejected) (some (CharPtr.topicAt 3)) (some 7)
      (some (CharPtr.topicAt 5)) (some 9)).thingName = some (CharPtr.topicAt 3) ∧
    (Shadow_MatchTopicString (some (cstr "$aws/things/Thing1/shadow/update/delta/extra")) 44
      (some ShadowMessageTypeGetRejected) (some (CharPtr.topicAt 3)) (some 7)
      (some (CharPtr.topicAt 5)) (some 9)).thingNameLength = some 7 ∧
    (Shadow_MatchTopicString (some (cstr "$aws/things/Thing1/shadow/update/delta/extra")) 44
      (some ShadowMessageTypeGetRejected) (some (CharPtr.topicAt 3)) (some 7)
      (some (CharPtr.topicAt 5)) (some 9)).shadowName = some (CharPtr.topicAt 5) ∧
    (Shadow_MatchTopicString (some (cstr "$aws/things/Thing1/shadow/update/delta/extra")) 44
      (some ShadowMessageTypeGetRejected) (some (CharPtr.topicAt 3)) (some 7)
      (some (CharPtr.topicAt 5)) (some 9)).shadowNameLength = some 9 :=
  ⟨by decide,
    C17_outputs_untouched_on_failure (some (cstr "$aws/things/Thing1/shadow/update/delta/extra"))
      44 (some ShadowMessageTypeGetRejected) (some (CharPtr.topicAt 3)) (some 7)
      (some (CharPtr.topicAt 5)) (some 9) (by decide)⟩

/-- C18 (code at the failing input): for the accepted classic topic
`$aws/things/Thing1/shadow/update/delta`, called with non-null `pShadowName` and
`pShadowNameLength` whose pointees hold `NULL` and 0, the matcher stores the
address of byte 31 of the topic (inside `/update/delta`) in `*pShadowName`, not
`NULL`; the shadow name length it stores is 0. -/
theorem C18_classic_shadow_name_pointer :
    Shadow_MatchTopicString (some (cstr "$aws/things/Thing1/shadow/update/delta")) 38
        (some ShadowMessageTypeMaxNum) (some CharPtr.null) (some 0) (some CharPtr.null)
        (some 0) =
      { status := SHADOW_SUCCESS
        messageType := some ShadowMessageTypeUpdateDelta
        thingName := some (CharPtr.topicAt 12)
        thingNameLength := some 6
        shadowName := some (CharPtr.topicAt 31)
        shadowNameLength := some 0 } ∧
    (Shadow_MatchTopicString (some (cstr "$aws/things/Thing1/shadow/update/delta")) 38
        (some ShadowMessageTypeMaxNum) (some CharPtr.null) (some 0) (some CharPtr.null)
        (some 0)).shadowName ≠ some CharPtr.null ∧
    (cstr "$aws/things/Thing1/shadow/update/delta").drop 31 = cstr "e/delta" := by
  decide


/-- C19 (span positions): whenever the matcher succeeds, the thing name pointer
it returns is the topic pointer plus 12 and the topic byte at offset
`12 + thingNameLength` is a slash; when the shadow name length is positive (a
named shadow), the topic continues there with `/shadow/name/`, the shadow name
pointer returned is the topic pointer plus `12 + thingNameLength + 13`, and the
topic byte right after the `shadowNameLength` bytes is a slash. Both pointers are
addresses inside the topic. -/
theorem C19_span_positions (topic : List Byte) (topicLength : Nat)
    (pMessageType : Option ShadowMessageType_t) (p1 p2 : CharPtr) (l1 l2 : Nat)
    (hmem : topicLength ≤ topic.length) (h16 : topicLength < 65536)
    (hs : (Shadow_MatchTopicString (some topic) topicLength pMessageType (some p1) (some l1)
      (some p2) (some l2)).status = SHADOW_SUCCESS) :
    ∃ n s,
      (Shadow_MatchTopicString (some topic) topicLength pMessageType (some p1) (some l1)
        (some p2) (some l2)).thingName = some (CharPtr.topicAt 12) ∧
      (Shadow_MatchTopicString (some topic) topicLength pMessageType (some p1) (some l1)
        (some p2) (some l2)).thingNameLength = some n ∧
      (topic.take topicLength)[12 + n]? = some '/'.toNat ∧
      (Shadow_MatchTopicString (some topic) topicLength pMessageType (some p1) (some l1)
        (some p2) (some l2)).shadowNameLength = some s ∧
      (0 < s →
        cstr "/shadow/name/" <+: (topic.take topicLength).drop (12 + n) ∧
        (Shadow_MatchTopicString (some topic) topicLength pMessageType (some p1) (some l1)
          (some p2) (some l2)).shadowName = some (CharPtr.topicAt (12 + n + 13)) ∧
        (topic.take topicLength)[12 + n + 13 + s]? = some '/'.toNat) := by
  obtain ⟨t, thing, shadow, hne, hthing, hts, hss, hT, hR⟩ :=
    Shadow_MatchTopicString_success_inv topic topicLength pMessageType _ _ _ _ hmem h16 hs
  have hP : (cstr "$aws/things/").length = 12 := by decide
  have hN : (cstr "/shadow/name/").length = 13 := by decide
  refine ⟨thing.length, shadow.length, ?_, ?_, ?_, ?_, ?_⟩
  · rw [hR]; rfl
  · rw [hR]; rfl
  · obtain ⟨r, hr⟩ := rootLiteral_cons shadow
    rw [hT, hr]
    have hl : (cstr "$aws/things/" ++ thing).length = 12 + thing.length := by
      rw [List.length_append, hP]
    rw [← hl, List.append_assoc (cstr "$aws/things/" ++ thing), List.cons_append]
    exact getElem?_append_length _ _ _
  · rw [hR]; rfl
  · intro hpos
    have hroot : rootLiteral shadow = cstr "/shadow/name/" ++ shadow := by
      unfold rootLiteral; rw [if_pos hpos]
    obtain ⟨r, hr⟩ := messageLiteral_cons t hne
    refine ⟨?_, ?_, ?_⟩
    · rw [hT, hroot]
      have hl : (cstr "$aws/things/" ++ thing).length = 12 + thing.length := by
        rw [List.length_append, hP]
      rw [← hl]
      simp only [List.append_assoc]
      rw [← List.append_assoc (cstr "$aws/things/") thing, List.drop_left]
      exact List.prefix_append _ _
    · rw [hR]; rfl
    · rw [hT, hroot, hr]
      have hl : (cstr "$aws/things/" ++ thing ++ (cstr "/shadow/name/" ++ shadow)).length =
          12 + thing.length + 13 + shadow.length := by
        simp only [List.length_append, hP, hN]
        omega
      rw [← hl]
      exact getElem?_append_length _ _ _

/-- Witness of C19: the named-shadow topic
`$aws/things/Thing1/shadow/name/Shadow1/get/accepted`. -/
theorem C19_span_positions_witness :
    (Shadow_MatchTopicString (some (cstr "$aws/things/Thing1/shadow/name/Shadow1/get/accepted"))
      51 (some ShadowMessageTypeMaxNum) (some CharPtr.null) (some 0) (some CharPtr.null)
      (some 0)).status = SHADOW_SUCCESS ∧
    ∃ n s,
      (Shadow_MatchTopicString
        (some (cstr "$aws/things/Thing1/shadow/name/Shadow1/get/accepted")) 51
        (some ShadowMessageTypeMaxNum) (some CharPtr.null) (some 0) (some CharPtr.null)
        (some 0)).thingName = some (CharPtr.topicAt 12) ∧
      (Shadow_MatchTopicString
        (some (cstr "$aws/things/Thing1/shadow/name/Shadow1/get/accepted")) 51
        (some ShadowMessageTypeMaxNum) (some CharPtr.null) (some 0) (some CharPtr.null)
        (some 0)).thingNameLength = some n ∧
      ((cstr "$aws/things/Thing1/shadow/name/Shadow1/get/accepted").take 51)[12 + n]?
        = some '/'.toNat ∧
      (Shadow_MatchTopicString
        (some (cstr "$aws/things/Thing1/shadow/name/Shadow1/get/accepted")) 51
        (some ShadowMessageTypeMaxNum) (some CharPtr.null) (some 0) (some CharPtr.null)
        (some 0)).shadowNameLength = some s ∧
      (0 < s →
        cstr "/shadow/name/" <+:
          ((cstr "$aws/things/Thing1/shadow/name/Shadow1/get/accepted").take 51).drop (12 + n) ∧
        (Shadow_MatchTopicString
          (some (cstr "$aws/things/Thing1/shadow/name/Shadow1/get/accepted")) 51
          (some ShadowMessageTypeMaxNum) (some CharPtr.null) (some 0) (some CharPtr.null)
          (some 0)).shadowName = some (CharPtr.topicAt (12 + n + 13)) ∧
        ((cstr "$aws/things/Thing1/shadow/name/Shadow1/get/accepted").take 51)[12 + n + 13 + s]?
          = some '/'.toNat) :=
  ⟨by decide,
    C19_span_positions (cstr "$aws/things/Thing1/shadow/name/Shadow1/get/accepted") 51
      (some ShadowMessageTypeMaxNum) CharPtr.null CharPtr.null 0 0 (by decide) (by decide)
      (by decide)⟩

set_option maxRecDepth 8000 in
/-- C20 (counterexample): the matcher accepts a topic whose shadow name has 65
bytes and reports the length 65, above `SHADOW_NAME_LENGTH_MAX`; it accepts a
topic whose thing name has 129 bytes and reports the length 129, above
`SHADOW_THINGNAME_LENGTH_MAX`. -/
theorem C20_identifier_length_counterexample :
    (Shadow_MatchTopicString
        (some (cstr "$aws/things/T/shadow/name/" ++ List.replicate 65 ('s'.toNat) ++
          cstr "/get/accepted")) 104
        (some ShadowMessageTypeMaxNum) none (some 0) none (some 0)).status = SHADOW_SUCCESS ∧
    (Shadow_MatchTopicString
        (some (cstr "$aws/things/T/shadow/name/" ++ List.replicate 65 ('s'.toNat) ++
          cstr "/get/accepted")) 104
        (some ShadowMessageTypeMaxNum) none (some 0) none (some 0)).shadowNameLength = some 65 ∧
    ¬ (65 ≤ SHADOW_NAME_LENGTH_MAX) ∧
    (Shadow_MatchTopicString
        (some (cstr "$aws/things/" ++ List.replicate 129 ('T'.toNat) ++
          cstr "/shadow/get/accepted")) 161
        (some ShadowMessageTypeMaxNum) none (some 0) none (some 0)).status = SHADOW_SUCCESS ∧
    (Shadow_MatchTopicString
        (some (cstr "$aws/things/" ++ List.replicate 129 ('T'.toNat) ++
          cstr "/shadow/get/accepted")) 161
        (some ShadowMessageTypeMaxNum) none (some 0) none (some 0)).thingNameLength = some 129 ∧
    ¬ (129 ≤ SHADOW_THINGNAME_LENGTH_MAX) := by
  have h1 := Shadow_MatchTopicString_topic
    (cstr "$aws/things/T/shadow/name/" ++ List.replicate 65 ('s'.toNat) ++ cstr "/get/accepted")
    (cstr "T") (List.replicate 65 ('s'.toNat)) 104 ShadowMessageTypeGetAccepted
    ShadowMessageTypeMaxNum none (some 0) none (some 0) (by decide) (by decide) (by decide)
    (by simp [List.mem_replicate]) (by rfl) (by rfl) (by decide)
  have h2 := Shadow_MatchTopicString_topic
    (cstr "$aws/things/" ++ List.replicate 129 ('T'.toNat) ++ cstr "/shadow/get/accepted")
    (List.replicate 129 ('T'.toNat)) [] 161 ShadowMessageTypeGetAccepted
    ShadowMessageTypeMaxNum none (some 0) none (some 0) (by decide) (by simp)
    (by simp [List.mem_replicate]) (by decide) (by rfl) (by rfl) (by decide)
  rw [h1, h2]
  refine ⟨rfl, ?_, by decide, rfl, ?_, by decide⟩
  · simp
  · simp

/-- C20 (amended): for every topic the matcher accepts, the thing name length it
reports is at least 1 and at most `topicLength - 32`, and the shadow name length
it reports is 0 (classic shadow) or at least 1 with thing name length plus shadow
name length at most `topicLength - 38`; the limits 128 and 64 are not applied. -/
theorem C20_identifier_lengths_amended (topic : List Byte) (topicLength : Nat)
    (pMessageType : Option ShadowMessageType_t) (a c : Option CharPtr) (l1 l2 : Nat)
    (hmem : topicLength ≤ topic.length) (h16 : topicLength < 65536)
    (hs : (Shadow_MatchTopicString (some topic) topicLength pMessageType a (some l1)
      c (some l2)).status = SHADOW_SUCCESS) :
    ∃ n s,
      (Shadow_MatchTopicString (some topic) topicLength pMessageType a (some l1)
        c (some l2)).thingNameLength = some n ∧
      (Shadow_MatchTopicString (some topic) topicLength pMessageType a (some l1)
        c (some l2)).shadowNameLength = some s ∧
      1 ≤ n ∧ n + 32 ≤ topicLength ∧ (s = 0 ∨ (1 ≤ s ∧ n + s + 38 ≤ topicLength)) := by
  obtain ⟨t, thing, shadow, hne, hthing, hts, hss, hT, hR⟩ :=
    Shadow_MatchTopicString_success_inv topic topicLength pMessageType _ _ _ _ hmem h16 hs
  have hP : (cstr "$aws/things/").length = 12 := by decide
  have hN : (cstr "/shadow/name/").length = 13 := by decide
  have hC : (cstr "/shadow").length = 7 := by decide
  have hlit := messageLiteral_length_ge t hne
  have hpos : 0 < thing.length := List.length_pos.mpr hthing
  have hlen := congrArg List.length hT
  rw [List.length_take, Nat.min_eq_left hmem] at hlen
  refine ⟨thing.length, shadow.length, by rw [hR]; rfl, by rw [hR]; rfl, hpos, ?_, ?_⟩
  · unfold rootLiteral at hlen
    by_cases h : shadow.length > 0
    · rw [if_pos h] at hlen
      simp only [List.length_append, hP, hN] at hlen
      omega
    · rw [if_neg h] at hlen
      simp only [List.length_append, hP, hC] at hlen
      omega
  · unfold rootLiteral at hlen
    by_cases h : shadow.length > 0
    · right
      rw [if_pos h] at hlen
      simp only [List.length_append, hP, hN] at hlen
      exact ⟨h, by omega⟩
    · left; omega

/-- Witness of C20 (amended): the accepted topic with a 65-byte shadow name. -/
theorem C20_identifier_lengths_amended_witness :
    ∃ n s,
      (Shadow_MatchTopicString
        (some (cstr "$aws/things/T/shadow/name/" ++ List.replicate 65 ('s'.toNat) ++
          cstr "/get/accepted")) 104
        (some ShadowMessageTypeMaxNum) none (some 0) none (some 0)).thingNameLength = some n ∧
      (Shadow_MatchTopicString
        (some (cstr "$aws/things/T/shadow/name/" ++ List.replicate 65 ('s'.toNat) ++
          cstr "/get/accepted")) 104
        (some ShadowMessageTypeMaxNum) none (some 0) none (some 0)).shadowNameLength = some s ∧
      1 ≤ n ∧ n + 32 ≤ 104 ∧ (s = 0 ∨ (1 ≤ s ∧ n + s + 38 ≤ 104)) :=
  C20_identifier_lengths_amended
    (cstr "$aws/things/T/shadow/name/" ++ List.replicate 65 ('s'.toNat) ++ cstr "/get/accepted")
    104 (some ShadowMessageTypeMaxNum) none none 0 0 (by decide) (by decide)
    (by
      rw [Shadow_MatchTopicString_topic
        (cstr "$aws/things/T/shadow/name/" ++ List.replicate 65 ('s'.toNat) ++
          cstr "/get/accepted")
        (cstr "T") (List.replicate 65 ('s'.toNat)) 104 ShadowMessageTypeGetAccepted
        ShadowMessageTypeMaxNum none (some 0) none (some 0) (by decide) (by decide) (by decide)
        (by simp [List.mem_replicate]) (by rfl) (by rfl) (by decide)])

/-! ## Assembly results, header macros and read bounds -/

/-! ## Successful assembly -/

/-- A successful assembly, with readable names and a buffer of `bufferSize`
bytes, has valid parameters, fits the buffer, and writes the topic string in
front of the untouched rest of the buffer. -/
theorem Shadow_AssembleTopicString_success_inv (topicType : ShadowTopicStringType_t)
    (pThingName : Option (List Byte)) (tnl : Nat) (pShadowName : Option (List Byte)) (snl : Nat)
    (pTopicBuffer : Option (List Byte)) (bufferSize : Nat) (pOutLength : Option Nat)
    (h8a : tnl < 256) (h8b : snl < 256)
    (hthingMem : ∀ m, pThingName = some m → tnl ≤ m.length)
    (hshadowMem : ∀ m, pShadowName = some m → snl ≤ m.length)
    (hbufMem : ∀ m, pTopicBuffer = some m → bufferSize ≤ m.length)
    (hs : (Shadow_AssembleTopicString topicType pThingName tnl pShadowName snl pTopicBuffer
      bufferSize pOutLength).status = SHADOW_SUCCESS) :
    ∃ thing buffer ol0, pThingName = some thing ∧ pTopicBuffer = some buffer ∧
      pOutLength = some ol0 ∧ topicType < 11 ∧ tnl ≠ 0 ∧ tnl ≤ thing.length ∧
      snl ≤ (pShadowName.getD []).length ∧
      requiredLength topicType tnl snl ≤ bufferSize ∧ bufferSize ≤ buffer.length ∧
      Shadow_AssembleTopicString topicType pThingName tnl pShadowName snl pTopicBuffer
          bufferSize pOutLength =
        { status := SHADOW_SUCCESS
          topicBuffer := some (cstr "$aws/things/" ++ thing.take tnl ++
            (if snl > 0 then cstr "/shadow/name/" ++ (pShadowName.getD []).take snl
             else cstr "/shadow") ++ opLiteral topicType ++
            buffer.drop (requiredLength topicType tnl snl))
          outLength := some (requiredLength topicType tnl snl) } := by
  have hnb : ¬ (pTopicBuffer = none ∨ pThingName = none ∨ tnl = 0 ∨
      (pShadowName = none ∧ snl > 0) ∨
      topicType ≥ ShadowTopicStringTypeMaxNum ∨ pOutLength = none) := by
    intro hb
    rw [(Shadow_AssembleTopicString_bad _ _ _ _ _ _ _ _).mpr hb] at hs
    cases hs
  obtain ⟨thing, buffer, ol0, rfl, rfl, rfl, htn, hsh, hlt⟩ := assemble_valid_inv _ _ _ _ _ _ _ hnb
  have hv := Shadow_AssembleTopicString_valid topicType thing tnl pShadowName
    snl buffer bufferSize ol0 htn hsh hlt h8a h8b
  rw [hv] at hs ⊢
  by_cases hsmall : bufferSize < requiredLength topicType tnl snl
  · rw [if_pos hsmall] at hs; cases hs
  · rw [if_neg hsmall]
    have hsn : snl ≤ (pShadowName.getD []).length := by
      cases pShadowName with
      | none =>
        have : ¬ snl > 0 := fun h => hsh ⟨rfl, h⟩
        omega
      | some m => exact hshadowMem m rfl
    have hbl := hbufMem buffer rfl
    have hcreate := createShadowTopicString_eq topicType thing (pShadowName.getD []) buffer
      tnl snl hlt (hthingMem thing rfl) hsn h8a h8b (by omega)
    refine ⟨thing, buffer, ol0, rfl, rfl, rfl, hlt, htn, hthingMem thing rfl, hsn, by omega,
      hbl, ?_⟩
    rw [hcreate]

/-- The length of the topic string in front of the buffer is the required length. -/
theorem assembled_length (topicType : ShadowTopicStringType_t) (thing shadow : List Byte)
    (tnl snl : Nat) (htn : tnl ≤ thing.length) (hsn : snl ≤ shadow.length) :
    (cstr "$aws/things/" ++ thing.take tnl ++
      (if snl > 0 then cstr "/shadow/name/" ++ shadow.take snl else cstr "/shadow") ++
      opLiteral topicType).length = requiredLength topicType tnl snl := by
  have hP : (cstr "$aws/things/").length = 12 := by decide
  have hN : (cstr "/shadow/name/").length = 13 := by decide
  have hC : (cstr "/shadow").length = 7 := by decide
  unfold requiredLength
  by_cases hpos : snl > 0
  · simp only [hpos, if_true, List.length_append, List.length_take, hP, hN]
    omega
  · simp only [hpos, if_false, List.length_append, List.length_take, hP, hC]
    omega


/-! ## The header macros and the assembler -/

/-- Each length macro computes the required length of its topic type. -/
theorem topicLengthMacro_eq (topicType : ShadowTopicStringType_t) (tnl snl : Nat)
    (ht : topicType < 11) :
    topicLengthMacro topicType tnl snl = requiredLength topicType tnl snl := by
  have hG : SHADOW_OP_GET_LENGTH = 4 := by decide
  have hD : SHADOW_OP_DELETE_LENGTH = 7 := by decide
  have hU : SHADOW_OP_UPDATE_LENGTH = 7 := by decide
  have hA : SHADOW_SUFFIX_ACCEPTED_LENGTH = 9 := by decide
  have hR : SHADOW_SUFFIX_REJECTED_LENGTH = 9 := by decide
  have hDe : SHADOW_SUFFIX_DELTA_LENGTH = 6 := by decide
  have hDo : SHADOW_SUFFIX_DOCUMENTS_LENGTH = 10 := by decide
  have hN : SHADOW_SUFFIX_NULL_LENGTH = 0 := rfl
  have hP : SHADOW_PREFIX_LENGTH = 12 := by decide
  have hNR : SHADOW_NAMED_ROOT_LENGTH = 13 := by decide
  have hCR : SHADOW_CLASSIC_ROOT_LENGTH = 7 := by decide
  have h0 : (opLiteral 0).length = 4 := by decide
  have h1 : (opLiteral 1).length = 13 := by decide
  have h2 : (opLiteral 2).length = 13 := by decide
  have h3 : (opLiteral 3).length = 7 := by decide
  have h4 : (opLiteral 4).length = 16 := by decide
  have h5 : (opLiteral 5).length = 16 := by decide
  have h6 : (opLiteral 6).length = 7 := by decide
  have h7 : (opLiteral 7).length = 16 := by decide
  have h8 : (opLiteral 8).length = 16 := by decide
  have h9 : (opLiteral 9).length = 17 := by decide
  have h10 : (opLiteral 10).length = 13 := by decide
  interval_cases topicType <;>
    simp only [topicLengthMacro, SHADOW_TOPIC_LENGTH_GET, SHADOW_TOPIC_LENGTH_GET_ACCEPTED,
      SHADOW_TOPIC_LENGTH_GET_REJECTED, SHADOW_TOPIC_LENGTH_DELETE,
      SHADOW_TOPIC_LENGTH_DELETE_ACCEPTED, SHADOW_TOPIC_LENGTH_DELETE_REJECTED,
      SHADOW_TOPIC_LENGTH_UPDATE, SHADOW_TOPIC_LENGTH_UPDATE_ACCEPTED,
      SHADOW_TOPIC_LENGTH_UPDATE_REJECTED, SHADOW_TOPIC_LENGTH_UPDATE_DOCUMENTS,
      SHADOW_TOPIC_LENGTH_UPDATE_DELTA, SHADOW_TOPIC_LENGTH, requiredLength,
      hG, hD, hU, hA, hR, hDe, hDo, hN, hP, hNR, hCR, h0, h1, h2, h3, h4, h5, h6, h7, h8, h9,
      h10] <;>
    split_ifs <;> omega

/-- The macro `SHADOW_TOPIC_LENGTH_MAX` written out. -/
theorem SHADOW_TOPIC_LENGTH_MAX_eq (tnl snl : Nat) :
    SHADOW_TOPIC_LENGTH_MAX tnl snl = 12 + tnl + (if snl > 0 then 13 + snl else 7) + 17 := by
  have hU : SHADOW_OP_UPDATE_LENGTH = 7 := by decide
  have hDo : SHADOW_SUFFIX_DOCUMENTS_LENGTH = 10 := by decide
  have hP : SHADOW_PREFIX_LENGTH = 12 := by decide
  have hNR : SHADOW_NAMED_ROOT_LENGTH = 13 := by decide
  have hCR : SHADOW_CLASSIC_ROOT_LENGTH = 7 := by decide
  simp only [SHADOW_TOPIC_LENGTH_MAX, SHADOW_TOPIC_LENGTH, hU, hDo, hP, hNR, hCR]
  split_ifs <;> omega

/-- Only `UpdateDocuments` has an operation literal of 17 bytes. -/
theorem opLiteral_length_eq_max_iff (topicType : ShadowTopicStringType_t) (ht : topicType < 11) :
    (opLiteral topicType).length = 17 ↔ topicType = ShadowTopicStringTypeUpdateDocuments := by
  interval_cases topicType <;> decide

/-- Each string macro produces the topic string of its topic type. -/
theorem topicStringMacro_eq (topicType : ShadowTopicStringType_t) (thing shadow : List Byte)
    (ht : topicType < 11) :
    topicStringMacro topicType thing shadow =
      cstr "$aws/things/" ++ thing ++
        (if shadow.length > 0 then cstr "/shadow/name/" ++ shadow else cstr "/shadow") ++
        opLiteral topicType := by
  have hP : SHADOW_PREFIX = cstr "$aws/things/" := rfl
  have hN : SHADOW_NAMED_ROOT = cstr "/shadow/name/" := rfl
  have hC : SHADOW_CLASSIC_ROOT = cstr "/shadow" := rfl
  have h0 : SHADOW_OP_GET ++ SHADOW_SUFFIX_NULL = opLiteral 0 := by decide
  have h1 : SHADOW_OP_GET ++ SHADOW_SUFFIX_ACCEPTED = opLiteral 1 := by decide
  have h2 : SHADOW_OP_GET ++ SHADOW_SUFFIX_REJECTED = opLiteral 2 := by decide
  have h3 : SHADOW_OP_DELETE ++ SHADOW_SUFFIX_NULL = opLiteral 3 := by decide
  have h4 : SHADOW_OP_DELETE ++ SHADOW_SUFFIX_ACCEPTED = opLiteral 4 := by decide
  have h5 : SHADOW_OP_DELETE ++ SHADOW_SUFFIX_REJECTED = opLiteral 5 := by decide
  have h6 : SHADOW_OP_UPDATE ++ SHADOW_SUFFIX_NULL = opLiteral 6 := by decide
  have h7 : SHADOW_OP_UPDATE ++ SHADOW_SUFFIX_ACCEPTED = opLiteral 7 := by decide
  have h8 : SHADOW_OP_UPDATE ++ SHADOW_SUFFIX_REJECTED = opLiteral 8 := by decide
  have h9 : SHADOW_OP_UPDATE ++ SHADOW_SUFFIX_DOCUMENTS = opLiteral 9 := by decide
  have h10 : SHADOW_OP_UPDATE ++ SHADOW_SUFFIX_DELTA = opLiteral 10 := by decide
  have hsz : (sizeofLiteral shadow > 1) = (shadow.length > 0) := by
    unfold sizeofLiteral
    apply propext
    constructor <;> intro h <;> omega
  interval_cases topicType <;>
    simp only [topicStringMacro, SHADOW_TOPIC_STRING_GET, SHADOW_TOPIC_STRING_GET_ACCEPTED,
      SHADOW_TOPIC_STRING_GET_REJECTED, SHADOW_TOPIC_STRING_DELETE,
      SHADOW_TOPIC_STRING_DELETE_ACCEPTED, SHADOW_TOPIC_STRING_DELETE_REJECTED,
      SHADOW_TOPIC_STRING_UPDATE, SHADOW_TOPIC_STRING_UPDATE_ACCEPTED,
      SHADOW_TOPIC_STRING_UPDATE_REJECTED, SHADOW_TOPIC_STRING_UPDATE_DOCUMENTS,
      SHADOW_TOPIC_STRING_UPDATE_DELTA, SHADOW_TOPIC_STRING, hsz, hP, hN, hC,
      List.append_assoc, h0, h1, h2, h3, h4, h5, h6, h7, h8, h9, h10] <;>
    split_ifs <;> simp only [List.append_assoc]


/-! ## Bytes read by the two functions -/

/-- The function `memcpy` reads only the first `n` bytes of its source. -/
theorem memcpy_take (dest : List Byte) (offset : Nat) (src : List Byte) (n m : Nat)
    (hm : n ≤ m) : memcpy dest offset (src.take m) n = memcpy dest offset src n := by
  induction n with
  | zero => rfl
  | succ k ih =>
    have hk : k < m := by omega
    rw [memcpy, memcpy, ih (by omega)]
    congr 1
    rw [List.getD_eq_getElem?_getD, List.getD_eq_getElem?_getD, List.getElem?_take_of_lt hk]

/-- Two sources with the same first `n` bytes give the same copy. -/
theorem memcpy_congr (dest : List Byte) (offset : Nat) (src1 src2 : List Byte) (n : Nat)
    (h : src1.take n = src2.take n) : memcpy dest offset src1 n = memcpy dest offset src2 n := by
  rw [← memcpy_take dest offset src1 n n (Nat.le_refl _),
    ← memcpy_take dest offset src2 n n (Nat.le_refl _), h]

/-- The function `createShadowTopicString` reads only the first `thingNameLength`
bytes of the thing name and the first `shadowNameLength` bytes of the shadow
name. -/
theorem createShadowTopicString_congr (topicType : ShadowTopicStringType_t)
    (thing1 thing2 shadow1 shadow2 buffer : List Byte) (tnl snl : Nat)
    (hthing : thing1.take tnl = thing2.take tnl) (hshadow : shadow1.take snl = shadow2.take snl) :
    createShadowTopicString topicType thing1 tnl shadow1 snl buffer =
      createShadowTopicString topicType thing2 tnl shadow2 snl buffer := by
  unfold createShadowTopicString
  simp only [memcpy_congr _ _ thing1 thing2 tnl hthing,
    memcpy_congr _ _ shadow1 shadow2 snl hshadow]

/-- A name with a slash inside keeps its first part when bytes follow it. -/
theorem nameOf_append_of_mem (A B : List Byte) (h : '/'.toNat ∈ A) :
    nameOf (A ++ B) = nameOf A := by
  unfold nameOf
  induction A with
  | nil => cases h
  | cons x xs ih =>
    by_cases hx : x = '/'.toNat
    · subst hx
      simp [List.takeWhile]
    · have hxs : '/'.toNat ∈ xs := by
        rcases List.mem_cons.mp h with h1 | h1
        · exact absurd h1.symm hx
        · exact h1
      have hb : (x != '/'.toNat) = true := by simpa using hx
      rw [List.cons_append, List.takeWhile_cons, List.takeWhile_cons, hb]
      simp only [if_true]
      rw [ih hxs]

/-- The length of the first part of a name with a slash inside. -/
theorem nameOf_length_lt (A : List Byte) (h : '/'.toNat ∈ A) :
    (nameOf A).length < A.length := by
  rcases Nat.lt_or_ge (nameOf A).length A.length with hlt | hge
  · exact hlt
  · exfalso
    have hle := nameOf_length_le A
    have heq : nameOf A = A := by
      have h1 := nameOf_append_afterName A
      have h2 : (afterName A).length = 0 := by
        have := congrArg List.length h1
        rw [List.length_append] at this
        omega
      rw [List.length_eq_zero.mp h2, List.append_nil] at h1
      exact h1
    have := nameOf_not_mem A
    rw [heq] at this
    exact this h

/-- The outputs of `Shadow_MatchTopicString` as a function of its four optional
output pointers: status, message type and the stored values do not depend on
them. -/
theorem Shadow_MatchTopicString_shape (pTopic : Option (List Byte)) (tl : Nat)
    (pMessageType : Option ShadowMessageType_t) :
    ∃ (s : ShadowStatus_t) (m : Option ShadowMessageType_t) (n k sn : Nat),
      ∀ (a : Option CharPtr) (b : Option Nat) (c : Option CharPtr) (d : Option Nat),
        Shadow_MatchTopicString pTopic tl pMessageType a b c d =
          if s = SHADOW_SUCCESS then
            { status := s
              messageType := m
              thingName := a.map (fun _ => CharPtr.topicAt SHADOW_PREFIX_LENGTH)
              thingNameLength := b.map (fun _ => n)
              shadowName := c.map (fun _ => CharPtr.topicAt k)
              shadowNameLength := d.map (fun _ => sn) }
          else
            { status := s, messageType := m, thingName := a, thingNameLength := b,
              shadowName := c, shadowNameLength := d } :=
  ⟨_, _, _, _, _, fun _ _ _ _ => rfl⟩


/-- The function `Shadow_AssembleTopicString` reads only the first
`thingNameLength` bytes of the thing name and the first `shadowNameLength` bytes
of the shadow name. -/
theorem Shadow_AssembleTopicString_congr (topicType : ShadowTopicStringType_t)
    (pThing1 pThing2 pShadow1 pShadow2 : Option (List Byte)) (tnl snl : Nat)
    (pTopicBuffer : Option (List Byte)) (bufferSize : Nat) (pOutLength : Option Nat)
    (hn1 : pThing1 = none ↔ pThing2 = none)
    (ht : (pThing1.getD []).take tnl = (pThing2.getD []).take tnl)
    (hn2 : pShadow1 = none ↔ pShadow2 = none)
    (hs : (pShadow1.getD []).take snl = (pShadow2.getD []).take snl) :
    Shadow_AssembleTopicString topicType pThing1 tnl pShadow1 snl pTopicBuffer bufferSize
        pOutLength =
      Shadow_AssembleTopicString topicType pThing2 tnl pShadow2 snl pTopicBuffer bufferSize
        pOutLength := by
  have hc := fun buffer => createShadowTopicString_congr topicType (pThing1.getD [])
    (pThing2.getD []) (pShadow1.getD []) (pShadow2.getD []) buffer tnl snl ht hs
  unfold Shadow_AssembleTopicString
  simp only [hn1, hn2, hc]

/-- The status and the stored length of `Shadow_AssembleTopicString` do not
depend on the bytes of the names or of the buffer. -/
theorem Shadow_AssembleTopicString_outcome (topicType : ShadowTopicStringType_t)
    (pThing1 pThing2 pShadow1 pShadow2 : Option (List Byte)) (tnl snl : Nat)
    (pBuffer1 pBuffer2 : Option (List Byte)) (bufferSize : Nat) (pOutLength : Option Nat)
    (hn1 : pThing1 = none ↔ pThing2 = none) (hn2 : pShadow1 = none ↔ pShadow2 = none)
    (hn3 : pBuffer1 = none ↔ pBuffer2 = none) :
    (Shadow_AssembleTopicString topicType pThing1 tnl pShadow1 snl pBuffer1 bufferSize
        pOutLength).status =
      (Shadow_AssembleTopicString topicType pThing2 tnl pShadow2 snl pBuffer2 bufferSize
        pOutLength).status ∧
    (Shadow_AssembleTopicString topicType pThing1 tnl pShadow1 snl pBuffer1 bufferSize
        pOutLength).outLength =
      (Shadow_AssembleTopicString topicType pThing2 tnl pShadow2 snl pBuffer2 bufferSize
        pOutLength).outLength := by
  unfold Shadow_AssembleTopicString
  simp only [hn1, hn2, hn3]
  split_ifs <;> exact ⟨rfl, rfl⟩

/-- The length `getShadowOperationLength` returns is that of the string
`getShadowOperationString` returns, also outside the enumeration. -/
theorem getShadowOperationLength_eq_length (topicType : ShadowTopicStringType_t) :
    getShadowOperationLength topicType = (getShadowOperationString topicType).length := by
  by_cases h : topicType < 11
  · obtain ⟨h1, h2⟩ := getShadowOperation_eq topicType h
    rw [h1, h2]
  · have hne : ∀ k : Nat, k < 11 → ¬ topicType = k := by
      intro k hk e
      exact h (e ▸ hk)
    unfold getShadowOperationLength getShadowOperationString
    rw [if_neg (hne 0 (by decide)), if_neg (hne 1 (by decide)), if_neg (hne 2 (by decide)),
      if_neg (hne 3 (by decide)), if_neg (hne 4 (by decide)), if_neg (hne 5 (by decide)),
      if_neg (hne 6 (by decide)), if_neg (hne 7 (by decide)), if_neg (hne 8 (by decide)),
      if_neg (hne 9 (by decide)), if_neg (hne 0 (by decide)), if_neg (hne 1 (by decide)),
      if_neg (hne 2 (by decide)),
      if_neg (hne 3 (by decide)), if_neg (hne 4 (by decide)), if_neg (hne 5 (by decide)),
      if_neg (hne 6 (by decide)), if_neg (hne 7 (by decide)), if_neg (hne 8 (by decide)),
      if_neg (hne 9 (by decide))]
    rfl


/-- C21 (no terminating null): whenever the assembler succeeds, `*pOutLength` is
at most `bufferSize`, the buffer keeps its size, and every buffer byte at an
index `>= *pOutLength` is unchanged, so no NUL terminator is written; a buffer
of exactly the topic length suffices, and in the scenario with one spare byte
`x` after the 41 topic bytes that byte is still `x`. -/
theorem C21_no_terminating_null (topicType : ShadowTopicStringType_t)
    (pThingName : Option (List Byte)) (thingNameLength : Nat)
    (pShadowName : Option (List Byte)) (shadowNameLength : Nat)
    (pTopicBuffer : Option (List Byte)) (bufferSize : Nat) (pOutLength : Option Nat)
    (h8a : thingNameLength < 256) (h8b : shadowNameLength < 256)
    (hthingMem : ∀ m, pThingName = some m → thingNameLength ≤ m.length)
    (hshadowMem : ∀ m, pShadowName = some m → shadowNameLength ≤ m.length)
    (hbufMem : ∀ m, pTopicBuffer = some m → bufferSize ≤ m.length)
    (hs : (Shadow_AssembleTopicString topicType pThingName thingNameLength pShadowName
      shadowNameLength pTopicBuffer bufferSize pOutLength).status = SHADOW_SUCCESS) :
    (∃ buffer out n, pTopicBuffer = some buffer ∧
      (Shadow_AssembleTopicString topicType pThingName thingNameLength pShadowName
        shadowNameLength pTopicBuffer bufferSize pOutLength).topicBuffer = some out ∧
      (Shadow_AssembleTopicString topicType pThingName thingNameLength pShadowName
        shadowNameLength pTopicBuffer bufferSize pOutLength).outLength = some n ∧
      n ≤ bufferSize ∧ out.length = buffer.length ∧ out.drop n = buffer.drop n ∧
      ∀ i, n ≤ i → out[i]? = buffer[i]?) ∧
    Shadow_AssembleTopicString ShadowTopicStringTypeUpdateAccepted (some (cstr "Thing1")) 6
        (some []) 0 (some (List.replicate 42 ('x'.toNat))) 41 (some 0) =
      { status := SHADOW_SUCCESS
        topicBuffer := some (cstr "$aws/things/Thing1/shadow/update/accepted" ++ cstr "x")
        outLength := some 41 } ∧
    Shadow_AssembleTopicString ShadowTopicStringTypeUpdateAccepted (some (cstr "Thing1")) 6
        (some []) 0 (some (List.replicate 41 ('x'.toNat))) 41 (some 0) =
      { status := SHADOW_SUCCESS
        topicBuffer := some (cstr "$aws/things/Thing1/shadow/update/accepted")
        outLength := some 41 } := by
  refine ⟨?_, by decide, by decide⟩
  obtain ⟨thing, buffer, ol0, rfl, rfl, rfl, hlt, htn, htl, hsl, hreq, hbl, hR⟩ :=
    Shadow_AssembleTopicString_success_inv topicType pThingName thingNameLength pShadowName
      shadowNameLength pTopicBuffer bufferSize pOutLength h8a h8b hthingMem hshadowMem hbufMem hs
  have hlen := assembled_length topicType thing (pShadowName.getD []) thingNameLength
    shadowNameLength htl hsl
  rw [hR]
  refine ⟨buffer, _, _, rfl, rfl, rfl, hreq, ?_, ?_, ?_⟩
  · rw [List.length_append, hlen, List.length_drop]
    omega
  · exact List.drop_left' hlen
  · intro i hi
    rw [List.getElem?_append_right (by rw [hlen]; exact hi), hlen, List.getElem?_drop]
    congr 1
    omega

/-- Witness of C21: `GetAccepted` for thing `Thing1` and shadow `Shadow1` in a
buffer of 60 bytes `x`, 51 of them declared. -/
theorem C21_no_terminating_null_witness :
    (Shadow_AssembleTopicString ShadowTopicStringTypeGetAccepted (some (cstr "Thing1")) 6
      (some (cstr "Shadow1")) 7 (some (List.replicate 60 ('x'.toNat))) 51 (some 0)).status
        = SHADOW_SUCCESS ∧
    ∃ buffer out n, some (List.replicate 60 ('x'.toNat)) = some buffer ∧
      (Shadow_AssembleTopicString ShadowTopicStringTypeGetAccepted (some (cstr "Thing1")) 6
        (some (cstr "Shadow1")) 7 (some (List.replicate 60 ('x'.toNat))) 51
        (some 0)).topicBuffer = some out ∧
      (Shadow_AssembleTopicString ShadowTopicStringTypeGetAccepted (some (cstr "Thing1")) 6
        (some (cstr "Shadow1")) 7 (some (List.replicate 60 ('x'.toNat))) 51
        (some 0)).outLength = some n ∧
      n ≤ 51 ∧ out.length = buffer.length ∧ out.drop n = buffer.drop n ∧
      ∀ i, n ≤ i → out[i]? = buffer[i]? :=
  ⟨by decide,
    (C21_no_terminating_null ShadowTopicStringTypeGetAccepted (some (cstr "Thing1")) 6
      (some (cstr "Shadow1")) 7 (some (List.replicate 60 ('x'.toNat))) 51 (some 0)
      (by decide) (by decide)
      (by intro m hm; cases hm; decide) (by intro m hm; cases hm; decide)
      (by intro m hm; cases hm; decide) (by decide)).1⟩


/-- C22 (`SHADOW_TOPIC_LENGTH_MAX` is the longest topic): for each of the eleven
topic types, `thingNameLength` in 1..255 and `shadowNameLength` in 0..255, the
length the assembler computes is at most
`SHADOW_TOPIC_LENGTH_MAX(thingNameLength, shadowNameLength)`, with equality
exactly for `UpdateDocuments`; with valid parameters a buffer of that many bytes
is never reported as too small. -/
theorem C22_topic_length_max (topicType : ShadowTopicStringType_t)
    (pThingName : Option (List Byte)) (thingNameLength : Nat)
    (pShadowName : Option (List Byte)) (shadowNameLength : Nat)
    (pTopicBuffer : Option (List Byte)) (pOutLength : Option Nat)
    (ht : topicType < ShadowTopicStringTypeMaxNum)
    (h1 : 1 ≤ thingNameLength) (h8a : thingNameLength ≤ 255) (h8b : shadowNameLength ≤ 255) :
    (SHADOW_PREFIX_LENGTH + thingNameLength +
        (if shadowNameLength > 0 then SHADOW_NAMED_ROOT_LENGTH + shadowNameLength
         else SHADOW_CLASSIC_ROOT_LENGTH) + getShadowOperationLength topicType) % 65536
      ≤ SHADOW_TOPIC_LENGTH_MAX thingNameLength shadowNameLength ∧
    ((SHADOW_PREFIX_LENGTH + thingNameLength +
        (if shadowNameLength > 0 then SHADOW_NAMED_ROOT_LENGTH + shadowNameLength
         else SHADOW_CLASSIC_ROOT_LENGTH) + getShadowOperationLength topicType) % 65536
      = SHADOW_TOPIC_LENGTH_MAX thingNameLength shadowNameLength ↔
        topicType = ShadowTopicStringTypeUpdateDocuments) ∧
    (¬ (pTopicBuffer = none ∨ pThingName = none ∨ thingNameLength = 0 ∨
        (pShadowName = none ∧ shadowNameLength > 0) ∨
        topicType ≥ ShadowTopicStringTypeMaxNum ∨ pOutLength = none) →
      (Shadow_AssembleTopicString topicType pThingName thingNameLength pShadowName
        shadowNameLength pTopicBuffer
        (SHADOW_TOPIC_LENGTH_MAX thingNameLength shadowNameLength) pOutLength).status
          = SHADOW_SUCCESS) := by
  have hlt : topicType < 11 := ht
  obtain ⟨_, hol⟩ := getShadowOperation_eq topicType hlt
  have hop := opLiteral_length_le topicType
  have hPL : SHADOW_PREFIX_LENGTH = 12 := by decide
  have hNL : SHADOW_NAMED_ROOT_LENGTH = 13 := by decide
  have hCL : SHADOW_CLASSIC_ROOT_LENGTH = 7 := by decide
  have hmax := SHADOW_TOPIC_LENGTH_MAX_eq thingNameLength shadowNameLength
  have hiff := opLiteral_length_eq_max_iff topicType hlt
  have hgen : (SHADOW_PREFIX_LENGTH + thingNameLength +
      (if shadowNameLength > 0 then SHADOW_NAMED_ROOT_LENGTH + shadowNameLength
       else SHADOW_CLASSIC_ROOT_LENGTH) + getShadowOperationLength topicType) % 65536 =
      requiredLength topicType thingNameLength shadowNameLength := by
    unfold requiredLength
    rw [hPL, hNL, hCL, hol]
    apply Nat.mod_eq_of_lt
    by_cases hs : shadowNameLength > 0
    · rw [if_pos hs]; omega
    · rw [if_neg hs]; omega
  have hreq : requiredLength topicType thingNameLength shadowNameLength + 17 =
      SHADOW_TOPIC_LENGTH_MAX thingNameLength shadowNameLength + (opLiteral topicType).length := by
    rw [hmax]; unfold requiredLength; omega
  rw [hgen]
  refine ⟨by omega, ?_, ?_⟩
  · rw [← hiff]
    constructor <;> intro h <;> omega
  · intro hvalid
    obtain ⟨thing, buffer, ol0, rfl, rfl, rfl, htn, hsh, _⟩ :=
      assemble_valid_inv _ _ _ _ _ _ _ hvalid
    rw [Shadow_AssembleTopicString_valid topicType thing thingNameLength pShadowName
      shadowNameLength buffer _ ol0 htn hsh hlt (by omega) (by omega), if_neg (by omega)]

/-- Witness of C22: `UpdateDocuments` with a thing name of 255 bytes and a shadow
name of 255 bytes reaches the maximum 552. -/
theorem C22_topic_length_max_witness :
    (SHADOW_PREFIX_LENGTH + 255 +
        (if 255 > 0 then SHADOW_NAMED_ROOT_LENGTH + 255 else SHADOW_CLASSIC_ROOT_LENGTH) +
        getShadowOperationLength ShadowTopicStringTypeUpdateDocuments) % 65536
      ≤ SHADOW_TOPIC_LENGTH_MAX 255 255 ∧
    SHADOW_TOPIC_LENGTH_MAX 255 255 = 552 :=
  ⟨(C22_topic_length_max ShadowTopicStringTypeUpdateDocuments none 255 none 255 none none
      (by decide) (by decide) (by decide) (by decide)).1,
    by decide⟩

/-- C23 (length macros agree with the assembler): for each of the eleven topic
types `T`, the length the assembler stores in `*pOutLength` on success is the
value of the header macro `SHADOW_TOPIC_LENGTH_<T>(thingNameLength,
shadowNameLength)`. -/
theorem C23_length_macros_agree (topicType : ShadowTopicStringType_t)
    (pThingName : Option (List Byte)) (thingNameLength : Nat)
    (pShadowName : Option (List Byte)) (shadowNameLength : Nat)
    (pTopicBuffer : Option (List Byte)) (bufferSize : Nat) (pOutLength : Option Nat)
    (h8a : thingNameLength < 256) (h8b : shadowNameLength < 256)
    (hs : (Shadow_AssembleTopicString topicType pThingName thingNameLength pShadowName
      shadowNameLength pTopicBuffer bufferSize pOutLength).status = SHADOW_SUCCESS) :
    (Shadow_AssembleTopicString topicType pThingName thingNameLength pShadowName
      shadowNameLength pTopicBuffer bufferSize pOutLength).outLength =
        some (topicLengthMacro topicType thingNameLength shadowNameLength) ∧
    topicType < ShadowTopicStringTypeMaxNum := by
  have hnb : ¬ (pTopicBuffer = none ∨ pThingName = none ∨ thingNameLength = 0 ∨
      (pShadowName = none ∧ shadowNameLength > 0) ∨
      topicType ≥ ShadowTopicStringTypeMaxNum ∨ pOutLength = none) := by
    intro hb
    rw [(Shadow_AssembleTopicString_bad _ _ _ _ _ _ _ _).mpr hb] at hs
    cases hs
  obtain ⟨thing, buffer, ol0, rfl, rfl, rfl, htn, hsh, hlt⟩ := assemble_valid_inv _ _ _ _ _ _ _ hnb
  have hv := Shadow_AssembleTopicString_valid topicType thing thingNameLength pShadowName
    shadowNameLength buffer bufferSize ol0 htn hsh hlt h8a h8b
  rw [hv] at hs ⊢
  by_cases hsmall : bufferSize < requiredLength topicType thingNameLength shadowNameLength
  · rw [if_pos hsmall] at hs; cases hs
  · rw [if_neg hsmall, topicLengthMacro_eq topicType _ _ hlt]
    exact ⟨rfl, hlt⟩

/-- Witness of C23: `UpdateDelta` for thing `Thing1` and shadow `Shadow1`, where
`SHADOW_TOPIC_LENGTH_UPDATE_DELTA( 6, 7 )` is 51. -/
theorem C23_length_macros_agree_witness :
    (Shadow_AssembleTopicString ShadowTopicStringTypeUpdateDelta (some (cstr "Thing1")) 6
      (some (cstr "Shadow1")) 7 (some (List.replicate 64 0)) 64 (some 0)).status
        = SHADOW_SUCCESS ∧
    (Shadow_AssembleTopicString ShadowTopicStringTypeUpdateDelta (some (cstr "Thing1")) 6
      (some (cstr "Shadow1")) 7 (some (List.replicate 64 0)) 64 (some 0)).outLength
        = some (topicLengthMacro ShadowTopicStringTypeUpdateDelta 6 7) ∧
    topicLengthMacro ShadowTopicStringTypeUpdateDelta 6 7 = SHADOW_TOPIC_LENGTH_UPDATE_DELTA 6 7 ∧
    SHADOW_TOPIC_LENGTH_UPDATE_DELTA 6 7 = 51 :=
  ⟨by decide,
    (C23_length_macros_agree ShadowTopicStringTypeUpdateDelta (some (cstr "Thing1")) 6
      (some (cstr "Shadow1")) 7 (some (List.replicate 64 0)) 64 (some 0) (by decide) (by decide)
      (by decide)).1,
    rfl, by decide⟩

/-- C24 (compile-time and run-time assembly agree): for each of the eleven topic
types `T`, every non-empty thing name and every shadow name (empty, or a null
pointer, for classic), the `*pOutLength` bytes the assembler writes on success
are the string of the header macro `SHADOW_TOPIC_STRING_<T>(thingName,
shadowName)`, which is the named form when the shadow name literal is non-empty
and the classic form otherwise. -/
theorem C24_string_macros_agree (topicType : ShadowTopicStringType_t)
    (thing shadow : List Byte) (pShadowName : Option (List Byte)) (buffer : List Byte)
    (bufferSize outLength0 : Nat)
    (hshadow : pShadowName.getD [] = shadow)
    (h8a : thing.length < 256) (h8b : shadow.length < 256)
    (hmem : bufferSize ≤ buffer.length)
    (hs : (Shadow_AssembleTopicString topicType (some thing) thing.length pShadowName
      shadow.length (some buffer) bufferSize (some outLength0)).status = SHADOW_SUCCESS) :
    ∃ out n,
      (Shadow_AssembleTopicString topicType (some thing) thing.length pShadowName
        shadow.length (some buffer) bufferSize (some outLength0)).topicBuffer = some out ∧
      (Shadow_AssembleTopicString topicType (some thing) thing.length pShadowName
        shadow.length (some buffer) bufferSize (some outLength0)).outLength = some n ∧
      n = (topicStringMacro topicType thing shadow).length ∧
      out.take n = topicStringMacro topicType thing shadow ∧
      topicStringMacro topicType thing shadow =
        (if sizeofLiteral shadow > 1 then
          SHADOW_PREFIX ++ thing ++ SHADOW_NAMED_ROOT ++ shadow ++ opLiteral topicType
         else SHADOW_PREFIX ++ thing ++ SHADOW_CLASSIC_ROOT ++ opLiteral topicType) := by
  obtain ⟨thing', buffer', ol0, h1, h2, _, hlt, _, htl, hsl, _, _, hR⟩ :=
    Shadow_AssembleTopicString_success_inv topicType (some thing) thing.length pShadowName
      shadow.length (some buffer) bufferSize (some outLength0) h8a h8b
      (by intro m hm; cases hm; exact Nat.le_refl _)
      (by intro m hm; rw [hm] at hshadow; rw [← hshadow]; exact Nat.le_refl _)
      (by intro m hm; cases hm; exact hmem) hs
  cases h1
  cases h2
  have hlen := assembled_length topicType thing shadow thing.length shadow.length
    (Nat.le_refl _) (Nat.le_refl _)
  rw [hshadow] at hR
  simp only [List.take_length] at hR hlen
  have hstr := topicStringMacro_eq topicType thing shadow hlt
  rw [hR]
  refine ⟨_, _, rfl, rfl, ?_, ?_, ?_⟩
  · rw [hstr, hlen]
  · rw [hstr]
    exact List.take_left' hlen
  · rw [hstr]
    unfold sizeofLiteral
    by_cases hz : shadow.length > 0
    · rw [if_pos hz, if_pos (by omega)]
      simp only [List.append_assoc]
      rfl
    · rw [if_neg hz, if_neg (by omega)]
      rfl

/-- Witness of C24: `UpdateAccepted` for thing `Thing1` with the classic shadow,
given as a null pointer, where the macro gives
`$aws/things/Thing1/shadow/update/accepted`. -/
theorem C24_string_macros_agree_witness :
    SHADOW_TOPIC_STRING_UPDATE_ACCEPTED (cstr "Thing1") []
      = cstr "$aws/things/Thing1/shadow/update/accepted" ∧
    ∃ out n,
      (Shadow_AssembleTopicString ShadowTopicStringTypeUpdateAccepted (some (cstr "Thing1"))
        (cstr "Thing1").length none ([] : List Byte).length (some (List.replicate 64 0)) 64
        (some 0)).topicBuffer = some out ∧
      (Shadow_AssembleTopicString ShadowTopicStringTypeUpdateAccepted (some (cstr "Thing1"))
        (cstr "Thing1").length none ([] : List Byte).length (some (List.replicate 64 0)) 64
        (some 0)).outLength = some n ∧
      n = (topicStringMacro ShadowTopicStringTypeUpdateAccepted (cstr "Thing1") []).length ∧
      out.take n = topicStringMacro ShadowTopicStringTypeUpdateAccepted (cstr "Thing1") [] ∧
      topicStringMacro ShadowTopicStringTypeUpdateAccepted (cstr "Thing1") [] =
        (if sizeofLiteral ([] : List Byte) > 1 then
          SHADOW_PREFIX ++ cstr "Thing1" ++ SHADOW_NAMED_ROOT ++ [] ++
            opLiteral ShadowTopicStringTypeUpdateAccepted
         else SHADOW_PREFIX ++ cstr "Thing1" ++ SHADOW_CLASSIC_ROOT ++
            opLiteral ShadowTopicStringTypeUpdateAccepted) :=
  ⟨by decide,
    C24_string_macros_agree ShadowTopicStringTypeUpdateAccepted (cstr "Thing1") [] none
      (List.replicate 64 0) 64 0 rfl (by decide) (by decide) (by decide) (by decide)⟩


/-- C25 (no null terminator is needed on input): two topic buffers that agree
on their first `topicLength` bytes give identical results of
`Shadow_MatchTopicString` whatever follows those bytes, and the result is that
of the buffer cut after `topicLength` bytes; likewise
`Shadow_AssembleTopicString` gives identical results for names that agree on
their first `thingNameLength` and `shadowNameLength` bytes. -/
theorem C25_no_terminator_needed (topic1 topic2 : List Byte) (topicLength : Nat)
    (pMessageType : Option ShadowMessageType_t)
    (a : Option CharPtr) (b : Option Nat) (c : Option CharPtr) (d : Option Nat)
    (topicType : ShadowTopicStringType_t)
    (pThing1 pThing2 pShadow1 pShadow2 : Option (List Byte))
    (thingNameLength shadowNameLength : Nat)
    (pTopicBuffer : Option (List Byte)) (bufferSize : Nat) (pOutLength : Option Nat)
    (hagree : topic1.take topicLength = topic2.take topicLength)
    (hmem1 : topicLength ≤ topic1.length) (hmem2 : topicLength ≤ topic2.length)
    (h16 : topicLength < 65536)
    (hn1 : pThing1 = none ↔ pThing2 = none)
    (hthing : (pThing1.getD []).take thingNameLength = (pThing2.getD []).take thingNameLength)
    (hn2 : pShadow1 = none ↔ pShadow2 = none)
    (hshadow : (pShadow1.getD []).take shadowNameLength
      = (pShadow2.getD []).take shadowNameLength) :
    Shadow_MatchTopicString (some topic1) topicLength pMessageType a b c d =
      Shadow_MatchTopicString (some topic2) topicLength pMessageType a b c d ∧
    Shadow_MatchTopicString (some topic1) topicLength pMessageType a b c d =
      Shadow_MatchTopicString (some (topic1.take topicLength)) topicLength pMessageType a b c d ∧
    Shadow_AssembleTopicString topicType pThing1 thingNameLength pShadow1 shadowNameLength
        pTopicBuffer bufferSize pOutLength =
      Shadow_AssembleTopicString topicType pThing2 thingNameLength pShadow2 shadowNameLength
        pTopicBuffer bufferSize pOutLength := by
  have key : ∀ t1 t2 : List Byte, t1.take topicLength = t2.take topicLength →
      topicLength ≤ t1.length → topicLength ≤ t2.length →
      Shadow_MatchTopicString (some t1) topicLength pMessageType a b c d =
        Shadow_MatchTopicString (some t2) topicLength pMessageType a b c d := by
    intro t1 t2 ht h1 h2
    by_cases hbad : topicLength = 0 ∨ pMessageType = none
    · rw [Shadow_MatchTopicString_bad _ _ _ _ _ _ _ (Or.inr hbad),
        Shadow_MatchTopicString_bad _ _ _ _ _ _ _ (Or.inr hbad)]
    · have h0 : 0 < topicLength := by
        rcases Nat.eq_zero_or_pos topicLength with h | h
        · exact absurd (Or.inl h) hbad
        · exact h
      obtain ⟨mt, rfl⟩ : ∃ mt, pMessageType = some mt := by
        cases pMessageType with
        | none => exact absurd (Or.inr rfl) hbad
        | some mt => exact ⟨mt, rfl⟩
      rw [Shadow_MatchTopicString_eq_parse t1 topicLength mt a b c d h0 h1 h16,
        Shadow_MatchTopicString_eq_parse t2 topicLength mt a b c d h0 h2 h16, ht]
  refine ⟨key topic1 topic2 hagree hmem1 hmem2, ?_, ?_⟩
  · apply key topic1 (topic1.take topicLength)
    · rw [List.take_take, Nat.min_self]
    · exact hmem1
    · rw [List.length_take]; omega
  · exact Shadow_AssembleTopicString_congr topicType pThing1 pThing2 pShadow1 pShadow2
      thingNameLength shadowNameLength pTopicBuffer bufferSize pOutLength hn1 hthing hn2 hshadow

/-- Witness of C25: a 38-byte topic followed by `XYZ` or by a NUL and other
bytes, and the thing name `Thing1` followed by `/junk` or by nothing. -/
theorem C25_no_terminator_needed_witness :
    Shadow_MatchTopicString (some (cstr "$aws/things/Thing1/shadow/update/deltaXYZ")) 38
        (some ShadowMessageTypeMaxNum) (some CharPtr.null) (some 0) (some CharPtr.null) (some 0) =
      Shadow_MatchTopicString (some (cstr "$aws/things/Thing1/shadow/update/delta" ++ [0, 65])) 38
        (some ShadowMessageTypeMaxNum) (some CharPtr.null) (some 0) (some CharPtr.null) (some 0) ∧
    Shadow_MatchTopicString (some (cstr "$aws/things/Thing1/shadow/update/deltaXYZ")) 38
        (some ShadowMessageTypeMaxNum) (some CharPtr.null) (some 0) (some CharPtr.null) (some 0) =
      Shadow_MatchTopicString
        (some ((cstr "$aws/things/Thing1/shadow/update/deltaXYZ").take 38)) 38
        (some ShadowMessageTypeMaxNum) (some CharPtr.null) (some 0) (some CharPtr.null) (some 0) ∧
    Shadow_AssembleTopicString ShadowTopicStringTypeGet (some (cstr "Thing1/junk")) 6
        (some (cstr "S1xx")) 2 (some (List.replicate 40 0)) 40 (some 0) =
      Shadow_AssembleTopicString ShadowTopicStringTypeGet (some (cstr "Thing1")) 6
        (some (cstr "S1")) 2 (some (List.replicate 40 0)) 40 (some 0) :=
  C25_no_terminator_needed (cstr "$aws/things/Thing1/shadow/update/deltaXYZ")
    (cstr "$aws/things/Thing1/shadow/update/delta" ++ [0, 65]) 38
    (some ShadowMessageTypeMaxNum) (some CharPtr.null) (some 0) (some CharPtr.null) (some 0)
    ShadowTopicStringTypeGet (some (cstr "Thing1/junk")) (some (cstr "Thing1"))
    (some (cstr "S1xx")) (some (cstr "S1")) 6 2 (some (List.replicate 40 0)) 40 (some 0)
    (by decide) (by decide) (by decide) (by decide) (by decide) (by decide) (by decide)
    (by decide)

/-- C26 (optional outputs): the status `Shadow_MatchTopicString` returns and the
message type it stores are the same whichever of `pThingName`,
`pThingNameLength`, `pShadowName` and `pShadowNameLength` are null; each
non-null one of them receives the value it receives in the call where all four
are non-null, and a null one stays null. -/
theorem C26_optional_outputs (pTopic : Option (List Byte)) (topicLength : Nat)
    (pMessageType : Option ShadowMessageType_t)
    (a : Option CharPtr) (b : Option Nat) (c : Option CharPtr) (d : Option Nat)
    (x : CharPtr) (y : Nat) (z : CharPtr) (w : Nat) :
    (Shadow_MatchTopicString pTopic topicLength pMessageType a b c d).status =
      (Shadow_MatchTopicString pTopic topicLength pMessageType
        (some x) (some y) (some z) (some w)).status ∧
    (Shadow_MatchTopicString pTopic topicLength pMessageType a b c d).messageType =
      (Shadow_MatchTopicString pTopic topicLength pMessageType
        (some x) (some y) (some z) (some w)).messageType ∧
    (a = some x →
      (Shadow_MatchTopicString pTopic topicLength pMessageType a b c d).thingName =
        (Shadow_MatchTopicString pTopic topicLength pMessageType
          (some x) (some y) (some z) (some w)).thingName) ∧
    (b = some y →
      (Shadow_MatchTopicString pTopic topicLength pMessageType a b c d).thingNameLength =
        (Shadow_MatchTopicString pTopic topicLength pMessageType
          (some x) (some y) (some z) (some w)).thingNameLength) ∧
    (c = some z →
      (Shadow_MatchTopicString pTopic topicLength pMessageType a b c d).shadowName =
        (Shadow_MatchTopicString pTopic topicLength pMessageType
          (some x) (some y) (some z) (some w)).shadowName) ∧
    (d = some w →
      (Shadow_MatchTopicString pTopic topicLength pMessageType a b c d).shadowNameLength =
        (Shadow_MatchTopicString pTopic topicLength pMessageType
          (some x) (some y) (some z) (some w)).shadowNameLength) ∧
    (a = none →
      (Shadow_MatchTopicString pTopic topicLength pMessageType a b c d).thingName = none) ∧
    (b = none →
      (Shadow_MatchTopicString pTopic topicLength pMessageType a b c d).thingNameLength = none) ∧
    (c = none →
      (Shadow_MatchTopicString pTopic topicLength pMessageType a b c d).shadowName = none) ∧
    (d = none →
      (Shadow_MatchTopicString pTopic topicLength pMessageType a b c d).shadowNameLength
        = none) := by
  obtain ⟨s, m, n, k, sn, h⟩ := Shadow_MatchTopicString_shape pTopic topicLength pMessageType
  rw [h a b c d, h (some x) (some y) (some z) (some w)]
  by_cases hs : s = SHADOW_SUCCESS
  · rw [if_pos hs, if_pos hs]
    refine ⟨rfl, rfl, ?_, ?_, ?_, ?_, ?_, ?_, ?_, ?_⟩ <;> intro e <;> subst e <;> rfl
  · rw [if_neg hs, if_neg hs]
    refine ⟨rfl, rfl, ?_, ?_, ?_, ?_, ?_, ?_, ?_, ?_⟩ <;> intro e <;> subst e <;> rfl

/-- Witness of C26: the named topic of `Thing1` and `Shadow1` matched with only
`pThingNameLength` non-null, against the call with all outputs non-null. -/
theorem C26_optional_outputs_witness :
    (Shadow_MatchTopicString (some (cstr "$aws/things/Thing1/shadow/name/Shadow1/get/accepted"))
      51 (some ShadowMessageTypeMaxNum) none (some 0) none none).thingNameLength = some 6 ∧
    (Shadow_MatchTopicString (some (cstr "$aws/things/Thing1/shadow/name/Shadow1/get/accepted"))
      51 (some ShadowMessageTypeMaxNum) none (some 0) none none).thingNameLength =
    (Shadow_MatchTopicString (some (cstr "$aws/things/Thing1/shadow/name/Shadow1/get/accepted"))
      51 (some ShadowMessageTypeMaxNum) (some CharPtr.null) (some 0) (some CharPtr.null)
      (some 0)).thingNameLength :=
  ⟨by decide,
    (C26_optional_outputs (some (cstr "$aws/things/Thing1/shadow/name/Shadow1/get/accepted"))
      51 (some ShadowMessageTypeMaxNum) none (some 0) none none CharPtr.null 0 CharPtr.null
      0).2.2.2.1 rfl⟩

/-- C27 (idempotence of failure): when `Shadow_MatchTopicString` fails on a topic,
calling it again on the same bytes and length, with the outputs as the first
call left them, returns the same result; and the status is the same whatever
the output variables held before the call. -/
theorem C27_idempotent_failure (topic : List Byte) (topicLength : Nat)
    (mt mt' : ShadowMessageType_t)
    (a a' : Option CharPtr) (b b' : Option Nat) (c c' : Option CharPtr) (d d' : Option Nat)
    (hmem : topicLength ≤ topic.length) (h16 : topicLength < 65536)
    (hfail : (Shadow_MatchTopicString (some topic) topicLength (some mt) a b c d).status
      ≠ SHADOW_SUCCESS) :
    Shadow_MatchTopicString (some topic) topicLength
        (Shadow_MatchTopicString (some topic) topicLength (some mt) a b c d).messageType
        (Shadow_MatchTopicString (some topic) topicLength (some mt) a b c d).thingName
        (Shadow_MatchTopicString (some topic) topicLength (some mt) a b c d).thingNameLength
        (Shadow_MatchTopicString (some topic) topicLength (some mt) a b c d).shadowName
        (Shadow_MatchTopicString (some topic) topicLength (some mt) a b c d).shadowNameLength =
      Shadow_MatchTopicString (some topic) topicLength (some mt) a b c d ∧
    (Shadow_MatchTopicString (some topic) topicLength (some mt') a' b' c' d').status =
      (Shadow_MatchTopicString (some topic) topicLength (some mt) a b c d).status := by
  by_cases h0 : topicLength = 0
  · have hb := Shadow_MatchTopicString_bad (some topic) topicLength (some mt) a b c d
      (Or.inr (Or.inl h0))
    refine ⟨?_, ?_⟩
    · rw [hb]; exact hb
    · rw [hb, Shadow_MatchTopicString_bad (some topic) topicLength (some mt') a' b' c' d'
        (Or.inr (Or.inl h0))]
  · refine ⟨?_, ?_⟩
    · rcases Shadow_MatchTopicString_frame topic topicLength mt a b c d h0 with hs | ⟨s, hr, _⟩
      · exact absurd hs hfail
      · rw [hr]; exact hr
    · rw [Shadow_MatchTopicString_status topic topicLength mt' a' b' c' d'
          (Nat.pos_of_ne_zero h0) hmem h16,
        Shadow_MatchTopicString_status topic topicLength mt a b c d
          (Nat.pos_of_ne_zero h0) hmem h16]

/-- Witness of C27: a topic with an unknown root fails twice with
`SHADOW_ROOT_PARSE_FAILED`. -/
theorem C27_idempotent_failure_witness :
    (Shadow_MatchTopicString (some (cstr "$aws/things/Thing1/shade/get/accepted")) 37
      (some ShadowMessageTypeMaxNum) (some CharPtr.null) (some 0) (some CharPtr.null)
      (some 0)).status = SHADOW_ROOT_PARSE_FAILED ∧
    (Shadow_MatchTopicString (some (cstr "$aws/things/Thing1/shade/get/accepted")) 37
        (Shadow_MatchTopicString (some (cstr "$aws/things/Thing1/shade/get/accepted")) 37
          (some ShadowMessageTypeMaxNum) (some CharPtr.null) (some 0) (some CharPtr.null)
          (some 0)).messageType
        (Shadow_MatchTopicString (some (cstr "$aws/things/Thing1/shade/get/accepted")) 37
          (some ShadowMessageTypeMaxNum) (some CharPtr.null) (some 0) (some CharPtr.null)
          (some 0)).thingName
        (Shadow_MatchTopicString (some (cstr "$aws/things/Thing1/shade/get/accepted")) 37
          (some ShadowMessageTypeMaxNum) (some CharPtr.null) (some 0) (some CharPtr.null)
          (some 0)).thingNameLength
        (Shadow_MatchTopicString (some (cstr "$aws/things/Thing1/shade/get/accepted")) 37
          (some ShadowMessageTypeMaxNum) (some CharPtr.null) (some 0) (some CharPtr.null)
          (some 0)).shadowName
        (Shadow_MatchTopicString (some (cstr "$aws/things/Thing1/shade/get/accepted")) 37
          (some ShadowMessageTypeMaxNum) (some CharPtr.null) (some 0) (some CharPtr.null)
          (some 0)).shadowNameLength =
      Shadow_MatchTopicString (some (cstr "$aws/things/Thing1/shade/get/accepted")) 37
        (some ShadowMessageTypeMaxNum) (some CharPtr.null) (some 0) (some CharPtr.null)
        (some 0) ∧
    (Shadow_MatchTopicString (some (cstr "$aws/things/Thing1/shade/get/accepted")) 37
        (some ShadowMessageTypeGetAccepted) (some (CharPtr.topicAt 3)) (some 9) none none).status =
      (Shadow_MatchTopicString (some (cstr "$aws/things/Thing1/shade/get/accepted")) 37
        (some ShadowMessageTypeMaxNum) (some CharPtr.null) (some 0) (some CharPtr.null)
        (some 0)).status) :=
  ⟨by decide,
    C27_idempotent_failure (cstr "$aws/things/Thing1/shade/get/accepted") 37
      ShadowMessageTypeMaxNum ShadowMessageTypeGetAccepted
      (some CharPtr.null) (some (CharPtr.topicAt 3)) (some 0) (some 9) (some CharPtr.null) none
      (some 0) none (by decide) (by decide) (by decide)⟩


/-- C28 (embedded slash truncates): whenever `Shadow_MatchTopicString` succeeds,
the thing name it reports is the bytes from offset 12 up to the first `/` at or
after offset 12; so for a thing name containing `/` given to
`Shadow_AssembleTopicString`, matching the assembled topic either fails or
reports only the part before the first `/`, which is shorter than the original
name (thing name `a/shadow/name` with the classic shadow and `GetAccepted`
matches as thing `a`, shadow `shadow`). -/
theorem C28_embedded_slash_truncates (topic : List Byte) (topicLength : Nat)
    (pMessageType : Option ShadowMessageType_t) (x : CharPtr) (y : Nat)
    (c : Option CharPtr) (d : Option Nat)
    (topicType : ShadowTopicStringType_t) (thing : List Byte)
    (pShadowName : Option (List Byte)) (shadowNameLength : Nat)
    (buffer : List Byte) (bufferSize outLength0 : Nat) (mt : ShadowMessageType_t)
    (hmem : topicLength ≤ topic.length) (h16 : topicLength < 65536)
    (hs : (Shadow_MatchTopicString (some topic) topicLength pMessageType (some x) (some y)
      c d).status = SHADOW_SUCCESS)
    (hslash : '/'.toNat ∈ thing) (h8a : thing.length < 256) (h8b : shadowNameLength < 256)
    (hshadowMem : ∀ m, pShadowName = some m → shadowNameLength ≤ m.length)
    (hbufMem : bufferSize ≤ buffer.length)
    (ha : (Shadow_AssembleTopicString topicType (some thing) thing.length pShadowName
      shadowNameLength (some buffer) bufferSize (some outLength0)).status = SHADOW_SUCCESS) :
    (∃ n,
      (Shadow_MatchTopicString (some topic) topicLength pMessageType (some x) (some y)
        c d).thingName = some (CharPtr.topicAt 12) ∧
      (Shadow_MatchTopicString (some topic) topicLength pMessageType (some x) (some y)
        c d).thingNameLength = some n ∧
      12 + n < topicLength ∧
      spanBytes topic (CharPtr.topicAt 12) n = nameOf ((topic.take topicLength).drop 12) ∧
      '/'.toNat ∉ spanBytes topic (CharPtr.topicAt 12) n ∧
      topic[12 + n]? = some '/'.toNat) ∧
    (∃ out n,
      (Shadow_AssembleTopicString topicType (some thing) thing.length pShadowName
        shadowNameLength (some buffer) bufferSize (some outLength0)).topicBuffer = some out ∧
      (Shadow_AssembleTopicString topicType (some thing) thing.length pShadowName
        shadowNameLength (some buffer) bufferSize (some outLength0)).outLength = some n ∧
      ((Shadow_MatchTopicString (some out) n (some mt) (some x) (some y) c d).status
          ≠ SHADOW_SUCCESS ∨
        ((Shadow_MatchTopicString (some out) n (some mt) (some x) (some y) c d).thingNameLength
            = some (nameOf thing).length ∧
          spanBytes out (CharPtr.topicAt 12) (nameOf thing).length = nameOf thing ∧
          (nameOf thing).length < thing.length))) ∧
    (Shadow_AssembleTopicString ShadowTopicStringTypeGetAccepted (some (cstr "a/shadow/name")) 13
        none 0 (some (List.replicate 45 0)) 45 (some 0) =
      { status := SHADOW_SUCCESS
        topicBuffer := some (cstr "$aws/things/a/shadow/name/shadow/get/accepted")
        outLength := some 45 }) ∧
    (Shadow_MatchTopicString (some (cstr "$aws/things/a/shadow/name/shadow/get/accepted")) 45
        (some ShadowMessageTypeMaxNum) (some CharPtr.null) (some 0) (some CharPtr.null) (some 0) =
      { status := SHADOW_SUCCESS
        messageType := some ShadowMessageTypeGetAccepted
        thingName := some (CharPtr.topicAt 12)
        thingNameLength := some 1
        shadowName := some (CharPtr.topicAt 26)
        shadowNameLength := some 6 }) ∧
    spanBytes (cstr "$aws/things/a/shadow/name/shadow/get/accepted") (CharPtr.topicAt 12) 1
      = cstr "a" ∧
    spanBytes (cstr "$aws/things/a/shadow/name/shadow/get/accepted") (CharPtr.topicAt 26) 6
      = cstr "shadow" := by
  have hP : (cstr "$aws/things/").length = 12 := by decide
  refine ⟨?_, ?_, by decide, by decide, by decide, by decide⟩
  · obtain ⟨t, th, sh, _, _, hnot, _, htake, hR⟩ :=
      Shadow_MatchTopicString_success_inv topic topicLength pMessageType (some x) (some y) c d
        hmem h16 hs
    obtain ⟨r, hr⟩ := rootLiteral_cons sh
    have hlen := congrArg List.length htake
    rw [List.length_take, Nat.min_eq_left hmem] at hlen
    simp only [List.length_append, hP, hr, List.length_cons] at hlen
    have hdrop : (topic.take topicLength).drop 12 = th ++ '/'.toNat :: (r ++ messageLiteral t) := by
      rw [htake, hr, List.append_assoc, List.append_assoc, ← hP, List.drop_left]
      simp only [List.cons_append, List.append_assoc]
    have hname : nameOf ((topic.take topicLength).drop 12) = th := by
      rw [hdrop, nameOf_append_slash th _ hnot]
    have hspan : spanBytes topic (CharPtr.topicAt 12) th.length = th := by
      have h1 : ((topic.take topicLength).drop 12).take th.length = th := by
        rw [hdrop, List.take_left]
      have h2 : ((topic.take topicLength).drop 12).take th.length
          = (topic.drop 12).take th.length := by
        rw [List.drop_take, List.take_take, Nat.min_eq_left (by omega)]
      unfold spanBytes
      simp only
      rw [← h2, h1]
    refine ⟨th.length, ?_, ?_, by omega, ?_, ?_, ?_⟩
    · rw [hR]; rfl
    · rw [hR]; rfl
    · rw [hspan, hname]
    · rw [hspan]; exact hnot
    · have h3 : (topic.take topicLength)[12 + th.length]? = some '/'.toNat := by
        have h4 := congrArg (fun l => l[th.length]?) hdrop
        simp only [List.getElem?_drop] at h4
        rw [h4, getElem?_append_length]
      rw [List.getElem?_take_of_lt (by omega)] at h3
      exact h3
  · obtain ⟨thing', buffer', ol0, h1, h2, _, hlt, _, _, hsl, hreq, _, hR⟩ :=
      Shadow_AssembleTopicString_success_inv topicType (some thing) thing.length pShadowName
        shadowNameLength (some buffer) bufferSize (some outLength0) h8a h8b
        (by intro m hm; cases hm; exact Nat.le_refl _) hshadowMem
        (by intro m hm; cases hm; exact hbufMem) ha
    cases h1
    cases h2
    have hlen := assembled_length topicType thing (pShadowName.getD []) thing.length
      shadowNameLength (Nat.le_refl _) hsl
    simp only [List.take_length] at hR hlen
    have hop := opLiteral_length_le topicType
    have hn16 : requiredLength topicType thing.length shadowNameLength < 65536 := by
      unfold requiredLength
      by_cases hz : shadowNameLength > 0
      · rw [if_pos hz]; omega
      · rw [if_neg hz]; omega
    rw [hR]
    refine ⟨_, _, rfl, rfl, ?_⟩
    by_cases hm : (Shadow_MatchTopicString (some (cstr "$aws/things/" ++ thing ++
        (if shadowNameLength > 0 then
          cstr "/shadow/name/" ++ (pShadowName.getD []).take shadowNameLength
         else cstr "/shadow") ++ opLiteral topicType ++
        buffer.drop (requiredLength topicType thing.length shadowNameLength)))
        (requiredLength topicType thing.length shadowNameLength) (some mt) (some x) (some y)
        c d).status = SHADOW_SUCCESS
    · right
      obtain ⟨t, th, sh, _, _, hnot, _, htake, hM⟩ :=
        Shadow_MatchTopicString_success_inv _ _ (some mt) (some x) (some y) c d
          (by rw [List.length_append, hlen]; omega) hn16 hm
      rw [List.take_left' hlen] at htake
      obtain ⟨r, hr⟩ := rootLiteral_cons sh
      have hth : th = nameOf thing := by
        have h5 : thing ++ ((if shadowNameLength > 0 then
            cstr "/shadow/name/" ++ (pShadowName.getD []).take shadowNameLength
           else cstr "/shadow") ++ opLiteral topicType) =
            th ++ '/'.toNat :: (r ++ messageLiteral t) := by
          have h6 := htake
          rw [hr] at h6
          simp only [List.append_assoc, List.cons_append] at h6
          exact List.append_cancel_left h6
        have h7 := congrArg nameOf h5
        rw [nameOf_append_of_mem thing _ hslash, nameOf_append_slash th _ hnot] at h7
        exact h7.symm
      subst hth
      refine ⟨?_, ?_, nameOf_length_lt thing hslash⟩
      · rw [hM]; rfl
      · unfold spanBytes
        simp only
        have h8 : ∀ R : List Byte,
            ((cstr "$aws/things/" ++ (thing ++ R)).drop 12).take (nameOf thing).length
              = nameOf thing := by
          intro R
          have h9 : thing ++ R = nameOf thing ++ (afterName thing ++ R) := by
            rw [← List.append_assoc, nameOf_append_afterName]
          rw [← hP, List.drop_left, h9, List.take_left]
        simp only [List.append_assoc]
        exact h8 _
    · left
      exact hm

/-- Witness of C28: the matched topic `$aws/things/a/shadow/name/shadow/get/accepted`
and the thing name `a/shadow/name` assembled with the classic shadow. -/
theorem C28_embedded_slash_truncates_witness :
    (∃ n,
      (Shadow_MatchTopicString (some (cstr "$aws/things/a/shadow/name/shadow/get/accepted")) 45
        (some ShadowMessageTypeMaxNum) (some CharPtr.null) (some 0) (some CharPtr.null)
        (some 0)).thingName = some (CharPtr.topicAt 12) ∧
      (Shadow_MatchTopicString (some (cstr "$aws/things/a/shadow/name/shadow/get/accepted")) 45
        (some ShadowMessageTypeMaxNum) (some CharPtr.null) (some 0) (some CharPtr.null)
        (some 0)).thingNameLength = some n ∧
      12 + n < 45 ∧
      spanBytes (cstr "$aws/things/a/shadow/name/shadow/get/accepted") (CharPtr.topicAt 12) n
        = nameOf (((cstr "$aws/things/a/shadow/name/shadow/get/accepted").take 45).drop 12) ∧
      '/'.toNat ∉
        spanBytes (cstr "$aws/things/a/shadow/name/shadow/get/accepted") (CharPtr.topicAt 12) n ∧
      (cstr "$aws/things/a/shadow/name/shadow/get/accepted")[12 + n]? = some '/'.toNat) ∧
    (∃ out n,
      (Shadow_AssembleTopicString ShadowTopicStringTypeGetAccepted (some (cstr "a/shadow/name"))
        (cstr "a/shadow/name").length none 0 (some (List.replicate 45 0)) 45
        (some 0)).topicBuffer = some out ∧
      (Shadow_AssembleTopicString ShadowTopicStringTypeGetAccepted (some (cstr "a/shadow/name"))
        (cstr "a/shadow/name").length none 0 (some (List.replicate 45 0)) 45
        (some 0)).outLength = some n ∧
      ((Shadow_MatchTopicString (some out) n (some ShadowMessageTypeMaxNum) (some CharPtr.null)
          (some 0) (some CharPtr.null) (some 0)).status ≠ SHADOW_SUCCESS ∨
        ((Shadow_MatchTopicString (some out) n (some ShadowMessageTypeMaxNum)
            (some CharPtr.null) (some 0) (some CharPtr.null) (some 0)).thingNameLength
            = some (nameOf (cstr "a/shadow/name")).length ∧
          spanBytes out (CharPtr.topicAt 12) (nameOf (cstr "a/shadow/name")).length
            = nameOf (cstr "a/shadow/name") ∧
          (nameOf (cstr "a/shadow/name")).length < (cstr "a/shadow/name").length))) :=
  ⟨(C28_embedded_slash_truncates (cstr "$aws/things/a/shadow/name/shadow/get/accepted") 45
      (some ShadowMessageTypeMaxNum) CharPtr.null 0 (some CharPtr.null) (some 0)
      ShadowTopicStringTypeGetAccepted (cstr "a/shadow/name") none 0 (List.replicate 45 0) 45 0
      ShadowMessageTypeMaxNum (by decide) (by decide) (by decide) (by decide) (by decide)
      (by decide) (by intro m hm; cases hm) (by decide) (by decide)).1,
    (C28_embedded_slash_truncates (cstr "$aws/things/a/shadow/name/shadow/get/accepted") 45
      (some ShadowMessageTypeMaxNum) CharPtr.null 0 (some CharPtr.null) (some 0)
      ShadowTopicStringTypeGetAccepted (cstr "a/shadow/name") none 0 (List.replicate 45 0) 45 0
      ShadowMessageTypeMaxNum (by decide) (by decide) (by decide) (by decide) (by decide)
      (by decide) (by intro m hm; cases hm) (by decide) (by decide)).2.1⟩


/-- C29 (grammar tables are consistent): `getShadowOperationLength` returns the
byte length of the string `getShadowOperationString` returns; in the matcher's
tables `pMessageStringsLength[i]` is the byte length of `pMessageStrings[i]` and
`pMessageTypes[i]` is the message type naming that literal; and the eight
matcher literals are the assembler's literals for the eight result topic
types, in the order of the message types of the same names. -/
theorem C29_grammar_tables_consistent (topicType : ShadowTopicStringType_t) :
    getShadowOperationLength topicType = (getShadowOperationString topicType).length ∧
    pMessageStrings.length = 8 ∧
    pMessageStringsLength = pMessageStrings.map List.length ∧
    pMessageStrings = pMessageTypes.map messageLiteral ∧
    ShadowMessageTypeMaxNum ∉ pMessageTypes ∧
    pMessageStrings =
      [ShadowTopicStringTypeGetAccepted, ShadowTopicStringTypeGetRejected,
       ShadowTopicStringTypeDeleteAccepted, ShadowTopicStringTypeDeleteRejected,
       ShadowTopicStringTypeUpdateAccepted, ShadowTopicStringTypeUpdateRejected,
       ShadowTopicStringTypeUpdateDocuments, ShadowTopicStringTypeUpdateDelta].map
        getShadowOperationString ∧
    pMessageTypes.map some =
      [ShadowTopicStringTypeGetAccepted, ShadowTopicStringTypeGetRejected,
       ShadowTopicStringTypeDeleteAccepted, ShadowTopicStringTypeDeleteRejected,
       ShadowTopicStringTypeUpdateAccepted, ShadowTopicStringTypeUpdateRejected,
       ShadowTopicStringTypeUpdateDocuments, ShadowTopicStringTypeUpdateDelta].map
        resultMessageType ∧
    (List.range 11).filter (fun T => (resultMessageType T).isSome) =
      [ShadowTopicStringTypeGetAccepted, ShadowTopicStringTypeGetRejected,
       ShadowTopicStringTypeDeleteAccepted, ShadowTopicStringTypeDeleteRejected,
       ShadowTopicStringTypeUpdateAccepted, ShadowTopicStringTypeUpdateRejected,
       ShadowTopicStringTypeUpdateDocuments, ShadowTopicStringTypeUpdateDelta] := by
  exact ⟨getShadowOperationLength_eq_length topicType, rfl, rfl, rfl, by decide, rfl, rfl, rfl⟩

/-- C30 (the assembler does not enforce name limits or content): the status
`Shadow_AssembleTopicString` returns and the length it stores are the same for
any two thing names and any two shadow names with the same nullness, whatever
their bytes; with valid parameters, `thingNameLength` up to 255 and
`shadowNameLength` up to 255 and a buffer of the required length it succeeds,
whatever bytes the names hold. -/
theorem C30_assembler_no_name_limits (topicType : ShadowTopicStringType_t)
    (pThing1 pThing2 pShadow1 pShadow2 : Option (List Byte))
    (thingNameLength shadowNameLength : Nat)
    (pBuffer1 pBuffer2 : Option (List Byte)) (bufferSize : Nat) (pOutLength : Option Nat)
    (thing shadow buffer : List Byte) (outLength0 : Nat)
    (hn1 : pThing1 = none ↔ pThing2 = none) (hn2 : pShadow1 = none ↔ pShadow2 = none)
    (hn3 : pBuffer1 = none ↔ pBuffer2 = none)
    (ht : topicType < ShadowTopicStringTypeMaxNum)
    (h1 : 1 ≤ thingNameLength) (h8a : thingNameLength ≤ 255) (h8b : shadowNameLength ≤ 255)
    (hfit : requiredLength topicType thingNameLength shadowNameLength ≤ bufferSize) :
    (Shadow_AssembleTopicString topicType pThing1 thingNameLength pShadow1 shadowNameLength
        pBuffer1 bufferSize pOutLength).status =
      (Shadow_AssembleTopicString topicType pThing2 thingNameLength pShadow2 shadowNameLength
        pBuffer2 bufferSize pOutLength).status ∧
    (Shadow_AssembleTopicString topicType pThing1 thingNameLength pShadow1 shadowNameLength
        pBuffer1 bufferSize pOutLength).outLength =
      (Shadow_AssembleTopicString topicType pThing2 thingNameLength pShadow2 shadowNameLength
        pBuffer2 bufferSize pOutLength).outLength ∧
    (Shadow_AssembleTopicString topicType (some thing) thingNameLength (some shadow)
        shadowNameLength (some buffer) bufferSize (some outLength0)).status = SHADOW_SUCCESS ∧
    (Shadow_AssembleTopicString topicType (some thing) thingNameLength (some shadow)
        shadowNameLength (some buffer) bufferSize (some outLength0)).outLength =
      some (requiredLength topicType thingNameLength shadowNameLength) := by
  have hout := Shadow_AssembleTopicString_outcome topicType pThing1 pThing2 pShadow1 pShadow2
    thingNameLength shadowNameLength pBuffer1 pBuffer2 bufferSize pOutLength hn1 hn2 hn3
  have hv := Shadow_AssembleTopicString_valid topicType thing thingNameLength (some shadow)
    shadowNameLength buffer bufferSize outLength0 (by omega) (by simp) ht (by omega) (by omega)
  rw [hv, if_neg (by omega)]
  exact ⟨hout.1, hout.2, rfl, rfl⟩

/-- Witness of C30: a thing name of 255 slashes, longer than
`SHADOW_THINGNAME_LENGTH_MAX`, and a shadow name of 255 slashes, longer than
`SHADOW_NAME_LENGTH_MAX`, assemble like names of 255 letters. -/
theorem C30_assembler_no_name_limits_witness :
    SHADOW_THINGNAME_LENGTH_MAX < 255 ∧ SHADOW_NAME_LENGTH_MAX < 255 ∧
    (List.replicate 255 '/'.toNat).length = 255 ∧
    (Shadow_AssembleTopicString ShadowTopicStringTypeUpdateDelta
        (some (List.replicate 255 '/'.toNat)) 255 (some (List.replicate 255 '/'.toNat)) 255
        (some (List.replicate 600 0)) 600 (some 0)).status =
      (Shadow_AssembleTopicString ShadowTopicStringTypeUpdateDelta
        (some (List.replicate 255 'a'.toNat)) 255 (some (List.replicate 255 'b'.toNat)) 255
        (some (List.replicate 600 1)) 600 (some 0)).status ∧
    (Shadow_AssembleTopicString ShadowTopicStringTypeUpdateDelta
        (some (List.replicate 255 '/'.toNat)) 255 (some (List.replicate 255 '/'.toNat)) 255
        (some (List.replicate 600 0)) 600 (some 0)).outLength =
      (Shadow_AssembleTopicString ShadowTopicStringTypeUpdateDelta
        (some (List.replicate 255 'a'.toNat)) 255 (some (List.replicate 255 'b'.toNat)) 255
        (some (List.replicate 600 1)) 600 (some 0)).outLength ∧
    (Shadow_AssembleTopicString ShadowTopicStringTypeUpdateDelta
        (some (List.replicate 255 '/'.toNat)) 255 (some (List.replicate 255 '/'.toNat)) 255
        (some (List.replicate 600 0)) 600 (some 0)).status = SHADOW_SUCCESS ∧
    (Shadow_AssembleTopicString ShadowTopicStringTypeUpdateDelta
        (some (List.replicate 255 '/'.toNat)) 255 (some (List.replicate 255 '/'.toNat)) 255
        (some (List.replicate 600 0)) 600 (some 0)).outLength =
      some (requiredLength ShadowTopicStringTypeUpdateDelta 255 255) :=
  ⟨by decide, by decide, List.length_replicate _ _,
    C30_assembler_no_name_limits ShadowTopicStringTypeUpdateDelta
      (some (List.replicate 255 '/'.toNat)) (some (List.replicate 255 'a'.toNat))
      (some (List.replicate 255 '/'.toNat)) (some (List.replicate 255 'b'.toNat)) 255 255
      (some (List.replicate 600 0)) (some (List.replicate 600 1)) 600 (some 0)
      (List.replicate 255 '/'.toNat) (List.replicate 255 '/'.toNat) (List.replicate 600 0) 0
      ⟨fun h => Option.noConfusion h, fun h => Option.noConfusion h⟩
      ⟨fun h => Option.noConfusion h, fun h => Option.noConfusion h⟩
      ⟨fun h => Option.noConfusion h, fun h => Option.noConfusion h⟩
      (by decide) (by decide) (by decide) (by decide) (by decide)⟩

/-! ## Stages of the matcher -/

/-- The result of `Shadow_MatchTopicString` from the local variables of its
stages. -/
theorem Shadow_MatchTopicString_of_stages (pTopic : Option (List Byte)) (tl : Nat)
    (pMessageType : Option ShadowMessageType_t)
    (a : Option CharPtr) (b : Option Nat) (c : Option CharPtr) (d : Option Nat) :
    Shadow_MatchTopicString pTopic tl pMessageType a b c d =
      if (Shadow_MatchTopicString_stages pTopic tl pMessageType).shadowStatus4
          = SHADOW_SUCCESS then
        { status := (Shadow_MatchTopicString_stages pTopic tl pMessageType).shadowStatus4
          messageType := pMessageType.map (fun _ =>
            (Shadow_MatchTopicString_stages pTopic tl pMessageType).message.2)
          thingName := a.map (fun _ => CharPtr.topicAt SHADOW_PREFIX_LENGTH)
          thingNameLength := b.map (fun _ =>
            (Shadow_MatchTopicString_stages pTopic tl pMessageType).name.2)
          shadowName := c.map (fun _ => CharPtr.topicAt (SHADOW_PREFIX_LENGTH +
            (Shadow_MatchTopicString_stages pTopic tl pMessageType).name.2 +
            SHADOW_NAMED_ROOT_LENGTH))
          shadowNameLength := d.map (fun _ =>
            (Shadow_MatchTopicString_stages pTopic tl pMessageType).root.2.2) }
      else
        { status := (Shadow_MatchTopicString_stages pTopic tl pMessageType).shadowStatus4
          messageType := pMessageType.map (fun _ =>
            (Shadow_MatchTopicString_stages pTopic tl pMessageType).message.2)
          thingName := a
          thingNameLength := b
          shadowName := c
          shadowNameLength := d } := rfl

/-- The status of `Shadow_MatchTopicString` is the status after its last stage. -/
theorem Shadow_MatchTopicString_status_stages (pTopic : Option (List Byte)) (tl : Nat)
    (pMessageType : Option ShadowMessageType_t)
    (a : Option CharPtr) (b : Option Nat) (c : Option CharPtr) (d : Option Nat) :
    (Shadow_MatchTopicString pTopic tl pMessageType a b c d).status =
      (Shadow_MatchTopicString_stages pTopic tl pMessageType).shadowStatus4 := by
  rw [Shadow_MatchTopicString_of_stages]
  split_ifs <;> rfl

/-- The function `extractShadowMessageType` is its loop over the rows of its
three tables. -/
theorem extractShadowMessageType_eq_over (s : List Byte) (sl : Nat) (mt : ShadowMessageType_t) :
    extractShadowMessageType s sl mt =
      extractShadowMessageTypeOver s sl messageTable SHADOW_FAIL mt := rfl

/-- The local variables of the matcher in each of the four ways its first three
stages can end: bad parameters, no prefix, no thing name, or a thing name of
`n` bytes followed by the root and message type stages. -/
theorem Shadow_MatchTopicString_stages_cases (pTopic : Option (List Byte)) (tl : Nat)
    (pMessageType : Option ShadowMessageType_t) :
    (validateMatchTopicParameters pTopic tl pMessageType = SHADOW_BAD_PARAMETER ∧
      Shadow_MatchTopicString_stages pTopic tl pMessageType =
        { shadowStatus0 := SHADOW_BAD_PARAMETER
          shadowStatus1 := SHADOW_BAD_PARAMETER
          consumedTopicLength1 := 0
          name := (SHADOW_BAD_PARAMETER, 0)
          shadowStatus2 := SHADOW_BAD_PARAMETER
          consumedTopicLength2 := 0
          root := (SHADOW_BAD_PARAMETER, 0, 0)
          message := (SHADOW_BAD_PARAMETER, pMessageType.getD ShadowMessageTypeMaxNum)
          shadowStatus4 := SHADOW_BAD_PARAMETER }) ∨
    (validateMatchTopicParameters pTopic tl pMessageType = SHADOW_SUCCESS ∧
      containsSubString ((pTopic.getD []).drop 0) (u16sub tl 0) SHADOW_PREFIX
        SHADOW_PREFIX_LENGTH = SHADOW_FAIL ∧
      Shadow_MatchTopicString_stages pTopic tl pMessageType =
        { shadowStatus0 := SHADOW_SUCCESS
          shadowStatus1 := SHADOW_FAIL
          consumedTopicLength1 := 0
          name := (SHADOW_FAIL, 0)
          shadowStatus2 := SHADOW_FAIL
          consumedTopicLength2 := 0
          root := (SHADOW_FAIL, 0, 0)
          message := (SHADOW_FAIL, pMessageType.getD ShadowMessageTypeMaxNum)
          shadowStatus4 := SHADOW_FAIL }) ∨
    (validateMatchTopicParameters pTopic tl pMessageType = SHADOW_SUCCESS ∧
      containsSubString ((pTopic.getD []).drop 0) (u16sub tl 0) SHADOW_PREFIX
        SHADOW_PREFIX_LENGTH = SHADOW_SUCCESS ∧
      validateName ((pTopic.getD []).drop (u16add 0 SHADOW_PREFIX_LENGTH))
        (u16sub tl (u16add 0 SHADOW_PREFIX_LENGTH)) 0 = (SHADOW_FAIL, 0) ∧
      Shadow_MatchTopicString_stages pTopic tl pMessageType =
        { shadowStatus0 := SHADOW_SUCCESS
          shadowStatus1 := SHADOW_SUCCESS
          consumedTopicLength1 := u16add 0 SHADOW_PREFIX_LENGTH
          name := (SHADOW_FAIL, 0)
          shadowStatus2 := SHADOW_THINGNAME_PARSE_FAILED
          consumedTopicLength2 := u16add 0 SHADOW_PREFIX_LENGTH
          root := (SHADOW_THINGNAME_PARSE_FAILED, u16add 0 SHADOW_PREFIX_LENGTH, 0)
          message := (SHADOW_THINGNAME_PARSE_FAILED,
            pMessageType.getD ShadowMessageTypeMaxNum)
          shadowStatus4 := SHADOW_THINGNAME_PARSE_FAILED }) ∨
    (validateMatchTopicParameters pTopic tl pMessageType = SHADOW_SUCCESS ∧
      containsSubString ((pTopic.getD []).drop 0) (u16sub tl 0) SHADOW_PREFIX
        SHADOW_PREFIX_LENGTH = SHADOW_SUCCESS ∧
      ∃ n, validateName ((pTopic.getD []).drop (u16add 0 SHADOW_PREFIX_LENGTH))
          (u16sub tl (u16add 0 SHADOW_PREFIX_LENGTH)) 0 = (SHADOW_SUCCESS, n) ∧
        Shadow_MatchTopicString_stages pTopic tl pMessageType =
          { shadowStatus0 := SHADOW_SUCCESS
            shadowStatus1 := SHADOW_SUCCESS
            consumedTopicLength1 := u16add 0 SHADOW_PREFIX_LENGTH
            name := (SHADOW_SUCCESS, n)
            shadowStatus2 := SHADOW_SUCCESS
            consumedTopicLength2 := u16add (u16add 0 SHADOW_PREFIX_LENGTH) n
            root := extractShadowRootAndName (pTopic.getD []) tl
              (u16add (u16add 0 SHADOW_PREFIX_LENGTH) n) 0
            message :=
              if (extractShadowRootAndName (pTopic.getD []) tl
                  (u16add (u16add 0 SHADOW_PREFIX_LENGTH) n) 0).1 = SHADOW_SUCCESS then
                extractShadowMessageType
                  ((pTopic.getD []).drop (extractShadowRootAndName (pTopic.getD []) tl
                    (u16add (u16add 0 SHADOW_PREFIX_LENGTH) n) 0).2.1)
                  (u16sub tl (extractShadowRootAndName (pTopic.getD []) tl
                    (u16add (u16add 0 SHADOW_PREFIX_LENGTH) n) 0).2.1)
                  (pMessageType.getD ShadowMessageTypeMaxNum)
              else ((extractShadowRootAndName (pTopic.getD []) tl
                  (u16add (u16add 0 SHADOW_PREFIX_LENGTH) n) 0).1,
                pMessageType.getD ShadowMessageTypeMaxNum)
            shadowStatus4 :=
              if (extractShadowRootAndName (pTopic.getD []) tl
                  (u16add (u16add 0 SHADOW_PREFIX_LENGTH) n) 0).1 = SHADOW_SUCCESS then
                if (extractShadowMessageType
                    ((pTopic.getD []).drop (extractShadowRootAndName (pTopic.getD []) tl
                      (u16add (u16add 0 SHADOW_PREFIX_LENGTH) n) 0).2.1)
                    (u16sub tl (extractShadowRootAndName (pTopic.getD []) tl
                      (u16add (u16add 0 SHADOW_PREFIX_LENGTH) n) 0).2.1)
                    (pMessageType.getD ShadowMessageTypeMaxNum)).1 ≠ SHADOW_SUCCESS then
                  SHADOW_MESSAGE_TYPE_PARSE_FAILED
                else (extractShadowMessageType
                    ((pTopic.getD []).drop (extractShadowRootAndName (pTopic.getD []) tl
                      (u16add (u16add 0 SHADOW_PREFIX_LENGTH) n) 0).2.1)
                    (u16sub tl (extractShadowRootAndName (pTopic.getD []) tl
                      (u16add (u16add 0 SHADOW_PREFIX_LENGTH) n) 0).2.1)
                    (pMessageType.getD ShadowMessageTypeMaxNum)).1
              else (extractShadowRootAndName (pTopic.getD []) tl
                (u16add (u16add 0 SHADOW_PREFIX_LENGTH) n) 0).1 }) := by
  by_cases hbad : pTopic = none ∨ tl = 0 ∨ pMessageType = none
  · left
    have hv : validateMatchTopicParameters pTopic tl pMessageType = SHADOW_BAD_PARAMETER := by
      unfold validateMatchTopicParameters
      rw [if_pos hbad]
    refine ⟨hv, ?_⟩
    simp only [Shadow_MatchTopicString_stages, hv, reduceCtorEq, if_false, false_and, and_false]
  · right
    have hv : validateMatchTopicParameters pTopic tl pMessageType = SHADOW_SUCCESS := by
      unfold validateMatchTopicParameters
      rw [if_neg hbad]
    rcases containsSubString_cases ((pTopic.getD []).drop 0) (u16sub tl 0) SHADOW_PREFIX
      SHADOW_PREFIX_LENGTH with hs1 | hs1
    · right
      rcases hn : validateName ((pTopic.getD []).drop (u16add 0 SHADOW_PREFIX_LENGTH))
        (u16sub tl (u16add 0 SHADOW_PREFIX_LENGTH)) 0 with ⟨ns, nl⟩
      rcases validateName_cases ((pTopic.getD []).drop (u16add 0 SHADOW_PREFIX_LENGTH))
        (u16sub tl (u16add 0 SHADOW_PREFIX_LENGTH)) 0 with hn1 | hn1
      · rw [hn] at hn1
        simp only at hn1
        subst hn1
        right
        refine ⟨hv, hs1, nl, rfl, ?_⟩
        simp only [Shadow_MatchTopicString_stages, hv, hs1, hn, if_true, and_self]
        by_cases hr : (extractShadowRootAndName (pTopic.getD []) tl
            (u16add (u16add 0 SHADOW_PREFIX_LENGTH) nl) 0).1 = SHADOW_SUCCESS
        · simp only [hr, if_true]
        · simp only [hr, if_false]
      · rw [hn] at hn1
        injection hn1 with h1 h2
        subst h1 h2
        left
        refine ⟨hv, hs1, rfl, ?_⟩
        simp only [Shadow_MatchTopicString_stages, hv, hs1, hn, if_true, and_self, and_false,
          reduceCtorEq, if_false]
    · left
      refine ⟨hv, hs1, ?_⟩
      simp only [Shadow_MatchTopicString_stages, hv, hs1, if_true, and_self, and_false,
        reduceCtorEq, if_false]


/-! ## Cursor bounds and read windows -/

/-- A successful `containsSubString` has a string at least as long as the
substring. -/
theorem containsSubString_success_le (s : List Byte) (sl : Nat) (sub : List Byte) (n : Nat)
    (h : containsSubString s sl sub n = SHADOW_SUCCESS) : n ≤ sl := by
  unfold containsSubString at h
  by_cases hl : sl ≥ n
  · exact hl
  · rw [if_neg hl] at h
    cases h

/-- A successful loop of `validateName` stops at a slash at a positive index
below the end of the string. -/
theorem validateNameLoop_success (s : List Byte) (nl : Nat) :
    ∀ (remaining index : Nat),
      (validateNameLoop s nl index remaining).1 = SHADOW_SUCCESS →
        0 < (validateNameLoop s nl index remaining).2 ∧
        index ≤ (validateNameLoop s nl index remaining).2 ∧
        (validateNameLoop s nl index remaining).2 < index + remaining ∧
        s.getD (validateNameLoop s nl index remaining).2 0 = '/'.toNat := by
  intro remaining
  induction remaining with
  | zero =>
    intro index h
    rw [validateNameLoop] at h
    cases h
  | succ r ih =>
    intro index h
    rw [validateNameLoop] at h ⊢
    by_cases h1 : s.getD index 0 = '/'.toNat
    · rw [if_pos h1] at h ⊢
      by_cases h2 : index > 0
      · rw [if_pos h2]
        exact ⟨h2, Nat.le_refl _, by omega, h1⟩
      · rw [if_neg h2] at h
        cases h
    · rw [if_neg h1] at h ⊢
      obtain ⟨a, b, c, d⟩ := ih (index + 1) h
      exact ⟨a, by omega, by omega, d⟩

/-- A successful `validateName` gives a name length that is positive and below
the string length, with a slash at that index. -/
theorem validateName_success (s : List Byte) (sl nl : Nat)
    (h : (validateName s sl nl).1 = SHADOW_SUCCESS) :
    0 < (validateName s sl nl).2 ∧ (validateName s sl nl).2 < sl ∧
      s.getD (validateName s sl nl).2 0 = '/'.toNat := by
  obtain ⟨a, _, c, d⟩ := validateNameLoop_success s nl sl 0 h
  exact ⟨a, by unfold validateName; omega, d⟩

/-- From a cursor inside the topic, `extractShadowRootAndName` moves the cursor
forward by exact sums and keeps it inside the topic. -/
theorem extractShadowRootAndName_cursor (topic : List Byte) (tl c sn : Nat)
    (hc : c ≤ tl) (h16 : tl < 65536) :
    c ≤ (extractShadowRootAndName topic tl c sn).2.1 ∧
    (extractShadowRootAndName topic tl c sn).2.1 ≤ tl ∧
    ((extractShadowRootAndName topic tl c sn).1 = SHADOW_SUCCESS →
      ((extractShadowRootAndName topic tl c sn).2.1 =
          c + SHADOW_NAMED_ROOT_LENGTH + (extractShadowRootAndName topic tl c sn).2.2 ∧
        0 < (extractShadowRootAndName topic tl c sn).2.2 ∧
        (extractShadowRootAndName topic tl c sn).2.1 < tl) ∨
      ((extractShadowRootAndName topic tl c sn).2.1 = c + SHADOW_CLASSIC_ROOT_LENGTH ∧
        (extractShadowRootAndName topic tl c sn).2.2 = sn)) ∧
    (containsSubString (topic.drop c) (u16sub tl c) SHADOW_NAMED_ROOT SHADOW_NAMED_ROOT_LENGTH
        = SHADOW_SUCCESS →
      u16add c SHADOW_NAMED_ROOT_LENGTH = c + SHADOW_NAMED_ROOT_LENGTH ∧
      c + SHADOW_NAMED_ROOT_LENGTH ≤ tl ∧
      c + SHADOW_NAMED_ROOT_LENGTH ≤ (extractShadowRootAndName topic tl c sn).2.1) := by
  have hNL : SHADOW_NAMED_ROOT_LENGTH = 13 := by decide
  have hCL : SHADOW_CLASSIC_ROOT_LENGTH = 7 := by decide
  have hsub : u16sub tl c = tl - c := u16sub_eq tl c hc h16
  by_cases h1 : containsSubString (topic.drop c) (u16sub tl c) SHADOW_NAMED_ROOT
      SHADOW_NAMED_ROOT_LENGTH = SHADOW_SUCCESS
  · have hle := containsSubString_success_le _ _ _ _ h1
    rw [hsub, hNL] at hle
    have hadd : u16add c SHADOW_NAMED_ROOT_LENGTH = c + 13 := by
      rw [hNL]; exact u16add_eq c 13 (by omega)
    have hsub2 : u16sub tl (c + 13) = tl - (c + 13) := u16sub_eq tl (c + 13) (by omega) h16
    by_cases h2 : (validateName (topic.drop (c + 13)) (tl - (c + 13)) sn).1 = SHADOW_SUCCESS
    · obtain ⟨hpos, hlt, _⟩ := validateName_success _ _ _ h2
      have hadd2 : u16add (c + 13)
          (validateName (topic.drop (c + 13)) (tl - (c + 13)) sn).2 =
          c + 13 + (validateName (topic.drop (c + 13)) (tl - (c + 13)) sn).2 :=
        u16add_eq _ _ (by omega)
      have hres : extractShadowRootAndName topic tl c sn =
          (SHADOW_SUCCESS, c + 13 + (validateName (topic.drop (c + 13)) (tl - (c + 13)) sn).2,
            (validateName (topic.drop (c + 13)) (tl - (c + 13)) sn).2) := by
        unfold extractShadowRootAndName
        rw [if_pos h1]
        simp only [hadd, hsub2, h2, if_true, hadd2]
      rw [hres, hadd, hNL]
      dsimp only
      exact ⟨by omega, by omega, fun _ => Or.inl ⟨rfl, hpos, by omega⟩,
        fun _ => ⟨rfl, by omega, by omega⟩⟩
    · have hres : extractShadowRootAndName topic tl c sn =
          (SHADOW_SHADOWNAME_PARSE_FAILED, c + 13,
            (validateName (topic.drop (c + 13)) (tl - (c + 13)) sn).2) := by
        unfold extractShadowRootAndName
        rw [if_pos h1]
        simp only [hadd, hsub2, h2, if_false]
      rw [hres, hadd, hNL]
      dsimp only
      exact ⟨by omega, by omega, (fun h => by cases h), fun _ => ⟨rfl, by omega, by omega⟩⟩
  · by_cases h3 : containsSubString (topic.drop c) (u16sub tl c) SHADOW_CLASSIC_ROOT
        SHADOW_CLASSIC_ROOT_LENGTH = SHADOW_SUCCESS
    · have hle := containsSubString_success_le _ _ _ _ h3
      rw [hsub, hCL] at hle
      have hadd : u16add c SHADOW_CLASSIC_ROOT_LENGTH = c + 7 := by
        rw [hCL]; exact u16add_eq c 7 (by omega)
      have hres : extractShadowRootAndName topic tl c sn = (SHADOW_SUCCESS, c + 7, sn) := by
        unfold extractShadowRootAndName
        rw [if_neg h1, if_pos h3, hadd]
      rw [hres, hCL]
      dsimp only
      exact ⟨by omega, by omega, fun _ => Or.inr ⟨rfl, rfl⟩, fun h => absurd h h1⟩
    · have hres : extractShadowRootAndName topic tl c sn = (SHADOW_ROOT_PARSE_FAILED, c, sn) := by
        unfold extractShadowRootAndName
        rw [if_neg h1, if_neg h3]
      rw [hres]
      dsimp only
      exact ⟨Nat.le_refl _, hc, (fun h => by cases h), fun h => absurd h h1⟩

/-- The function `strncmp` on `n` characters reads only the first `n` bytes of
its first string. -/
theorem strncmp_take (sub : List Byte) :
    ∀ (n L : Nat) (s : List Byte), n ≤ L → strncmp (s.take L) sub n = strncmp s sub n := by
  intro n
  induction n generalizing sub with
  | zero => intro L s _; rfl
  | succ k ih =>
    intro L s hL
    obtain ⟨L', rfl⟩ : ∃ L', L = L' + 1 := ⟨L - 1, by omega⟩
    cases s with
    | nil => rfl
    | cons a as =>
      rw [List.take_succ_cons, strncmp, strncmp]
      simp only [List.headD_cons, List.tail_cons]
      rw [ih sub.tail L' as (by omega)]

/-- The function `containsSubString` reads only the first `stringLength` bytes
of its string. -/
theorem containsSubString_take (s : List Byte) (sl : Nat) (sub : List Byte) (n : Nat) :
    containsSubString (s.take sl) sl sub n = containsSubString s sl sub n := by
  unfold containsSubString
  by_cases h : sl ≥ n
  · rw [if_pos h, if_pos h, strncmp_take sub n sl s h]
  · rw [if_neg h, if_neg h]

/-- The loop of `validateName` reads only bytes below `index + remaining`. -/
theorem validateNameLoop_take (s : List Byte) (nl L : Nat) :
    ∀ (remaining index : Nat), index + remaining ≤ L →
      validateNameLoop (s.take L) nl index remaining = validateNameLoop s nl index remaining := by
  intro remaining
  induction remaining with
  | zero => intro index _; rfl
  | succ r ih =>
    intro index h
    have hget : (s.take L).getD index 0 = s.getD index 0 := by
      rw [List.getD_eq_getElem?_getD, List.getD_eq_getElem?_getD,
        List.getElem?_take_of_lt (by omega)]
    rw [validateNameLoop, validateNameLoop, hget, ih (index + 1) (by omega)]

/-- The function `validateName` reads only the first `stringLength` bytes of its
string. -/
theorem validateName_take (s : List Byte) (sl nl : Nat) :
    validateName (s.take sl) sl nl = validateName s sl nl := by
  unfold validateName
  exact validateNameLoop_take s nl sl sl 0 (by omega)

/-- The message type loop reads only the first `stringLength` bytes of its
string. -/
theorem extractShadowMessageTypeOver_take (s : List Byte) (sl : Nat) :
    ∀ (table : List (List Byte × Nat × ShadowMessageType_t)) (rs : ShadowStatus_t)
      (mt : ShadowMessageType_t),
      extractShadowMessageTypeOver (s.take sl) sl table rs mt =
        extractShadowMessageTypeOver s sl table rs mt := by
  intro table
  induction table with
  | nil => intro rs mt; rfl
  | cons row rest ih =>
    intro rs mt
    rw [extractShadowMessageTypeOver, extractShadowMessageTypeOver, containsSubString_take,
      ih, ih]

/-- The function `extractShadowMessageType` reads only the first `stringLength`
bytes of its string. -/
theorem extractShadowMessageType_take (s : List Byte) (sl : Nat) (mt : ShadowMessageType_t) :
    extractShadowMessageType (s.take sl) sl mt = extractShadowMessageType s sl mt := by
  rw [extractShadowMessageType_eq_over, extractShadowMessageType_eq_over,
    extractShadowMessageTypeOver_take]


/-! ## The message type loop over any table -/

/-- One iteration of the message type loop: a row with a NUL-free literal and
its length matches exactly when the string is the literal. -/
theorem extractShadowMessageTypeOver_cons (s : List Byte) (sl : Nat) (mt : ShadowMessageType_t)
    (row : List Byte × Nat × ShadowMessageType_t)
    (rest : List (List Byte × Nat × ShadowMessageType_t)) (rs : ShadowStatus_t)
    (hlen : row.2.1 = row.1.length) (hnul : ∀ b ∈ row.1, b ≠ 0) :
    extractShadowMessageTypeOver s sl (row :: rest) rs mt =
      if sl = row.1.length ∧ s.take sl = row.1 then (SHADOW_SUCCESS, row.2.2)
      else extractShadowMessageTypeOver s sl rest SHADOW_FAIL mt := by
  rw [extractShadowMessageTypeOver, hlen, containsSubString_eq row.1 hnul]
  by_cases hm : sl = row.1.length ∧ s.take sl = row.1
  · have h2 : row.1.length ≤ sl ∧ s.take row.1.length = row.1 := by
      refine ⟨by omega, ?_⟩
      rw [← hm.1]; exact hm.2
    rw [if_pos hm, if_pos h2]
    simp only [if_true, ne_eq, hm.1, not_true_eq_false, if_false]
  · rw [if_neg hm]
    by_cases hc : row.1.length ≤ sl ∧ s.take row.1.length = row.1
    · have hne : sl ≠ row.1.length := by
        intro e
        apply hm
        refine ⟨e, ?_⟩
        rw [e]; exact hc.2
      rw [if_pos hc]
      simp only [if_true, ne_eq, hne, not_false_eq_true]
    · rw [if_neg hc]
      simp only [reduceCtorEq, if_false]

/-- The message type loop over a table of NUL-free literals with their lengths:
it returns `SHADOW_SUCCESS` with the type of a row whose literal is the string,
or `SHADOW_FAIL` and the unchanged `*pMessageType` when no row has it. -/
theorem extractShadowMessageTypeOver_spec (s : List Byte) (sl : Nat) (mt : ShadowMessageType_t) :
    ∀ table : List (List Byte × Nat × ShadowMessageType_t),
      (∀ row ∈ table, row.2.1 = row.1.length ∧ ∀ b ∈ row.1, b ≠ 0) →
      (∃ row ∈ table, (sl = row.1.length ∧ s.take sl = row.1) ∧
        extractShadowMessageTypeOver s sl table SHADOW_FAIL mt = (SHADOW_SUCCESS, row.2.2)) ∨
      ((∀ row ∈ table, ¬ (sl = row.1.length ∧ s.take sl = row.1)) ∧
        extractShadowMessageTypeOver s sl table SHADOW_FAIL mt = (SHADOW_FAIL, mt)) := by
  intro table
  induction table with
  | nil =>
    intro _
    right
    exact ⟨(fun row h => by cases h), rfl⟩
  | cons row rest ih =>
    intro hwf
    have hrow := hwf row (List.mem_cons_self _ _)
    have hrest : ∀ r ∈ rest, r.2.1 = r.1.length ∧ ∀ b ∈ r.1, b ≠ 0 :=
      fun r hr => hwf r (List.mem_cons_of_mem _ hr)
    rw [extractShadowMessageTypeOver_cons s sl mt row rest SHADOW_FAIL hrow.1 hrow.2]
    by_cases hm : sl = row.1.length ∧ s.take sl = row.1
    · left
      exact ⟨row, List.mem_cons_self _ _, hm, by rw [if_pos hm]⟩
    · rw [if_neg hm]
      rcases ih hrest with ⟨r, hr, hrm, hres⟩ | ⟨hnone, hres⟩
      · left
        exact ⟨r, List.mem_cons_of_mem _ hr, hrm, hres⟩
      · right
        refine ⟨?_, hres⟩
        intro r hr
        rcases List.mem_cons.mp hr with h | h
        · rw [h]; exact hm
        · exact hnone r h

/-- Every row of the matcher's tables holds a NUL-free literal, its length and
the message type that names it. -/
theorem messageTable_rows : ∀ row ∈ messageTable,
    (row.2.1 = row.1.length ∧ ∀ b ∈ row.1, b ≠ 0) ∧
      row.1 = messageLiteral row.2.2 ∧ row.2.2 ≠ ShadowMessageTypeMaxNum := by
  decide

/-- Every message type has its row in the matcher's tables. -/
theorem messageTable_complete (t : ShadowMessageType_t) (ht : t ≠ ShadowMessageTypeMaxNum) :
    (messageLiteral t, (messageLiteral t).length, t) ∈ messageTable := by
  cases t <;> first | exact absurd rfl ht | decide

/-- Two message types with the same literal are the same. -/
theorem messageLiteral_injective (t u : ShadowMessageType_t)
    (ht : t ≠ ShadowMessageTypeMaxNum) (h : messageLiteral t = messageLiteral u) : t = u := by
  apply messageLiteral_no_extension t u ht
  rw [← h, List.take_length]

/-- The function `extractShadowMessageType` returns `SHADOW_SUCCESS` with type
`t` exactly when its string is the literal of `t`; otherwise it returns
`SHADOW_FAIL` and leaves `*pMessageType`. -/
theorem extractShadowMessageType_spec (s : List Byte) (sl : Nat) (mt : ShadowMessageType_t) :
    (∃ t, t ≠ ShadowMessageTypeMaxNum ∧ sl = (messageLiteral t).length ∧
      s.take sl = messageLiteral t ∧ extractShadowMessageType s sl mt = (SHADOW_SUCCESS, t)) ∨
    ((∀ t, t ≠ ShadowMessageTypeMaxNum →
        ¬ (sl = (messageLiteral t).length ∧ s.take sl = messageLiteral t)) ∧
      extractShadowMessageType s sl mt = (SHADOW_FAIL, mt)) := by
  rw [extractShadowMessageType_eq_over]
  rcases extractShadowMessageTypeOver_spec s sl mt messageTable
    (fun row hr => (messageTable_rows row hr).1) with ⟨r, hr, hrm, hres⟩ | ⟨hnone, hres⟩
  · left
    obtain ⟨_, hlit, hne⟩ := messageTable_rows r hr
    refine ⟨r.2.2, hne, ?_, ?_, hres⟩
    · rw [← hlit]; exact hrm.1
    · rw [← hlit]; exact hrm.2
  · right
    refine ⟨?_, hres⟩
    intro t ht
    exact hnone _ (messageTable_complete t ht)


/-! ## Injectivity of the topic string -/

/-- Every operation literal starts with a slash. -/
theorem opLiteral_cons (topicType : ShadowTopicStringType_t) (h : topicType < 11) :
    ∃ r, opLiteral topicType = '/'.toNat :: r := by
  interval_cases topicType <;> exact ⟨_, rfl⟩

/-- The second byte of an operation literal is not the `n` of `/name/`. -/
theorem opLiteral_second (topicType : ShadowTopicStringType_t) (h : topicType < 11) :
    (opLiteral topicType)[1]? ≠ some 'n'.toNat := by
  interval_cases topicType <;> decide

/-- The eleven operation literals are pairwise different. -/
theorem opLiteral_injective (T1 T2 : ShadowTopicStringType_t) (h1 : T1 < 11) (h2 : T2 < 11)
    (h : opLiteral T1 = opLiteral T2) : T1 = T2 := by
  have hlen := congrArg List.length h
  have h7 := congrArg (fun l => l[7]?) h
  have h9 := congrArg (fun l => l[9]?) h
  have h1' := congrArg (fun l => l[1]?) h
  interval_cases T1 <;> interval_cases T2 <;>
    first | rfl | (exfalso; revert hlen; decide) | (exfalso; revert h7; decide) |
      (exfalso; revert h9; decide) | (exfalso; revert h1'; decide)

/-- The length the assembler adds for the operation is at most 17, also outside
the enumeration. -/
theorem getShadowOperationLength_le (topicType : ShadowTopicStringType_t) :
    getShadowOperationLength topicType ≤ 17 := by
  rw [getShadowOperationLength_eq_length]
  by_cases h : topicType < 11
  · rw [(getShadowOperation_eq topicType h).1]
    exact opLiteral_length_le topicType
  · have hne : ∀ k : Nat, k < 11 → ¬ topicType = k := by
      intro k hk e
      exact h (e ▸ hk)
    unfold getShadowOperationString
    rw [if_neg (hne 0 (by decide)), if_neg (hne 1 (by decide)), if_neg (hne 2 (by decide)),
      if_neg (hne 3 (by decide)), if_neg (hne 4 (by decide)), if_neg (hne 5 (by decide)),
      if_neg (hne 6 (by decide)), if_neg (hne 7 (by decide)), if_neg (hne 8 (by decide)),
      if_neg (hne 9 (by decide))]
    decide

/-- Topic strings built from slash-free names are equal only for equal topic
types, thing names and shadow names. -/
theorem topicBytes_injective (T1 T2 : ShadowTopicStringType_t)
    (thing1 thing2 shadow1 shadow2 : List Byte) (h1 : T1 < 11) (h2 : T2 < 11)
    (ht1 : '/'.toNat ∉ thing1) (ht2 : '/'.toNat ∉ thing2)
    (hs1 : '/'.toNat ∉ shadow1) (hs2 : '/'.toNat ∉ shadow2)
    (h : cstr "$aws/things/" ++ thing1 ++
        (if shadow1.length > 0 then cstr "/shadow/name/" ++ shadow1 else cstr "/shadow") ++
        opLiteral T1 =
      cstr "$aws/things/" ++ thing2 ++
        (if shadow2.length > 0 then cstr "/shadow/name/" ++ shadow2 else cstr "/shadow") ++
        opLiteral T2) :
    T1 = T2 ∧ thing1 = thing2 ∧ shadow1 = shadow2 := by
  have hN : cstr "/shadow/name/" = '/'.toNat :: cstr "shadow/name/" := by decide
  have hC : cstr "/shadow" = '/'.toNat :: cstr "shadow" := by decide
  have hNC : cstr "/shadow/name/" = cstr "/shadow" ++ ('/'.toNat :: 'n'.toNat :: cstr "ame/") := by
    decide
  obtain ⟨o1, ho1⟩ := opLiteral_cons T1 h1
  obtain ⟨o2, ho2⟩ := opLiteral_cons T2 h2
  have hroot : ∀ (shadow op : List Byte), ∃ r,
      (if shadow.length > 0 then cstr "/shadow/name/" ++ shadow else cstr "/shadow") ++ op
        = '/'.toNat :: r := by
    intro shadow op
    by_cases hz : shadow.length > 0
    · rw [if_pos hz, hN]; exact ⟨_, rfl⟩
    · rw [if_neg hz, hC]; exact ⟨_, rfl⟩
  simp only [List.append_assoc] at h
  have h' := List.append_cancel_left h
  obtain ⟨r1, hr1⟩ := hroot shadow1 (opLiteral T1)
  obtain ⟨r2, hr2⟩ := hroot shadow2 (opLiteral T2)
  have hthing : thing1 = thing2 := by
    have hn := congrArg nameOf h'
    rw [hr1, hr2, nameOf_append_slash thing1 r1 ht1, nameOf_append_slash thing2 r2 ht2] at hn
    exact hn
  subst hthing
  have hrest2 := List.append_cancel_left h'
  by_cases hz1 : shadow1.length > 0
  · by_cases hz2 : shadow2.length > 0
    · rw [if_pos hz1, if_pos hz2] at hrest2
      simp only [List.append_assoc] at hrest2
      have h3 := List.append_cancel_left hrest2
      have hshadow : shadow1 = shadow2 := by
        have hn := congrArg nameOf h3
        rw [ho1, ho2, nameOf_append_slash shadow1 o1 hs1,
          nameOf_append_slash shadow2 o2 hs2] at hn
        exact hn
      subst hshadow
      exact ⟨opLiteral_injective T1 T2 h1 h2 (List.append_cancel_left h3), rfl, rfl⟩
    · exfalso
      rw [if_pos hz1, if_neg hz2, hNC] at hrest2
      simp only [List.append_assoc] at hrest2
      have h3 := List.append_cancel_left hrest2
      have h4 := congrArg (fun l => l[1]?) h3
      simp only [List.cons_append, List.getElem?_cons_succ, List.getElem?_cons_zero] at h4
      exact opLiteral_second T2 h2 h4.symm
  · by_cases hz2 : shadow2.length > 0
    · exfalso
      rw [if_neg hz1, if_pos hz2, hNC] at hrest2
      simp only [List.append_assoc] at hrest2
      have h3 := List.append_cancel_left hrest2
      have h4 := congrArg (fun l => l[1]?) h3
      simp only [List.cons_append, List.getElem?_cons_succ, List.getElem?_cons_zero] at h4
      exact opLiteral_second T1 h1 h4
    · rw [if_neg hz1, if_neg hz2] at hrest2
      have e1 : shadow1 = [] := List.length_eq_zero.mp (by omega)
      have e2 : shadow2 = [] := List.length_eq_zero.mp (by omega)
      exact ⟨opLiteral_injective T1 T2 h1 h2 (List.append_cancel_left hrest2), rfl, by rw [e1, e2]⟩


/-- C31 (assembly is injective on slash-free names): when two successful calls of
`Shadow_AssembleTopicString`, over any of the eleven topic types and with thing
and shadow names that contain no `/`, write the same topic string, then the
topic types, the thing names and the shadow names are the same. -/
theorem C31_assembly_injective (T1 T2 : ShadowTopicStringType_t)
    (thing1 thing2 shadow1 shadow2 : List Byte) (pShadowName1 pShadowName2 : Option (List Byte))
    (buffer1 buffer2 : List Byte) (bufferSize1 bufferSize2 outLength1 outLength2 : Nat)
    (out1 out2 : List Byte) (n1 n2 : Nat)
    (hsh1 : pShadowName1.getD [] = shadow1) (hsh2 : pShadowName2.getD [] = shadow2)
    (ht1 : '/'.toNat ∉ thing1) (ht2 : '/'.toNat ∉ thing2)
    (hs1 : '/'.toNat ∉ shadow1) (hs2 : '/'.toNat ∉ shadow2)
    (h8a : thing1.length < 256) (h8b : thing2.length < 256)
    (h8c : shadow1.length < 256) (h8d : shadow2.length < 256)
    (hmem1 : bufferSize1 ≤ buffer1.length) (hmem2 : bufferSize2 ≤ buffer2.length)
    (hA1 : Shadow_AssembleTopicString T1 (some thing1) thing1.length pShadowName1 shadow1.length
      (some buffer1) bufferSize1 (some outLength1) =
        { status := SHADOW_SUCCESS, topicBuffer := some out1, outLength := some n1 })
    (hA2 : Shadow_AssembleTopicString T2 (some thing2) thing2.length pShadowName2 shadow2.length
      (some buffer2) bufferSize2 (some outLength2) =
        { status := SHADOW_SUCCESS, topicBuffer := some out2, outLength := some n2 })
    (heq : out1.take n1 = out2.take n2) :
    T1 = T2 ∧ thing1 = thing2 ∧ shadow1 = shadow2 := by
  have key : ∀ (T : ShadowTopicStringType_t) (thing shadow : List Byte)
      (pShadowName : Option (List Byte)) (buffer : List Byte) (bufferSize ol : Nat)
      (out : List Byte) (n : Nat), pShadowName.getD [] = shadow → thing.length < 256 →
      shadow.length < 256 → bufferSize ≤ buffer.length →
      Shadow_AssembleTopicString T (some thing) thing.length pShadowName shadow.length
        (some buffer) bufferSize (some ol) =
        { status := SHADOW_SUCCESS, topicBuffer := some out, outLength := some n } →
      T < 11 ∧ out.take n = cstr "$aws/things/" ++ thing ++
        (if shadow.length > 0 then cstr "/shadow/name/" ++ shadow else cstr "/shadow") ++
        opLiteral T := by
    intro T thing shadow pShadowName buffer bufferSize ol out n hsh ha hb hmem hA
    have hst : (Shadow_AssembleTopicString T (some thing) thing.length pShadowName shadow.length
        (some buffer) bufferSize (some ol)).status = SHADOW_SUCCESS := by rw [hA]
    obtain ⟨thing', buffer', ol0, e1, e2, _, hlt, _, _, _, _, _, hR⟩ :=
      Shadow_AssembleTopicString_success_inv T (some thing) thing.length pShadowName
        shadow.length (some buffer) bufferSize (some ol) ha hb
        (by intro m hm; cases hm; exact Nat.le_refl _)
        (by intro m hm; rw [hm] at hsh; rw [← hsh]; exact Nat.le_refl _)
        (by intro m hm; cases hm; exact hmem) hst
    cases e1
    cases e2
    have hlen := assembled_length T thing shadow thing.length shadow.length
      (Nat.le_refl _) (Nat.le_refl _)
    rw [hsh] at hR
    simp only [List.take_length] at hR hlen
    rw [hR] at hA
    injection hA with _ hbuf hout
    injection hbuf with hbuf
    injection hout with hout
    refine ⟨hlt, ?_⟩
    rw [← hbuf, ← hout]
    exact List.take_left' hlen
  obtain ⟨hlt1, hk1⟩ := key T1 thing1 shadow1 pShadowName1 buffer1 bufferSize1 outLength1 out1 n1
    hsh1 h8a h8c hmem1 hA1
  obtain ⟨hlt2, hk2⟩ := key T2 thing2 shadow2 pShadowName2 buffer2 bufferSize2 outLength2 out2 n2
    hsh2 h8b h8d hmem2 hA2
  rw [hk1, hk2] at heq
  exact topicBytes_injective T1 T2 thing1 thing2 shadow1 shadow2 hlt1 hlt2 ht1 ht2 hs1 hs2 heq

/-- Witness of C31: the same call twice, `GetAccepted` for thing `Thing1` and
shadow `Shadow1`, into two different buffers. -/
theorem C31_assembly_injective_witness :
    Shadow_AssembleTopicString ShadowTopicStringTypeGetAccepted (some (cstr "Thing1")) 6
        (some (cstr "Shadow1")) 7 (some (List.replicate 51 0)) 51 (some 0) =
      { status := SHADOW_SUCCESS
        topicBuffer := some (cstr "$aws/things/Thing1/shadow/name/Shadow1/get/accepted")
        outLength := some 51 } ∧
    (ShadowTopicStringTypeGetAccepted = ShadowTopicStringTypeGetAccepted ∧
      cstr "Thing1" = cstr "Thing1" ∧ cstr "Shadow1" = cstr "Shadow1") :=
  ⟨by decide,
    C31_assembly_injective ShadowTopicStringTypeGetAccepted ShadowTopicStringTypeGetAccepted
      (cstr "Thing1") (cstr "Thing1") (cstr "Shadow1") (cstr "Shadow1")
      (some (cstr "Shadow1")) (some (cstr "Shadow1"))
      (List.replicate 51 0) (List.replicate 60 1) 51 60 0 0
      (cstr "$aws/things/Thing1/shadow/name/Shadow1/get/accepted")
      (cstr "$aws/things/Thing1/shadow/name/Shadow1/get/accepted" ++ List.replicate 9 1) 51 51
      rfl rfl (by decide) (by decide) (by decide) (by decide) (by decide) (by decide)
      (by decide) (by decide) (by decide) (by decide) (by decide) (by decide) (by decide)⟩


/-- C32 (cursor safety in the matcher): for `topicLength` in 1..65535 the cursor
`consumedTopicLength` of `Shadow_MatchTopicString` only grows and stays at most
`topicLength` after every stage, so no subtraction `topicLength -
consumedTopicLength` wraps; every cursor addition gives the exact sum; and
`containsSubString`, `validateName` and `extractShadowMessageType` give the same
result on two strings with the same first `stringLength` bytes, so with a window
that ends at `topicLength` no byte at an index `>= topicLength` is read. -/
theorem C32_cursor_safety (pTopic : Option (List Byte)) (topicLength : Nat)
    (pMessageType : Option ShadowMessageType_t)
    (s s' : List Byte) (stringLength : Nat) (sub : List Byte) (n nl : Nat)
    (mt : ShadowMessageType_t)
    (h1 : 1 ≤ topicLength) (h16 : topicLength ≤ 65535)
    (hwin : s.take stringLength = s'.take stringLength) :
    (Shadow_MatchTopicString_stages pTopic topicLength pMessageType).consumedTopicLength1 ≤
      (Shadow_MatchTopicString_stages pTopic topicLength pMessageType).consumedTopicLength2 ∧
    (Shadow_MatchTopicString_stages pTopic topicLength pMessageType).consumedTopicLength2 ≤
      (Shadow_MatchTopicString_stages pTopic topicLength pMessageType).root.2.1 ∧
    (Shadow_MatchTopicString_stages pTopic topicLength pMessageType).root.2.1 ≤ topicLength ∧
    (u16sub topicLength 0 = topicLength ∧
      u16sub topicLength
          (Shadow_MatchTopicString_stages pTopic topicLength pMessageType).consumedTopicLength1 =
        topicLength -
          (Shadow_MatchTopicString_stages pTopic topicLength pMessageType).consumedTopicLength1 ∧
      u16sub topicLength
          (Shadow_MatchTopicString_stages pTopic topicLength pMessageType).consumedTopicLength2 =
        topicLength -
          (Shadow_MatchTopicString_stages pTopic topicLength pMessageType).consumedTopicLength2 ∧
      u16sub topicLength
          (Shadow_MatchTopicString_stages pTopic topicLength pMessageType).root.2.1 =
        topicLength - (Shadow_MatchTopicString_stages pTopic topicLength pMessageType).root.2.1) ∧
    ((Shadow_MatchTopicString_stages pTopic topicLength pMessageType).shadowStatus1
        = SHADOW_SUCCESS →
      (Shadow_MatchTopicString_stages pTopic topicLength pMessageType).consumedTopicLength1 =
        0 + SHADOW_PREFIX_LENGTH) ∧
    ((Shadow_MatchTopicString_stages pTopic topicLength pMessageType).shadowStatus2
        = SHADOW_SUCCESS →
      (Shadow_MatchTopicString_stages pTopic topicLength pMessageType).consumedTopicLength2 =
        (Shadow_MatchTopicString_stages pTopic topicLength pMessageType).consumedTopicLength1 +
          (Shadow_MatchTopicString_stages pTopic topicLength pMessageType).name.2 ∧
      (Shadow_MatchTopicString_stages pTopic topicLength pMessageType).consumedTopicLength2 <
        topicLength) ∧
    ((Shadow_MatchTopicString_stages pTopic topicLength pMessageType).root.1 = SHADOW_SUCCESS →
      ((Shadow_MatchTopicString_stages pTopic topicLength pMessageType).root.2.1 =
          (Shadow_MatchTopicString_stages pTopic topicLength pMessageType).consumedTopicLength2 +
            SHADOW_NAMED_ROOT_LENGTH +
            (Shadow_MatchTopicString_stages pTopic topicLength pMessageType).root.2.2 ∧
        (Shadow_MatchTopicString_stages pTopic topicLength pMessageType).root.2.1 <
          topicLength) ∨
      (Shadow_MatchTopicString_stages pTopic topicLength pMessageType).root.2.1 =
        (Shadow_MatchTopicString_stages pTopic topicLength pMessageType).consumedTopicLength2 +
          SHADOW_CLASSIC_ROOT_LENGTH) ∧
    ((Shadow_MatchTopicString_stages pTopic topicLength pMessageType).shadowStatus2
        = SHADOW_SUCCESS →
      containsSubString
          ((pTopic.getD []).drop
            (Shadow_MatchTopicString_stages pTopic topicLength pMessageType).consumedTopicLength2)
          (u16sub topicLength
            (Shadow_MatchTopicString_stages pTopic topicLength pMessageType).consumedTopicLength2)
          SHADOW_NAMED_ROOT SHADOW_NAMED_ROOT_LENGTH = SHADOW_SUCCESS →
      u16add (Shadow_MatchTopicString_stages pTopic topicLength pMessageType).consumedTopicLength2
          SHADOW_NAMED_ROOT_LENGTH =
        (Shadow_MatchTopicString_stages pTopic topicLength pMessageType).consumedTopicLength2 +
          SHADOW_NAMED_ROOT_LENGTH ∧
      (Shadow_MatchTopicString_stages pTopic topicLength pMessageType).consumedTopicLength2 +
        SHADOW_NAMED_ROOT_LENGTH ≤ topicLength) ∧
    containsSubString s stringLength sub n = containsSubString s' stringLength sub n ∧
    validateName s stringLength nl = validateName s' stringLength nl ∧
    extractShadowMessageType s stringLength mt = extractShadowMessageType s' stringLength mt := by
  have htl : topicLength < 65536 := by omega
  have hPL : SHADOW_PREFIX_LENGTH = 12 := by decide
  have h012 : u16add 0 SHADOW_PREFIX_LENGTH = 12 := by decide
  have hs0 : u16sub topicLength 0 = topicLength := u16sub_eq topicLength 0 (Nat.zero_le _) htl
  have hloc : containsSubString s stringLength sub n = containsSubString s' stringLength sub n ∧
      validateName s stringLength nl = validateName s' stringLength nl ∧
      extractShadowMessageType s stringLength mt =
        extractShadowMessageType s' stringLength mt := by
    refine ⟨?_, ?_, ?_⟩
    · rw [← containsSubString_take s, ← containsSubString_take s', hwin]
    · rw [← validateName_take s, ← validateName_take s', hwin]
    · rw [← extractShadowMessageType_take s, ← extractShadowMessageType_take s', hwin]
  rcases Shadow_MatchTopicString_stages_cases pTopic topicLength pMessageType with
    ⟨_, hK⟩ | ⟨_, _, hK⟩ | ⟨_, hs1, _, hK⟩ | ⟨_, hs1, m, hn, hK⟩
  · rw [hK]
    dsimp only
    exact ⟨Nat.le_refl _, Nat.le_refl _, Nat.zero_le _, ⟨hs0, hs0, hs0, hs0⟩,
      (fun h => by cases h), (fun h => by cases h), (fun h => by cases h),
      (fun h => by cases h), hloc⟩
  · rw [hK]
    dsimp only
    exact ⟨Nat.le_refl _, Nat.le_refl _, Nat.zero_le _, ⟨hs0, hs0, hs0, hs0⟩,
      (fun h => by cases h), (fun h => by cases h), (fun h => by cases h),
      (fun h => by cases h), hloc⟩
  · have hle := containsSubString_success_le _ _ _ _ hs1
    rw [hs0, hPL] at hle
    have hs12 : u16sub topicLength 12 = topicLength - 12 := u16sub_eq topicLength 12 hle htl
    rw [hK]
    dsimp only
    rw [h012]
    exact ⟨Nat.le_refl _, Nat.le_refl _, hle, ⟨hs0, hs12, hs12, hs12⟩,
      (fun _ => by rw [hPL]), (fun h => by cases h), (fun h => by cases h),
      (fun h => by cases h), hloc⟩
  · have hle := containsSubString_success_le _ _ _ _ hs1
    rw [hs0, hPL] at hle
    have hs12 : u16sub topicLength 12 = topicLength - 12 := u16sub_eq topicLength 12 hle htl
    rw [h012, hs12] at hn
    have hn1 : (validateName ((pTopic.getD []).drop 12) (topicLength - 12) 0).1
        = SHADOW_SUCCESS := by rw [hn]
    obtain ⟨hpos, hlt, _⟩ := validateName_success _ _ _ hn1
    rw [hn] at hpos hlt
    dsimp only at hpos hlt
    have hadd : u16add 12 m = 12 + m := u16add_eq 12 m (by omega)
    have hsm : u16sub topicLength (12 + m) = topicLength - (12 + m) :=
      u16sub_eq topicLength (12 + m) (by omega) htl
    obtain ⟨hr1, hr2, hr3, hr4⟩ :=
      extractShadowRootAndName_cursor (pTopic.getD []) topicLength (12 + m) 0 (by omega) htl
    rw [hK]
    dsimp only
    rw [h012, hadd]
    refine ⟨by omega, hr1, hr2, ⟨hs0, hs12, hsm, u16sub_eq _ _ hr2 htl⟩,
      (fun _ => by rw [hPL]), (fun _ => ⟨rfl, by omega⟩), ?_, ?_, hloc⟩
    · intro hsucc
      rcases hr3 hsucc with ⟨ha, _, hc⟩ | ⟨ha, _⟩
      · exact Or.inl ⟨ha, hc⟩
      · exact Or.inr ha
    · intro _ hnamed
      exact ⟨(hr4 hnamed).1, (hr4 hnamed).2.1⟩

/-- Witness of C32: the named topic of `Thing1` and `Shadow1`, whose cursor goes
12, 18, 38 in a topic of 51 bytes, and two strings that agree on 7 bytes. -/
theorem C32_cursor_safety_witness :
    (Shadow_MatchTopicString_stages
      (some (cstr "$aws/things/Thing1/shadow/name/Shadow1/get/accepted")) 51
      (some ShadowMessageTypeMaxNum)).consumedTopicLength1 = 12 ∧
    (Shadow_MatchTopicString_stages
      (some (cstr "$aws/things/Thing1/shadow/name/Shadow1/get/accepted")) 51
      (some ShadowMessageTypeMaxNum)).consumedTopicLength2 = 18 ∧
    (Shadow_MatchTopicString_stages
      (some (cstr "$aws/things/Thing1/shadow/name/Shadow1/get/accepted")) 51
      (some ShadowMessageTypeMaxNum)).root.2.1 = 38 ∧
    (Shadow_MatchTopicString_stages
      (some (cstr "$aws/things/Thing1/shadow/name/Shadow1/get/accepted")) 51
      (some ShadowMessageTypeMaxNum)).root.2.1 ≤ 51 ∧
    validateName (cstr "Thing1/shadow") 7 0 = validateName (cstr "Thing1/xyz") 7 0 :=
  ⟨by decide, by decide, by decide,
    (C32_cursor_safety (some (cstr "$aws/things/Thing1/shadow/name/Shadow1/get/accepted")) 51
      (some ShadowMessageTypeMaxNum) (cstr "Thing1/shadow") (cstr "Thing1/xyz") 7
      (cstr "/shadow") 7 0 ShadowMessageTypeMaxNum (by decide) (by decide) (by decide)).2.2.1,
    (C32_cursor_safety (some (cstr "$aws/things/Thing1/shadow/name/Shadow1/get/accepted")) 51
      (some ShadowMessageTypeMaxNum) (cstr "Thing1/shadow") (cstr "Thing1/xyz") 7
      (cstr "/shadow") 7 0 ShadowMessageTypeMaxNum (by decide) (by decide)
      (by decide)).2.2.2.2.2.2.2.2.2.1⟩


/-- C33 (returned spans stay inside the topic): whenever `Shadow_MatchTopicString`
succeeds, `12 + thingNameLength <= topicLength` and the shadow name offset
`12 + thingNameLength + 13` plus `shadowNameLength` is at most `topicLength`,
for named and classic topics alike; for a classic topic (`shadowNameLength` 0)
that offset is 6 bytes inside the operation+suffix literal, which starts at
`12 + thingNameLength + 7` and ends at `topicLength`. -/
theorem C33_spans_inside_topic (pTopic : Option (List Byte)) (topicLength : Nat)
    (pMessageType : Option ShadowMessageType_t) (x : CharPtr) (y : Nat) (z : CharPtr) (w : Nat)
    (h16 : topicLength < 65536)
    (hs : (Shadow_MatchTopicString pTopic topicLength pMessageType (some x) (some y) (some z)
      (some w)).status = SHADOW_SUCCESS) :
    ∃ n sn,
      (Shadow_MatchTopicString pTopic topicLength pMessageType (some x) (some y) (some z)
        (some w)).thingName = some (CharPtr.topicAt 12) ∧
      (Shadow_MatchTopicString pTopic topicLength pMessageType (some x) (some y) (some z)
        (some w)).thingNameLength = some n ∧
      (Shadow_MatchTopicString pTopic topicLength pMessageType (some x) (some y) (some z)
        (some w)).shadowName = some (CharPtr.topicAt (12 + n + 13)) ∧
      (Shadow_MatchTopicString pTopic topicLength pMessageType (some x) (some y) (some z)
        (some w)).shadowNameLength = some sn ∧
      0 < n ∧ 12 + n ≤ topicLength ∧ 12 + n + 13 + sn ≤ topicLength ∧
      (sn = 0 → ∃ t, t ≠ ShadowMessageTypeMaxNum ∧
        ((pTopic.getD []).drop (12 + n + 7)).take (topicLength - (12 + n + 7))
          = messageLiteral t ∧
        12 + n + 7 + (messageLiteral t).length = topicLength ∧
        12 + n + 7 < 12 + n + 13 ∧ 12 + n + 13 < 12 + n + 7 + (messageLiteral t).length) := by
  have hPL : SHADOW_PREFIX_LENGTH = 12 := by decide
  have hNL : SHADOW_NAMED_ROOT_LENGTH = 13 := by decide
  have hCL : SHADOW_CLASSIC_ROOT_LENGTH = 7 := by decide
  have h012 : u16add 0 SHADOW_PREFIX_LENGTH = 12 := by decide
  have hs0 : u16sub topicLength 0 = topicLength := u16sub_eq topicLength 0 (Nat.zero_le _) h16
  rw [Shadow_MatchTopicString_status_stages] at hs
  have hof := Shadow_MatchTopicString_of_stages pTopic topicLength pMessageType (some x) (some y)
    (some z) (some w)
  rw [if_pos hs] at hof
  rcases Shadow_MatchTopicString_stages_cases pTopic topicLength pMessageType with
    ⟨_, hK⟩ | ⟨_, _, hK⟩ | ⟨_, _, _, hK⟩ | ⟨_, hs1, m, hn, hK⟩
  · rw [hK] at hs; cases hs
  · rw [hK] at hs; cases hs
  · rw [hK] at hs; cases hs
  · have hle := containsSubString_success_le _ _ _ _ hs1
    rw [hs0, hPL] at hle
    have hs12 : u16sub topicLength 12 = topicLength - 12 := u16sub_eq topicLength 12 hle h16
    rw [h012] at hK
    rw [h012, hs12] at hn
    have hn1 : (validateName ((pTopic.getD []).drop 12) (topicLength - 12) 0).1
        = SHADOW_SUCCESS := by rw [hn]
    obtain ⟨hpos, hlt, _⟩ := validateName_success _ _ _ hn1
    rw [hn] at hpos hlt
    dsimp only at hpos hlt
    have hadd : u16add 12 m = 12 + m := u16add_eq 12 m (by omega)
    rw [hadd] at hK
    obtain ⟨hr1, hr2, hr3, _⟩ :=
      extractShadowRootAndName_cursor (pTopic.getD []) topicLength (12 + m) 0 (by omega) h16
    rw [hK] at hs hof
    dsimp only at hs hof
    have hroot : (extractShadowRootAndName (pTopic.getD []) topicLength (12 + m) 0).1
        = SHADOW_SUCCESS := by
      by_cases hr : (extractShadowRootAndName (pTopic.getD []) topicLength (12 + m) 0).1
          = SHADOW_SUCCESS
      · exact hr
      · rw [if_neg hr] at hs; exact hs
    rw [if_pos hroot] at hs
    have hmsg : (extractShadowMessageType
        ((pTopic.getD []).drop (extractShadowRootAndName (pTopic.getD []) topicLength
          (12 + m) 0).2.1)
        (u16sub topicLength (extractShadowRootAndName (pTopic.getD []) topicLength
          (12 + m) 0).2.1)
        (pMessageType.getD ShadowMessageTypeMaxNum)).1 = SHADOW_SUCCESS := by
      by_cases hm : (extractShadowMessageType
          ((pTopic.getD []).drop (extractShadowRootAndName (pTopic.getD []) topicLength
            (12 + m) 0).2.1)
          (u16sub topicLength (extractShadowRootAndName (pTopic.getD []) topicLength
            (12 + m) 0).2.1)
          (pMessageType.getD ShadowMessageTypeMaxNum)).1 = SHADOW_SUCCESS
      · exact hm
      · rw [if_pos hm] at hs; cases hs
    have hsub3 := u16sub_eq topicLength _ hr2 h16
    rw [hsub3] at hmsg
    rcases extractShadowMessageType_spec
        ((pTopic.getD []).drop (extractShadowRootAndName (pTopic.getD []) topicLength
          (12 + m) 0).2.1)
        (topicLength - (extractShadowRootAndName (pTopic.getD []) topicLength (12 + m) 0).2.1)
        (pMessageType.getD ShadowMessageTypeMaxNum) with
      ⟨t, hne, hlen, htake, _⟩ | ⟨_, hfail⟩
    · have hge := messageLiteral_length_ge t hne
      rw [hof, hPL, hNL]
      refine ⟨m, (extractShadowRootAndName (pTopic.getD []) topicLength (12 + m) 0).2.2,
        rfl, rfl, rfl, rfl, hpos, by omega, ?_, ?_⟩
      · rcases hr3 hroot with ⟨ha, _, _⟩ | ⟨ha, hb⟩
        · rw [hNL] at ha; omega
        · rw [hCL] at ha; rw [hb]; omega
      · intro hz
        rcases hr3 hroot with ⟨_, hb, _⟩ | ⟨ha, _⟩
        · omega
        · rw [hCL] at ha
          rw [ha] at htake hlen
          exact ⟨t, hne, htake, by omega, by omega, by omega⟩
    · rw [hfail] at hmsg
      cases hmsg

/-- Witness of C33: the classic topic `$aws/things/Thing1/shadow/update/delta` of
38 bytes, where the shadow name offset is 31, inside `/update/delta`. -/
theorem C33_spans_inside_topic_witness :
    ∃ n sn,
      (Shadow_MatchTopicString (some (cstr "$aws/things/Thing1/shadow/update/delta")) 38
        (some ShadowMessageTypeMaxNum) (some CharPtr.null) (some 0) (some CharPtr.null)
        (some 0)).thingName = some (CharPtr.topicAt 12) ∧
      (Shadow_MatchTopicString (some (cstr "$aws/things/Thing1/shadow/update/delta")) 38
        (some ShadowMessageTypeMaxNum) (some CharPtr.null) (some 0) (some CharPtr.null)
        (some 0)).thingNameLength = some n ∧
      (Shadow_MatchTopicString (some (cstr "$aws/things/Thing1/shadow/update/delta")) 38
        (some ShadowMessageTypeMaxNum) (some CharPtr.null) (some 0) (some CharPtr.null)
        (some 0)).shadowName = some (CharPtr.topicAt (12 + n + 13)) ∧
      (Shadow_MatchTopicString (some (cstr "$aws/things/Thing1/shadow/update/delta")) 38
        (some ShadowMessageTypeMaxNum) (some CharPtr.null) (some 0) (some CharPtr.null)
        (some 0)).shadowNameLength = some sn ∧
      0 < n ∧ 12 + n ≤ 38 ∧ 12 + n + 13 + sn ≤ 38 ∧
      (sn = 0 → ∃ t, t ≠ ShadowMessageTypeMaxNum ∧
        (((some (cstr "$aws/things/Thing1/shadow/update/delta")).getD []).drop
          (12 + n + 7)).take (38 - (12 + n + 7)) = messageLiteral t ∧
        12 + n + 7 + (messageLiteral t).length = 38 ∧
        12 + n + 7 < 12 + n + 13 ∧ 12 + n + 13 < 12 + n + 7 + (messageLiteral t).length) :=
  C33_spans_inside_topic (some (cstr "$aws/things/Thing1/shadow/update/delta")) 38
    (some ShadowMessageTypeMaxNum) CharPtr.null 0 CharPtr.null 0 (by decide) (by decide)

/-- C34 (length arithmetic is exact): for `thingNameLength` and `shadowNameLength`
in 0..255 and every topic type, the 16-bit length `Shadow_AssembleTopicString`
computes is the exact sum, at most `12 + 255 + 13 + 255 + 17 = 552`, without
wrap-around; on success `*pOutLength` is that sum, it is at most `bufferSize`,
and the buffer keeps its size and every byte at an index `>= *pOutLength`. -/
theorem C34_length_arithmetic_exact (topicType : ShadowTopicStringType_t)
    (pThingName : Option (List Byte)) (thingNameLength : Nat)
    (pShadowName : Option (List Byte)) (shadowNameLength : Nat)
    (pTopicBuffer : Option (List Byte)) (bufferSize : Nat) (pOutLength : Option Nat)
    (h8a : thingNameLength ≤ 255) (h8b : shadowNameLength ≤ 255)
    (hthingMem : ∀ m, pThingName = some m → thingNameLength ≤ m.length)
    (hshadowMem : ∀ m, pShadowName = some m → shadowNameLength ≤ m.length)
    (hbufMem : ∀ m, pTopicBuffer = some m → bufferSize ≤ m.length) :
    (SHADOW_PREFIX_LENGTH + thingNameLength +
        (if shadowNameLength > 0 then SHADOW_NAMED_ROOT_LENGTH + shadowNameLength
         else SHADOW_CLASSIC_ROOT_LENGTH) + getShadowOperationLength topicType) % 65536 =
      SHADOW_PREFIX_LENGTH + thingNameLength +
        (if shadowNameLength > 0 then SHADOW_NAMED_ROOT_LENGTH + shadowNameLength
         else SHADOW_CLASSIC_ROOT_LENGTH) + getShadowOperationLength topicType ∧
    SHADOW_PREFIX_LENGTH + thingNameLength +
        (if shadowNameLength > 0 then SHADOW_NAMED_ROOT_LENGTH + shadowNameLength
         else SHADOW_CLASSIC_ROOT_LENGTH) + getShadowOperationLength topicType
      ≤ 12 + 255 + 13 + 255 + 17 ∧
    12 + 255 + 13 + 255 + 17 = 552 ∧
    ((Shadow_AssembleTopicString topicType pThingName thingNameLength pShadowName
        shadowNameLength pTopicBuffer bufferSize pOutLength).status = SHADOW_SUCCESS →
      ∃ buffer out n, pTopicBuffer = some buffer ∧
        (Shadow_AssembleTopicString topicType pThingName thingNameLength pShadowName
          shadowNameLength pTopicBuffer bufferSize pOutLength).topicBuffer = some out ∧
        (Shadow_AssembleTopicString topicType pThingName thingNameLength pShadowName
          shadowNameLength pTopicBuffer bufferSize pOutLength).outLength = some n ∧
        n = SHADOW_PREFIX_LENGTH + thingNameLength +
          (if shadowNameLength > 0 then SHADOW_NAMED_ROOT_LENGTH + shadowNameLength
           else SHADOW_CLASSIC_ROOT_LENGTH) + getShadowOperationLength topicType ∧
        n ≤ bufferSize ∧ out.length = buffer.length ∧
        ∀ i, n ≤ i → out[i]? = buffer[i]?) := by
  have hPL : SHADOW_PREFIX_LENGTH = 12 := by decide
  have hNL : SHADOW_NAMED_ROOT_LENGTH = 13 := by decide
  have hCL : SHADOW_CLASSIC_ROOT_LENGTH = 7 := by decide
  have hop := getShadowOperationLength_le topicType
  have hle : SHADOW_PREFIX_LENGTH + thingNameLength +
      (if shadowNameLength > 0 then SHADOW_NAMED_ROOT_LENGTH + shadowNameLength
       else SHADOW_CLASSIC_ROOT_LENGTH) + getShadowOperationLength topicType
      ≤ 12 + 255 + 13 + 255 + 17 := by
    rw [hPL, hNL, hCL]
    by_cases hz : shadowNameLength > 0
    · rw [if_pos hz]; omega
    · rw [if_neg hz]; omega
  refine ⟨Nat.mod_eq_of_lt (by omega), hle, by decide, ?_⟩
  intro hs
  obtain ⟨thing, buffer, ol0, rfl, rfl, rfl, hlt, htn, htl, hsl, hreq, hbl, hR⟩ :=
    Shadow_AssembleTopicString_success_inv topicType pThingName thingNameLength pShadowName
      shadowNameLength pTopicBuffer bufferSize pOutLength (by omega) (by omega)
      hthingMem hshadowMem hbufMem hs
  have hlen := assembled_length topicType thing (pShadowName.getD []) thingNameLength
    shadowNameLength htl hsl
  have hsum : requiredLength topicType thingNameLength shadowNameLength =
      SHADOW_PREFIX_LENGTH + thingNameLength +
        (if shadowNameLength > 0 then SHADOW_NAMED_ROOT_LENGTH + shadowNameLength
         else SHADOW_CLASSIC_ROOT_LENGTH) + getShadowOperationLength topicType := by
    unfold requiredLength
    rw [hPL, hNL, hCL, (getShadowOperation_eq topicType hlt).2]
  rw [hR]
  refine ⟨buffer, _, _, rfl, rfl, rfl, hsum, hreq, ?_, ?_⟩
  · rw [List.length_append, hlen, List.length_drop]
    omega
  · intro i hi
    rw [List.getElem?_append_right (by rw [hlen]; exact hi), hlen, List.getElem?_drop]
    congr 1
    omega

/-- Witness of C34: `UpdateDocuments` for thing `Thing1` and shadow `Shadow1` in a
buffer of 64 bytes needs exactly 12 + 6 + 13 + 7 + 17 = 55 bytes. -/
theorem C34_length_arithmetic_exact_witness :
    SHADOW_PREFIX_LENGTH + 6 +
        (if 7 > 0 then SHADOW_NAMED_ROOT_LENGTH + 7 else SHADOW_CLASSIC_ROOT_LENGTH) +
        getShadowOperationLength ShadowTopicStringTypeUpdateDocuments = 55 ∧
    ∃ buffer out n, some (List.replicate 64 0) = some buffer ∧
      (Shadow_AssembleTopicString ShadowTopicStringTypeUpdateDocuments (some (cstr "Thing1")) 6
        (some (cstr "Shadow1")) 7 (some (List.replicate 64 0)) 64 (some 0)).topicBuffer
          = some out ∧
      (Shadow_AssembleTopicString ShadowTopicStringTypeUpdateDocuments (some (cstr "Thing1")) 6
        (some (cstr "Shadow1")) 7 (some (List.replicate 64 0)) 64 (some 0)).outLength
          = some n ∧
      n = SHADOW_PREFIX_LENGTH + 6 +
        (if 7 > 0 then SHADOW_NAMED_ROOT_LENGTH + 7 else SHADOW_CLASSIC_ROOT_LENGTH) +
        getShadowOperationLength ShadowTopicStringTypeUpdateDocuments ∧
      n ≤ 64 ∧ out.length = buffer.length ∧
      ∀ i, n ≤ i → out[i]? = buffer[i]? :=
  ⟨by decide,
    (C34_length_arithmetic_exact ShadowTopicStringTypeUpdateDocuments (some (cstr "Thing1")) 6
      (some (cstr "Shadow1")) 7 (some (List.replicate 64 0)) 64 (some 0) (by decide) (by decide)
      (by intro m hm; cases hm; decide) (by intro m hm; cases hm; decide)
      (by intro m hm; cases hm; decide)).2.2.2 (by decide)⟩


/-- C35 (status ranges): `Shadow_MatchTopicString` returns one of `SHADOW_SUCCESS`,
`SHADOW_FAIL`, `SHADOW_BAD_PARAMETER`, `SHADOW_THINGNAME_PARSE_FAILED`,
`SHADOW_ROOT_PARSE_FAILED`, `SHADOW_SHADOWNAME_PARSE_FAILED` and
`SHADOW_MESSAGE_TYPE_PARSE_FAILED`, never `SHADOW_BUFFER_TOO_SMALL`, and the
status is that of the first stage that fails (parameter check, prefix, thing
name, root and shadow name, message type), each stage being the call of its
function at the cursor left by the stages before it;
`Shadow_AssembleTopicString` returns one of `SHADOW_SUCCESS`,
`SHADOW_BAD_PARAMETER` and `SHADOW_BUFFER_TOO_SMALL`. -/
theorem C35_status_ranges (pTopic : Option (List Byte)) (topicLength : Nat)
    (pMessageType : Option ShadowMessageType_t)
    (a : Option CharPtr) (b : Option Nat) (c : Option CharPtr) (d : Option Nat)
    (topicType : ShadowTopicStringType_t)
    (pThingName : Option (List Byte)) (thingNameLength : Nat)
    (pShadowName : Option (List Byte)) (shadowNameLength : Nat)
    (pTopicBuffer : Option (List Byte)) (bufferSize : Nat) (pOutLength : Option Nat) :
    ((Shadow_MatchTopicString pTopic topicLength pMessageType a b c d).status = SHADOW_SUCCESS ∨
      (Shadow_MatchTopicString pTopic topicLength pMessageType a b c d).status = SHADOW_FAIL ∨
      (Shadow_MatchTopicString pTopic topicLength pMessageType a b c d).status
        = SHADOW_BAD_PARAMETER ∨
      (Shadow_MatchTopicString pTopic topicLength pMessageType a b c d).status
        = SHADOW_THINGNAME_PARSE_FAILED ∨
      (Shadow_MatchTopicString pTopic topicLength pMessageType a b c d).status
        = SHADOW_ROOT_PARSE_FAILED ∨
      (Shadow_MatchTopicString pTopic topicLength pMessageType a b c d).status
        = SHADOW_SHADOWNAME_PARSE_FAILED ∨
      (Shadow_MatchTopicString pTopic topicLength pMessageType a b c d).status
        = SHADOW_MESSAGE_TYPE_PARSE_FAILED) ∧
    (Shadow_MatchTopicString pTopic topicLength pMessageType a b c d).status
      ≠ SHADOW_BUFFER_TOO_SMALL ∧
    (Shadow_MatchTopicString pTopic topicLength pMessageType a b c d).status =
      (if validateMatchTopicParameters pTopic topicLength pMessageType ≠ SHADOW_SUCCESS then
        SHADOW_BAD_PARAMETER
      else if containsSubString ((pTopic.getD []).drop 0) (u16sub topicLength 0) SHADOW_PREFIX
          SHADOW_PREFIX_LENGTH ≠ SHADOW_SUCCESS then
        SHADOW_FAIL
      else if (validateName
          ((pTopic.getD []).drop
            (Shadow_MatchTopicString_stages pTopic topicLength pMessageType).consumedTopicLength1)
          (u16sub topicLength
            (Shadow_MatchTopicString_stages pTopic topicLength pMessageType).consumedTopicLength1)
          0).1 ≠ SHADOW_SUCCESS then
        SHADOW_THINGNAME_PARSE_FAILED
      else if (extractShadowRootAndName (pTopic.getD []) topicLength
          (Shadow_MatchTopicString_stages pTopic topicLength pMessageType).consumedTopicLength2
          0).1 ≠ SHADOW_SUCCESS then
        (extractShadowRootAndName (pTopic.getD []) topicLength
          (Shadow_MatchTopicString_stages pTopic topicLength pMessageType).consumedTopicLength2
          0).1
      else if (extractShadowMessageType
          ((pTopic.getD []).drop
            (Shadow_MatchTopicString_stages pTopic topicLength pMessageType).root.2.1)
          (u16sub topicLength
            (Shadow_MatchTopicString_stages pTopic topicLength pMessageType).root.2.1)
          (pMessageType.getD ShadowMessageTypeMaxNum)).1 ≠ SHADOW_SUCCESS then
        SHADOW_MESSAGE_TYPE_PARSE_FAILED
      else SHADOW_SUCCESS) ∧
    ((extractShadowRootAndName (pTopic.getD []) topicLength
        (Shadow_MatchTopicString_stages pTopic topicLength pMessageType).consumedTopicLength2
        0).1 = SHADOW_SUCCESS ∨
      (extractShadowRootAndName (pTopic.getD []) topicLength
        (Shadow_MatchTopicString_stages pTopic topicLength pMessageType).consumedTopicLength2
        0).1 = SHADOW_SHADOWNAME_PARSE_FAILED ∨
      (extractShadowRootAndName (pTopic.getD []) topicLength
        (Shadow_MatchTopicString_stages pTopic topicLength pMessageType).consumedTopicLength2
        0).1 = SHADOW_ROOT_PARSE_FAILED) ∧
    ((Shadow_AssembleTopicString topicType pThingName thingNameLength pShadowName
        shadowNameLength pTopicBuffer bufferSize pOutLength).status = SHADOW_SUCCESS ∨
      (Shadow_AssembleTopicString topicType pThingName thingNameLength pShadowName
        shadowNameLength pTopicBuffer bufferSize pOutLength).status = SHADOW_BAD_PARAMETER ∨
      (Shadow_AssembleTopicString topicType pThingName thingNameLength pShadowName
        shadowNameLength pTopicBuffer bufferSize pOutLength).status
          = SHADOW_BUFFER_TOO_SMALL) := by
  have hasm : (Shadow_AssembleTopicString topicType pThingName thingNameLength pShadowName
        shadowNameLength pTopicBuffer bufferSize pOutLength).status = SHADOW_SUCCESS ∨
      (Shadow_AssembleTopicString topicType pThingName thingNameLength pShadowName
        shadowNameLength pTopicBuffer bufferSize pOutLength).status = SHADOW_BAD_PARAMETER ∨
      (Shadow_AssembleTopicString topicType pThingName thingNameLength pShadowName
        shadowNameLength pTopicBuffer bufferSize pOutLength).status
          = SHADOW_BUFFER_TOO_SMALL := by
    by_cases hb : pTopicBuffer = none ∨ pThingName = none ∨ thingNameLength = 0 ∨
        (pShadowName = none ∧ shadowNameLength > 0) ∨
        topicType ≥ ShadowTopicStringTypeMaxNum ∨ pOutLength = none
    · right; left
      exact (Shadow_AssembleTopicString_bad _ _ _ _ _ _ _ _).mpr hb
    · unfold Shadow_AssembleTopicString
      rw [if_neg hb]
      dsimp only
      by_cases hsmall : bufferSize < (SHADOW_PREFIX_LENGTH + thingNameLength +
          (if shadowNameLength > 0 then SHADOW_NAMED_ROOT_LENGTH + shadowNameLength
           else SHADOW_CLASSIC_ROOT_LENGTH) + getShadowOperationLength topicType) % 65536
      · rw [if_pos hsmall]; right; right; rfl
      · rw [if_neg hsmall]; left; rfl
  have hroot := extractShadowRootAndName_cases (pTopic.getD []) topicLength
    (Shadow_MatchTopicString_stages pTopic topicLength pMessageType).consumedTopicLength2 0
  have key : (Shadow_MatchTopicString_stages pTopic topicLength pMessageType).shadowStatus4 =
      (if validateMatchTopicParameters pTopic topicLength pMessageType ≠ SHADOW_SUCCESS then
        SHADOW_BAD_PARAMETER
      else if containsSubString ((pTopic.getD []).drop 0) (u16sub topicLength 0) SHADOW_PREFIX
          SHADOW_PREFIX_LENGTH ≠ SHADOW_SUCCESS then
        SHADOW_FAIL
      else if (validateName
          ((pTopic.getD []).drop
            (Shadow_MatchTopicString_stages pTopic topicLength pMessageType).consumedTopicLength1)
          (u16sub topicLength
            (Shadow_MatchTopicString_stages pTopic topicLength pMessageType).consumedTopicLength1)
          0).1 ≠ SHADOW_SUCCESS then
        SHADOW_THINGNAME_PARSE_FAILED
      else if (extractShadowRootAndName (pTopic.getD []) topicLength
          (Shadow_MatchTopicString_stages pTopic topicLength pMessageType).consumedTopicLength2
          0).1 ≠ SHADOW_SUCCESS then
        (extractShadowRootAndName (pTopic.getD []) topicLength
          (Shadow_MatchTopicString_stages pTopic topicLength pMessageType).consumedTopicLength2
          0).1
      else if (extractShadowMessageType
          ((pTopic.getD []).drop
            (Shadow_MatchTopicString_stages pTopic topicLength pMessageType).root.2.1)
          (u16sub topicLength
            (Shadow_MatchTopicString_stages pTopic topicLength pMessageType).root.2.1)
          (pMessageType.getD ShadowMessageTypeMaxNum)).1 ≠ SHADOW_SUCCESS then
        SHADOW_MESSAGE_TYPE_PARSE_FAILED
      else SHADOW_SUCCESS) := by
    rcases Shadow_MatchTopicString_stages_cases pTopic topicLength pMessageType with
      ⟨hv, hK⟩ | ⟨hv, hs1, hK⟩ | ⟨hv, hs1, hn, hK⟩ | ⟨hv, hs1, m, hn, hK⟩
    · rw [hK, hv]
      simp only [ne_eq, reduceCtorEq, not_false_eq_true, if_true]
    · rw [hK, hv, hs1]
      simp only [ne_eq, reduceCtorEq, not_false_eq_true, if_true, not_true_eq_false, if_false]
    · rw [hK, hv, hs1]
      simp only [ne_eq, reduceCtorEq, not_false_eq_true, if_true, not_true_eq_false, if_false,
        hn]
    · rw [hK, hv, hs1]
      simp only [ne_eq, not_true_eq_false, if_false, hn]
      by_cases hr : (extractShadowRootAndName (pTopic.getD []) topicLength
          (u16add (u16add 0 SHADOW_PREFIX_LENGTH) m) 0).1 = SHADOW_SUCCESS
      · simp only [hr, if_true, not_true_eq_false, if_false]
        by_cases hm : (extractShadowMessageType
            ((pTopic.getD []).drop (extractShadowRootAndName (pTopic.getD []) topicLength
              (u16add (u16add 0 SHADOW_PREFIX_LENGTH) m) 0).2.1)
            (u16sub topicLength (extractShadowRootAndName (pTopic.getD []) topicLength
              (u16add (u16add 0 SHADOW_PREFIX_LENGTH) m) 0).2.1)
            (pMessageType.getD ShadowMessageTypeMaxNum)).1 = SHADOW_SUCCESS
        · simp only [hm, not_true_eq_false, if_false]
        · simp only [hm, not_false_eq_true, if_true]
      · simp only [hr, if_false, not_false_eq_true, if_true]
  rw [Shadow_MatchTopicString_status_stages]
  refine ⟨?_, ?_, key, hroot, hasm⟩
  · rw [key]
    split_ifs with h1 h2 h3 h4 h5
    · right; right; left; rfl
    · right; left; rfl
    · right; right; right; left; rfl
    · rcases hroot with h | h | h
      · exact absurd h h4
      · right; right; right; right; right; left; exact h
      · right; right; right; right; left; exact h
    · right; right; right; right; right; right; rfl
    · left; rfl
  · rw [key]
    split_ifs with h1 h2 h3 h4 h5
    · intro h; cases h
    · intro h; cases h
    · intro h; cases h
    · rcases hroot with h | h | h
      · exact absurd h h4
      · rw [h]; intro h'; cases h'
      · rw [h]; intro h'; cases h'
    · intro h; cases h
    · intro h; cases h


/-- C36 (`containsSubString` is a test on the first bytes): for every string,
with or without NUL bytes, and every NUL-free literal, `containsSubString`
returns `SHADOW_SUCCESS` exactly when `stringLength` is at least the literal's
length and the first bytes of the string are the literal, and `SHADOW_FAIL`
otherwise; all literals of the grammar are NUL-free, and a NUL inside the topic
makes the comparison fail, not stop early with a match. -/
theorem C36_containsSubString_byte_test (pString : List Byte) (stringLength : Nat)
    (pSubString : List Byte) (hsub : ∀ b ∈ pSubString, b ≠ 0) :
    (containsSubString pString stringLength pSubString pSubString.length = SHADOW_SUCCESS ↔
      stringLength ≥ pSubString.length ∧ pString.take pSubString.length = pSubString) ∧
    (containsSubString pString stringLength pSubString pSubString.length = SHADOW_FAIL ↔
      ¬ (stringLength ≥ pSubString.length ∧ pString.take pSubString.length = pSubString)) ∧
    (∀ lit ∈ SHADOW_PREFIX :: SHADOW_NAMED_ROOT :: SHADOW_CLASSIC_ROOT :: pMessageStrings,
      ∀ b ∈ lit, b ≠ 0) ∧
    SHADOW_PREFIX_LENGTH = SHADOW_PREFIX.length ∧
    SHADOW_NAMED_ROOT_LENGTH = SHADOW_NAMED_ROOT.length ∧
    SHADOW_CLASSIC_ROOT_LENGTH = SHADOW_CLASSIC_ROOT.length ∧
    pMessageStringsLength = pMessageStrings.map List.length ∧
    containsSubString (cstr "$aws" ++ [0] ++ cstr "things/") 12 SHADOW_PREFIX SHADOW_PREFIX_LENGTH
      = SHADOW_FAIL ∧
    containsSubString (cstr "$aws/things/" ++ [0, 65]) 14 SHADOW_PREFIX SHADOW_PREFIX_LENGTH
      = SHADOW_SUCCESS := by
  have h := containsSubString_eq pSubString hsub pString stringLength
  refine ⟨?_, ?_, by decide, rfl, rfl, rfl, rfl, by decide, by decide⟩
  · rw [h]
    constructor
    · intro hs
      by_cases hc : pSubString.length ≤ stringLength ∧ pString.take pSubString.length = pSubString
      · exact hc
      · rw [if_neg hc] at hs; cases hs
    · intro hc
      rw [if_pos hc]
  · rw [h]
    constructor
    · intro hs hc
      rw [if_pos hc] at hs; cases hs
    · intro hc
      rw [if_neg hc]

/-- Witness of C36: the prefix literal against a topic that begins with it. -/
theorem C36_containsSubString_byte_test_witness :
    (containsSubString (cstr "$aws/things/Thing1") 18 SHADOW_PREFIX SHADOW_PREFIX.length
        = SHADOW_SUCCESS ↔
      18 ≥ SHADOW_PREFIX.length ∧ (cstr "$aws/things/Thing1").take SHADOW_PREFIX.length
        = SHADOW_PREFIX) ∧
    containsSubString (cstr "$aws/things/Thing1") 18 SHADOW_PREFIX SHADOW_PREFIX.length
      = SHADOW_SUCCESS :=
  ⟨(C36_containsSubString_byte_test (cstr "$aws/things/Thing1") 18 SHADOW_PREFIX
      (by decide)).1, by decide⟩

/-- C37 (the message literals are unambiguous): no literal of the table
`pMessageStrings` is the beginning of another one, so at most one of them passes
the test of `containsSubString` for a given input; `extractShadowMessageType`
gives the same result when its loop runs over the rows of its tables in any
other order; and it returns `SHADOW_SUCCESS` with type `t` exactly when the
input string is the literal of `t`. -/
theorem C37_message_literals_unambiguous (pString : List Byte) (stringLength : Nat)
    (pMessageType t u : ShadowMessageType_t)
    (table : List (List Byte × Nat × ShadowMessageType_t))
    (ht : t ≠ ShadowMessageTypeMaxNum) (hu : u ≠ ShadowMessageTypeMaxNum)
    (hperm : table.Perm messageTable) :
    pMessageStrings.Pairwise (fun x y => y.take x.length ≠ x ∧ x.take y.length ≠ y) ∧
    pMessageStrings = pMessageTypes.map messageLiteral ∧
    (containsSubString pString stringLength (messageLiteral t) (messageLiteral t).length
        = SHADOW_SUCCESS →
      containsSubString pString stringLength (messageLiteral u) (messageLiteral u).length
        = SHADOW_SUCCESS → t = u) ∧
    extractShadowMessageTypeOver pString stringLength table SHADOW_FAIL pMessageType =
      extractShadowMessageType pString stringLength pMessageType ∧
    (extractShadowMessageType pString stringLength pMessageType = (SHADOW_SUCCESS, t) ↔
      stringLength = (messageLiteral t).length ∧
        pString.take stringLength = messageLiteral t) ∧
    ((extractShadowMessageType pString stringLength pMessageType).1 = SHADOW_SUCCESS ∨
      extractShadowMessageType pString stringLength pMessageType
        = (SHADOW_FAIL, pMessageType)) := by
  have hnul : ∀ v : ShadowMessageType_t, ∀ b ∈ messageLiteral v, b ≠ 0 := by
    intro v
    cases v <;> decide
  refine ⟨by decide, rfl, ?_, ?_, ?_, extractShadowMessageType_cases _ _ _⟩
  · intro h1 h2
    rw [containsSubString_eq _ (hnul t)] at h1
    rw [containsSubString_eq _ (hnul u)] at h2
    have h1' : (messageLiteral t).length ≤ stringLength ∧
        pString.take (messageLiteral t).length = messageLiteral t := by
      by_cases hc : (messageLiteral t).length ≤ stringLength ∧
          pString.take (messageLiteral t).length = messageLiteral t
      · exact hc
      · rw [if_neg hc] at h1; cases h1
    have h2' : (messageLiteral u).length ≤ stringLength ∧
        pString.take (messageLiteral u).length = messageLiteral u := by
      by_cases hc : (messageLiteral u).length ≤ stringLength ∧
          pString.take (messageLiteral u).length = messageLiteral u
      · exact hc
      · rw [if_neg hc] at h2; cases h2
    rcases Nat.le_total (messageLiteral t).length (messageLiteral u).length with hle | hle
    · apply messageLiteral_no_extension t u ht
      rw [← h2'.2, List.take_take, Nat.min_eq_left hle, h1'.2]
    · symm
      apply messageLiteral_no_extension u t hu
      rw [← h1'.2, List.take_take, Nat.min_eq_left hle, h2'.2]
  · have hwf : ∀ row ∈ table, row.2.1 = row.1.length ∧ ∀ b ∈ row.1, b ≠ 0 :=
      fun row hr => (messageTable_rows row (hperm.mem_iff.mp hr)).1
    rcases extractShadowMessageTypeOver_spec pString stringLength pMessageType table hwf with
      ⟨r, hr, hrm, hres⟩ | ⟨hnone, hres⟩
    · obtain ⟨_, hlit, hne⟩ := messageTable_rows r (hperm.mem_iff.mp hr)
      rcases extractShadowMessageType_spec pString stringLength pMessageType with
        ⟨v, hv, hvl, hvt, hvres⟩ | ⟨hno, _⟩
      · have hrv : r.2.2 = v := by
          apply messageLiteral_injective r.2.2 v hne
          rw [← hlit, ← hrm.2, hvt]
        rw [hres, hvres, hrv]
      · exfalso
        apply hno r.2.2 hne
        rw [← hlit]
        exact hrm
    · rcases extractShadowMessageType_spec pString stringLength pMessageType with
        ⟨v, hv, hvl, hvt, _⟩ | ⟨_, hfail⟩
      · exfalso
        exact hnone _ (hperm.mem_iff.mpr (messageTable_complete v hv)) ⟨hvl, hvt⟩
      · rw [hres, hfail]
  · constructor
    · intro h
      rcases extractShadowMessageType_spec pString stringLength pMessageType with
        ⟨v, _, hvl, hvt, hvres⟩ | ⟨_, hfail⟩
      · rw [hvres] at h
        injection h with _ h2
        subst h2
        exact ⟨hvl, hvt⟩
      · rw [hfail] at h
        injection h with h1 _
        cases h1
    · intro h
      rcases extractShadowMessageType_spec pString stringLength pMessageType with
        ⟨v, hv, hvl, hvt, hvres⟩ | ⟨hno, _⟩
      · have : t = v := by
          apply messageLiteral_injective t v ht
          rw [← h.2, hvt]
        rw [this]; exact hvres
      · exact absurd h (hno t ht)

/-- Witness of C37: the tables in reverse order on the input `/update/delta`. -/
theorem C37_message_literals_unambiguous_witness :
    extractShadowMessageTypeOver (cstr "/update/delta") 13 messageTable.reverse SHADOW_FAIL
        ShadowMessageTypeMaxNum =
      extractShadowMessageType (cstr "/update/delta") 13 ShadowMessageTypeMaxNum ∧
    extractShadowMessageType (cstr "/update/delta") 13 ShadowMessageTypeMaxNum
      = (SHADOW_SUCCESS, ShadowMessageTypeUpdateDelta) :=
  ⟨(C37_message_literals_unambiguous (cstr "/update/delta") 13 ShadowMessageTypeMaxNum
      ShadowMessageTypeUpdateDelta ShadowMessageTypeUpdateDocuments messageTable.reverse
      (by decide) (by decide) (List.reverse_perm _)).2.2.2.1, by decide⟩

end Shadow
